import Mathlib

/-!
# VulkanGraphicsWindow: swapchain and frame life cycle

A shallow embedding of `panda/src/vulkandisplay/vulkanGraphicsWindow.cxx`.

* Vulkan handles are natural numbers, `0` being `VK_NULL_HANDLE`.
* Vulkan enumerations and bit masks keep their numeric values.
* The window object is a record; every member function is a function from
  the record (and the answers of the device) to an outcome carrying the new
  record.  An outcome is either a normal return or a fault: the point where
  the C++ code dereferences a null pointer or reads an uninitialised one, or
  where an `assert` ends the program.
* Every call that leaves the window (Vulkan entry points, GSG methods,
  texture-context methods) is appended to the `trace` field of the record, as
  is an entry marker for `setup_render_pass`, `destroy_swapchain` and
  `create_swapchain`.
* The pipe of the window is the Vulkan pipe and a GSG bound to it is the
  Vulkan GSG: `DCAST_INTO_R` and `DCAST_INTO_V` succeed on a pointer that is
  not null, and return from the function on a null one.
-/

namespace VulkanDisplay

/-! ## Vulkan enumerations -/

abbrev VkFormat := Nat
abbrev VkResult := Int
abbrev VkImageLayout := Nat
abbrev VkPresentModeKHR := Nat
abbrev Handle := Nat

def VK_NULL_HANDLE : Handle := 0

def VK_SUCCESS : VkResult := 0
def VK_SUBOPTIMAL_KHR : VkResult := 1000001003
def VK_ERROR_OUT_OF_DATE_KHR : VkResult := -1000001004

def VK_FORMAT_UNDEFINED : VkFormat := 0
def VK_FORMAT_R8G8B8A8_UNORM : VkFormat := 37
def VK_FORMAT_R8G8B8A8_SRGB : VkFormat := 43
def VK_FORMAT_B8G8R8A8_UNORM : VkFormat := 44
def VK_FORMAT_B8G8R8A8_SRGB : VkFormat := 50
def VK_FORMAT_X8_D24_UNORM_PACK32 : VkFormat := 125
def VK_FORMAT_D32_SFLOAT : VkFormat := 126
def VK_FORMAT_D24_UNORM_S8_UINT : VkFormat := 129
def VK_FORMAT_D32_SFLOAT_S8_UINT : VkFormat := 130

def VK_COLORSPACE_SRGB_NONLINEAR_KHR : Nat := 0

def VK_FORMAT_FEATURE_DEPTH_STENCIL_ATTACHMENT_BIT : Nat := 0x200

def VK_IMAGE_ASPECT_COLOR_BIT : Nat := 1
def VK_IMAGE_ASPECT_DEPTH_BIT : Nat := 2
def VK_IMAGE_ASPECT_STENCIL_BIT : Nat := 4

def VK_IMAGE_LAYOUT_UNDEFINED : VkImageLayout := 0
def VK_IMAGE_LAYOUT_COLOR_ATTACHMENT_OPTIMAL : VkImageLayout := 2
def VK_IMAGE_LAYOUT_DEPTH_STENCIL_ATTACHMENT_OPTIMAL : VkImageLayout := 3
def VK_IMAGE_LAYOUT_PRESENT_SRC_KHR : VkImageLayout := 1000001002

def VK_ATTACHMENT_LOAD_OP_LOAD : Nat := 0
def VK_ATTACHMENT_LOAD_OP_CLEAR : Nat := 1
def VK_ATTACHMENT_LOAD_OP_DONT_CARE : Nat := 2
def VK_ATTACHMENT_STORE_OP_STORE : Nat := 0
def VK_ATTACHMENT_STORE_OP_DONT_CARE : Nat := 1

def VK_PRESENT_MODE_IMMEDIATE_KHR : VkPresentModeKHR := 0
def VK_PRESENT_MODE_MAILBOX_KHR : VkPresentModeKHR := 1
def VK_PRESENT_MODE_FIFO_KHR : VkPresentModeKHR := 2

def VK_PIPELINE_STAGE_EARLY_FRAGMENT_TESTS_BIT : Nat := 0x100
def VK_PIPELINE_STAGE_LATE_FRAGMENT_TESTS_BIT : Nat := 0x200
def VK_PIPELINE_STAGE_COLOR_ATTACHMENT_OUTPUT_BIT : Nat := 0x400
def VK_ACCESS_COLOR_ATTACHMENT_WRITE_BIT : Nat := 0x100
def VK_ACCESS_DEPTH_STENCIL_ATTACHMENT_WRITE_BIT : Nat := 0x400

/-- Conversion of an `int` to `uint32_t`. -/
def toU32 (x : Int) : Nat := (x % 2 ^ 32).toNat

/-! ## Data model -/

inductive FrameMode where
  | FM_render
  | FM_parasite
  | FM_refresh
  deriving DecidableEq, Repr

structure VkSurfaceFormatKHR where
  format : VkFormat
  colorSpace : Nat
  deriving DecidableEq, Repr

structure VkExtent3D where
  width : Nat
  height : Nat
  depth : Nat
  deriving DecidableEq, Repr

structure VkAttachmentDescription where
  format : VkFormat
  loadOp : Nat
  storeOp : Nat
  stencilLoadOp : Nat
  stencilStoreOp : Nat
  initialLayout : VkImageLayout
  finalLayout : VkImageLayout
  deriving DecidableEq, Repr

/-- The render-pass description handed to `vkCreateRenderPass`: the array
`attachments[2]` with the number of entries the device is told to read, and
the single subpass, which names colour attachment 0 and, when
`pDepthStencilAttachment` is not null, the attachment index and layout of the
depth reference. -/
structure VkRenderPassCreateInfo where
  attachmentCount : Nat
  attachments : List VkAttachmentDescription
  colorAttachment : Nat × VkImageLayout
  depthStencilAttachment : Option (Nat × VkImageLayout)
  deriving DecidableEq, Repr

structure VkSwapchainCreateInfoKHR where
  surface : Handle
  minImageCount : Nat
  imageFormat : VkFormat
  imageColorSpace : Nat
  imageExtent : Nat × Nat
  presentMode : VkPresentModeKHR
  deriving DecidableEq, Repr

/-- The part of `FrameBufferProperties` the window reads and writes. -/
structure FrameBufferProperties where
  depth_bits : Int
  stencil_bits : Int
  float_depth : Bool
  srgb_color : Bool
  back_buffers : Int
  rgba_bits : Int × Int × Int × Int
  force_hardware : Bool
  force_software : Bool
  deriving DecidableEq, Repr

/-- The members of `VulkanTextureContext` the window touches. -/
structure VulkanTextureContext where
  image : Handle
  format : VkFormat
  image_view : Handle
  memory : Handle
  aspect_mask : Nat
  extent : VkExtent3D
  mip_levels : Nat
  array_layers : Nat
  layout : VkImageLayout
  access_mask : Nat
  stage_mask : Nat
  deriving DecidableEq, Repr

/-- One link of the swap chain.  `tc` is the pointer `_tc`; `none` is the
null pointer left by the `memset` in `create_swapchain`. -/
structure SwapBuffer where
  tc : Option VulkanTextureContext
  framebuffer : Handle
  deriving DecidableEq, Repr

/-- The members of `VulkanGraphicsStateGuardian` the window touches.
`fb_color_tc` is the index of the swap buffer whose texture context the GSG
points at, `fb_depth_tc` tells whether it points at the depth image. -/
structure Gsg where
  device : Handle
  queue : Handle
  cmd : Handle
  graphics_queue_family_index : Nat
  render_pass : Handle
  fb_color_tc : Option Nat
  fb_depth_tc : Bool
  is_hardware : Bool
  deriving DecidableEq, Repr

/-- Which image a texture-context call is made on. -/
inductive Target where
  | color (index : Nat)
  | depth_stencil
  deriving DecidableEq, Repr

/-- Calls that leave the window, in the order they are issued. -/
inductive Call where
  | vkQueueWaitIdle
  | setup_render_pass
  | vkCreateRenderPass (info : VkRenderPassCreateInfo)
  | destroy_swapchain
  | vkResetCommandBuffer
  | vkDestroyFramebuffer (h : Handle)
  | vkDestroyImageView (h : Handle)
  | vkDestroyImage (h : Handle)
  | vkFreeMemory (h : Handle)
  | vkDestroySwapchainKHR (h : Handle)
  | create_swapchain
  | vkGetPhysicalDeviceSurfaceCapabilitiesKHR
  | vkGetPhysicalDeviceSurfacePresentModesKHR
  | vkCreateSwapchainKHR (info : VkSwapchainCreateInfoKHR)
  | vkGetSwapchainImagesKHR
  | vkCreateImageView (image : Handle) (aspectMask : Nat)
  | vkCreateImage (format : VkFormat) (width height : Nat)
  | find_memory_type
  | vkAllocateMemory
  | vkBindImageMemory
  | vkCreateFramebuffer (renderPass : Handle) (attachments : List Handle)
  | gsg_begin_frame
  | vkCreateSemaphore
  | vkAcquireNextImageKHR
  | clear_color_image (target : Target)
  | transition (target : Target) (layout : VkImageLayout) (stage access : Nat)
  | vkCmdBeginRenderPass (renderPass framebuffer : Handle) (clearValueCount : Nat)
  | vkCmdEndRenderPass
  | copy_to_textures
  | gsg_end_frame
  | trigger_flip
  | clear_cube_map_selection
  | vkQueuePresentKHR (swapchain : Handle) (imageIndex : Nat)
  | vkDestroySemaphore (h : Handle)
  | vkDestroyRenderPass (h : Handle)
  | base_open_window
  | base_close_window
  | vkCreateSurfaceKHR
  | find_queue_family_for_surface
  | vkGetPhysicalDeviceSurfaceFormatsKHR
  | vkGetPhysicalDeviceFormatProperties (format : VkFormat)
  deriving DecidableEq, Repr

/-- The window object: the members of `VulkanGraphicsWindow` and of its base
classes that the functions below read or write, and the trace of calls. -/
structure Window where
  gsg : Option Gsg
  surface : Handle
  swapchain : Handle
  render_pass : Handle
  present_complete : Handle
  current_clear_mask : Int
  clear_mask : Int
  size : Int × Int
  swapchain_size : Int × Int
  unexposed_draw : Bool
  got_expose_event : Bool
  surface_format : VkSurfaceFormatKHR
  depth_stencil_format : VkFormat
  depth_stencil_aspect_mask : Nat
  depth_stencil_tc : Option VulkanTextureContext
  swap_buffers : List SwapBuffer
  image_index : Nat
  fb_properties : FrameBufferProperties
  trace : List Call
  deriving DecidableEq, Repr

/-- The answers of the world outside the window during one call of a member
function: the Vulkan device and surface, the pipe, the GSG. -/
structure Device where
  base_open_window : Bool
  create_surface : VkResult × Handle
  find_queue_family : Option Nat
  new_gsg : Gsg
  surface_formats_count_result : VkResult
  surface_formats_result : VkResult
  surface_formats : List VkSurfaceFormatKHR
  optimalTilingFeatures : VkFormat → Nat
  create_render_pass : VkResult × Handle
  surface_capabilities : VkResult × Nat × Nat
  present_modes : List VkPresentModeKHR
  create_swapchain : VkResult × Handle
  swapchain_images : List Handle
  create_image_view : Nat → VkResult × Handle
  create_image : VkResult × Handle
  find_memory_type : Bool
  allocate_memory : VkResult × Handle
  bind_image_memory : VkResult
  create_depth_view : VkResult × Handle
  create_framebuffer : Nat → VkResult × Handle
  gsg_begin_frame : Option Handle
  create_semaphore : VkResult × Handle
  acquire_next_image : Option Nat
  queue_present : VkResult
  queue_wait_idle : VkResult := VK_SUCCESS

/-- Outcome of a member function: a normal return with the value returned,
or a fault (null or uninitialised pointer dereferenced, index out of range,
or an `assert` that ends the program); both carry the window as it is at that
point. -/
inductive Run (α : Type) where
  | done (a : α) (w : Window)
  | fault (w : Window)

/-- Window carried by an outcome. -/
def Run.state {α : Type} : Run α → Window
  | .done _ w => w
  | .fault w => w

/-- Value returned, if the function returned. -/
def Run.value {α : Type} : Run α → Option α
  | .done a _ => some a
  | .fault _ => none

/-- Sequencing: a fault ends the run. -/
def Run.andThen {α β : Type} (r : Run α) (k : α → Window → Run β) : Run β :=
  match r with
  | .done a w => k a w
  | .fault w => .fault w

/-- Sequencing of two parts of a function returning bool: the second part
runs when the first did not return false. -/
def Run.andIf (r : Run Bool) (k : Window → Run Bool) : Run Bool :=
  match r with
  | .done true w => k w
  | .done false w => .done false w
  | .fault w => .fault w

/-- Modelled from the spec: the macro `nassertr(condition, value)` is defined
outside this file.  A condition that fails is a contract failure and the
function returns `value` at that point, with the window as it is; otherwise
the function goes on. -/
def nassertr {α : Type} (condition : Bool) (value : α) (w : Window) (rest : Run α) : Run α :=
  if condition then rest else .done value w

/-- Append a call to the trace. -/
def Window.log (w : Window) (c : Call) : Window :=
  { w with trace := w.trace ++ [c] }

/-! ## Clear flags

`DrawableRegion` keeps one bit per render-texture plane in `_clear_mask`. -/

/-- Modelled from the spec: the plane indices of `DrawableRegion` are declared
outside this file; the stencil clear flag is bit `RTP_stencil` of the
clear-flag bitmask. -/
def RTP_stencil : Nat := 0

/-- Modelled from the spec: the colour clear flag is bit `RTP_color` of the
clear-flag bitmask. -/
def RTP_color : Nat := 2

/-- Modelled from the spec: the depth clear flag is bit `RTP_depth` of the
clear-flag bitmask. -/
def RTP_depth : Nat := 15

def Window.get_clear_active (w : Window) (n : Nat) : Bool :=
  Int.testBit w.clear_mask n

def Window.get_clear_color_active (w : Window) : Bool :=
  w.get_clear_active RTP_color

def Window.get_clear_depth_active (w : Window) : Bool :=
  w.get_clear_active RTP_depth

def Window.get_clear_stencil_active (w : Window) : Bool :=
  w.get_clear_active RTP_stencil

/-! ## setup_render_pass (lines 531-638) -/

/-- Colour attachment description, lines 544-552 and 564-570. -/
def color_attachment (w : Window) : VkAttachmentDescription :=
  let a : VkAttachmentDescription :=
    { format := w.surface_format.format
      loadOp := VK_ATTACHMENT_LOAD_OP_DONT_CARE
      storeOp := VK_ATTACHMENT_STORE_OP_STORE
      stencilLoadOp := VK_ATTACHMENT_LOAD_OP_DONT_CARE
      stencilStoreOp := VK_ATTACHMENT_STORE_OP_DONT_CARE
      initialLayout := VK_IMAGE_LAYOUT_COLOR_ATTACHMENT_OPTIMAL
      finalLayout := VK_IMAGE_LAYOUT_PRESENT_SRC_KHR }
  if w.get_clear_color_active then
    { a with initialLayout := VK_IMAGE_LAYOUT_UNDEFINED, loadOp := VK_ATTACHMENT_LOAD_OP_CLEAR }
  else
    { a with loadOp := VK_ATTACHMENT_LOAD_OP_LOAD }

/-- Depth-stencil attachment description, lines 554-562 and 572-583. -/
def depth_stencil_attachment (w : Window) : VkAttachmentDescription :=
  let a : VkAttachmentDescription :=
    { format := w.depth_stencil_format
      loadOp := VK_ATTACHMENT_LOAD_OP_DONT_CARE
      storeOp := VK_ATTACHMENT_STORE_OP_DONT_CARE
      stencilLoadOp := VK_ATTACHMENT_LOAD_OP_DONT_CARE
      stencilStoreOp := VK_ATTACHMENT_STORE_OP_DONT_CARE
      initialLayout := VK_IMAGE_LAYOUT_DEPTH_STENCIL_ATTACHMENT_OPTIMAL
      finalLayout := VK_IMAGE_LAYOUT_DEPTH_STENCIL_ATTACHMENT_OPTIMAL }
  let a := if w.get_clear_depth_active then
    { a with loadOp := VK_ATTACHMENT_LOAD_OP_CLEAR } else a
  let a := if w.get_clear_stencil_active then
    { a with stencilLoadOp := VK_ATTACHMENT_LOAD_OP_CLEAR } else a
  if w.get_clear_depth_active && w.get_clear_stencil_active then
    { a with initialLayout := VK_IMAGE_LAYOUT_UNDEFINED }
  else a

/-- The `VkRenderPassCreateInfo` of lines 585-614. -/
def render_pass_info (w : Window) : VkRenderPassCreateInfo :=
  { attachmentCount := if w.depth_stencil_format ≠ 0 then 2 else 1
    attachments := [color_attachment w, depth_stencil_attachment w]
    colorAttachment := (0, VK_IMAGE_LAYOUT_COLOR_ATTACHMENT_OPTIMAL)
    depthStencilAttachment :=
      if w.depth_stencil_format ≠ 0 then
        some (1, VK_IMAGE_LAYOUT_DEPTH_STENCIL_ATTACHMENT_OPTIMAL)
      else none }

/-- The member function `VulkanGraphicsWindow::setup_render_pass`.
`DCAST_INTO_R` returns false when the GSG pointer is null.  The previous
render pass is not destroyed (lines 625-633). -/
def setup_render_pass (dev : Device) (w : Window) : Bool × Window :=
  let w := w.log .setup_render_pass
  match w.gsg with
  | none => (false, w)
  | some _ =>
    let w := w.log (.vkCreateRenderPass (render_pass_info w))
    if dev.create_render_pass.1 ≠ 0 then
      (false, w)
    else
      (true, { w with render_pass := dev.create_render_pass.2
                      current_clear_mask := w.clear_mask })

/-! ## destroy_swapchain (lines 644-696) -/

/-- The loop of lines 657-666 over the swap buffers: the calls it issues, and
whether it faulted, which it does at the first buffer whose `_tc` is null
(`buffer._tc->_image_view`, after the framebuffer of that buffer was
destroyed). -/
def destroy_swap_buffers : List SwapBuffer → List Call × Bool
  | [] => ([], false)
  | b :: bs =>
    match b.tc with
    | none => ([.vkDestroyFramebuffer b.framebuffer], true)
    | some tc =>
      (.vkDestroyFramebuffer b.framebuffer :: .vkDestroyImageView tc.image_view ::
        (destroy_swap_buffers bs).1, (destroy_swap_buffers bs).2)

/-- Lines 669-687: the calls that release the depth-stencil image, when
`_depth_stencil_tc` is not null; each handle is destroyed when it is not
null. -/
def destroy_depth_stencil (depth_stencil_tc : Option VulkanTextureContext) : List Call :=
  match depth_stencil_tc with
  | none => []
  | some tc =>
    (if tc.image_view ≠ VK_NULL_HANDLE then [Call.vkDestroyImageView tc.image_view] else []) ++
    (if tc.image ≠ VK_NULL_HANDLE then [Call.vkDestroyImage tc.image] else []) ++
    (if tc.memory ≠ VK_NULL_HANDLE then [Call.vkFreeMemory tc.memory] else [])

/-- The member function `VulkanGraphicsWindow::destroy_swapchain`.
`DCAST_INTO_V` returns when the GSG pointer is null.  After the loop over
the swap buffers (a fault when it meets a null `_tc`) the buffers are
cleared, the depth-stencil image and the swapchain are released and their
members reset, and the image index is set to 0. -/
def destroy_swapchain (w : Window) : Run Unit :=
  let w := w.log .destroy_swapchain
  match w.gsg with
  | none => .done () w
  | some vkgsg =>
    let reset : List Call :=
      if vkgsg.cmd ≠ VK_NULL_HANDLE then [.vkResetCommandBuffer] else []
    if (destroy_swap_buffers w.swap_buffers).2 then
      .fault { w with trace := w.trace ++ (reset ++ (destroy_swap_buffers w.swap_buffers).1) }
    else
      .done () { w with
        swap_buffers := []
        depth_stencil_tc := none
        swapchain := VK_NULL_HANDLE
        image_index := 0
        trace := w.trace ++ (reset ++ (destroy_swap_buffers w.swap_buffers).1 ++
          destroy_depth_stencil w.depth_stencil_tc ++
          (if w.swapchain ≠ VK_NULL_HANDLE then [.vkDestroySwapchainKHR w.swapchain] else [])) }

/-! ## create_swapchain (lines 701-949) -/

/-- Lines 723-725: the image count asked of the swapchain.  The sum
`1 + get_back_buffers()` is an `int` converted to `uint32_t`; a
`maxImageCount` of 0 is taken by `min` as the number 0. -/
def num_images (minImageCount maxImageCount : Nat) (back_buffers : Int) : Nat :=
  max minImageCount (min maxImageCount (toU32 (1 + back_buffers)))

/-- The loop of lines 758-769 over the present modes the surface reports,
started with the mode chosen so far. -/
def present_mode_loop (presentMode : VkPresentModeKHR) :
    List VkPresentModeKHR → VkPresentModeKHR
  | [] => presentMode
  | m :: ms =>
    if m = VK_PRESENT_MODE_MAILBOX_KHR then
      VK_PRESENT_MODE_MAILBOX_KHR
    else if m = VK_PRESENT_MODE_IMMEDIATE_KHR then
      present_mode_loop VK_PRESENT_MODE_IMMEDIATE_KHR ms
    else
      present_mode_loop presentMode ms

/-- Lines 755-769: FIFO unless the loop finds something better. -/
def choose_present_mode (present_modes : List VkPresentModeKHR) : VkPresentModeKHR :=
  present_mode_loop VK_PRESENT_MODE_FIFO_KHR present_modes

/-- Lines 736-769: the `VkSwapchainCreateInfoKHR`. -/
def swapchain_info (dev : Device) (w : Window) : VkSwapchainCreateInfoKHR :=
  { surface := w.surface
    minImageCount := num_images dev.surface_capabilities.2.1 dev.surface_capabilities.2.2
      w.fb_properties.back_buffers
    imageFormat := w.surface_format.format
    imageColorSpace := w.surface_format.colorSpace
    imageExtent := (toU32 w.size.1, toU32 w.size.2)
    presentMode := choose_present_mode dev.present_modes }

/-- Modelled from the spec: the constructor of `VulkanTextureContext` is
declared outside this file; a new image resource tracks the layout
"undefined" (first use), has no view and no memory yet, and empty access and
stage masks. -/
def VulkanTextureContext.new (image : Handle) (format : VkFormat) : VulkanTextureContext :=
  { image := image, format := format, image_view := VK_NULL_HANDLE, memory := VK_NULL_HANDLE
    aspect_mask := 0, extent := ⟨0, 0, 0⟩, mip_levels := 0, array_layers := 0
    layout := VK_IMAGE_LAYOUT_UNDEFINED, access_mask := 0, stage_mask := 0 }

/-- Lines 792-798: the texture context made for swap image `image`. -/
def swap_image_tc (info : VkSwapchainCreateInfoKHR) (image : Handle) : VulkanTextureContext :=
  { VulkanTextureContext.new image info.imageFormat with
    aspect_mask := VK_IMAGE_ASPECT_COLOR_BIT
    extent := ⟨info.imageExtent.1, info.imageExtent.2, 1⟩
    mip_levels := 1
    array_layers := 1 }

/-- The loop of lines 790-822, from index `i` on, over the swap images and
the swap buffers not yet visited: whether it ran to its end (`false`: a view
could not be created and the function returns false), the buffers as it
leaves them, and the calls it issued. -/
def create_image_views (dev : Device) (info : VkSwapchainCreateInfoKHR) :
    Nat → List Handle → List SwapBuffer → Bool × List SwapBuffer × List Call
  | i, image :: images, b :: bs =>
    if (dev.create_image_view i).1 ≠ 0 then
      (false, { b with tc := some (swap_image_tc info image) } :: bs,
        [.vkCreateImageView image VK_IMAGE_ASPECT_COLOR_BIT])
    else
      ((create_image_views dev info (i + 1) images bs).1,
        { b with tc := some { swap_image_tc info image with
                              image_view := (dev.create_image_view i).2 } } ::
          (create_image_views dev info (i + 1) images bs).2.1,
        .vkCreateImageView image VK_IMAGE_ASPECT_COLOR_BIT ::
          (create_image_views dev info (i + 1) images bs).2.2)
  | _, _, bs => (true, bs, [])

/-- Result of the depth image block, lines 828-918. -/
structure DepthResult where
  ok : Bool
  tc : Option VulkanTextureContext
  calls : List Call

/-- Lines 828-918: creation of the depth-stencil image, its memory and view,
entered when `have_ds` holds. -/
def create_depth_stencil (dev : Device) (w : Window) : DepthResult :=
  let c1 : List Call := [.vkCreateImage w.depth_stencil_format (toU32 w.size.1) (toU32 w.size.2)]
  if dev.create_image.1 ≠ 0 then ⟨false, none, c1⟩ else
  let c2 := c1 ++ [.find_memory_type]
  if !dev.find_memory_type then ⟨false, none, c2⟩ else
  let c3 := c2 ++ [.vkAllocateMemory]
  if dev.allocate_memory.1 ≠ 0 then ⟨false, none, c3⟩ else
  let c4 := c3 ++ [.vkBindImageMemory]
  if dev.bind_image_memory ≠ 0 then ⟨false, none, c4⟩ else
  let aspectMask :=
    if w.fb_properties.stencil_bits ≠ 0 then
      w.depth_stencil_aspect_mask ||| VK_IMAGE_ASPECT_STENCIL_BIT
    else w.depth_stencil_aspect_mask
  let c5 := c4 ++ [.vkCreateImageView dev.create_image.2 aspectMask]
  if dev.create_depth_view.1 ≠ 0 then ⟨false, none, c5⟩ else
  ⟨true,
   some { VulkanTextureContext.new dev.create_image.2 w.depth_stencil_format with
          extent := ⟨toU32 w.size.1, toU32 w.size.2, 1⟩
          mip_levels := 1
          array_layers := 1
          aspect_mask := w.depth_stencil_aspect_mask
          memory := dev.allocate_memory.2
          image_view := dev.create_depth_view.2 },
   c5⟩

/-- Result of the framebuffer loop. -/
structure FramebufferResult where
  ok : Bool
  fault : Bool
  buffers : List SwapBuffer
  calls : List Call

/-- The loop of lines 937-945, from index `i` on, over the swap buffers not
yet visited.  `depth_view` is `attach_views[1]` when there is a depth-stencil
image.  Reading `buffer._tc->_image_view` through a null `_tc` is a fault. -/
def create_framebuffers (dev : Device) (render_pass : Handle) (depth_view : Option Handle) :
    Nat → List SwapBuffer → FramebufferResult
  | _, [] => ⟨true, false, [], []⟩
  | i, b :: bs =>
    match b.tc with
    | none => ⟨false, true, b :: bs, []⟩
    | some tc =>
      let c : Call := .vkCreateFramebuffer render_pass (tc.image_view :: depth_view.toList)
      if (dev.create_framebuffer i).1 ≠ 0 then
        ⟨false, false, b :: bs, [c]⟩
      else
        let r := create_framebuffers dev render_pass depth_view (i + 1) bs
        ⟨r.ok, r.fault, { b with framebuffer := (dev.create_framebuffer i).2 } :: r.buffers,
          c :: r.calls⟩

/-- Lines 715-775: the surface is queried and the swapchain object made.
Returns false where the function returns false. -/
def create_swapchain_object (dev : Device) (w : Window) : Run Bool :=
  let w := w.log .vkGetPhysicalDeviceSurfaceCapabilitiesKHR
  if dev.surface_capabilities.1 ≠ 0 then .done false w else
  let w := { w with trace := w.trace ++
    [.vkGetPhysicalDeviceSurfacePresentModesKHR, .vkGetPhysicalDeviceSurfacePresentModesKHR,
     .vkCreateSwapchainKHR (swapchain_info dev w)] }
  if dev.create_swapchain.1 ≠ 0 then .done false w else
  .done true { w with swapchain := dev.create_swapchain.2 }

/-- Lines 777-822: the swap buffers are resized to the number of images the
swapchain has, zeroed, and given a texture context and a view each.  `info`
is the `swapchain_info` of lines 736-769. -/
def create_swap_buffers (dev : Device) (info : VkSwapchainCreateInfoKHR) (w : Window) :
    Run Bool :=
  let n := dev.swapchain_images.length
  let views := create_image_views dev info 0 dev.swapchain_images
    (List.replicate n ⟨none, VK_NULL_HANDLE⟩)
  .done views.1 { w with
    swap_buffers := views.2.1
    fb_properties := { w.fb_properties with back_buffers := (n : Int) - 1 }
    image_index := 0
    trace := w.trace ++ [.vkGetSwapchainImagesKHR, .vkGetSwapchainImagesKHR] ++ views.2.2 }

/-- Lines 824-918: `_depth_stencil_tc` is reset and, when a depth/stencil
format is configured, the depth image is made. -/
def create_depth_image (dev : Device) (w : Window) : Run Bool :=
  if w.depth_stencil_format ≠ VK_FORMAT_UNDEFINED then
    .done (create_depth_stencil dev w).ok { w with
      depth_stencil_tc := (create_depth_stencil dev w).tc
      trace := w.trace ++ (create_depth_stencil dev w).calls }
  else
    .done true { w with depth_stencil_tc := none }

/-- Lines 920-948: one framebuffer per swap buffer, then the size the
swapchain was made for is recorded. -/
def create_swap_framebuffers (dev : Device) (w : Window) : Run Bool :=
  let fbs := create_framebuffers dev w.render_pass
    (w.depth_stencil_tc.map (fun tc => tc.image_view)) 0 w.swap_buffers
  let w := { w with swap_buffers := fbs.buffers, trace := w.trace ++ fbs.calls }
  if fbs.fault then .fault w else
  if !fbs.ok then .done false w else
  .done true { w with swapchain_size := w.size }

/-- The member function `VulkanGraphicsWindow::create_swapchain`.
`DCAST_INTO_R` returns false when the GSG pointer is null. -/
def create_swapchain (dev : Device) (w : Window) : Run Bool :=
  let w := w.log .create_swapchain
  match w.gsg with
  | none => .done false w
  | some _ =>
    (((create_swapchain_object dev w).andIf
      (create_swap_buffers dev (swapchain_info dev w))).andIf
      (create_depth_image dev)).andIf
      (create_swap_framebuffers dev)

/-! ## begin_frame (lines 68-219) -/

/-- Modelled from the spec: `VulkanTextureContext::transition` is defined
outside this file; it records the barrier and the tracked layout, stage and
access become those of the transition ("layout always reflects the last
recorded transition"). -/
def VulkanTextureContext.transition (tc : VulkanTextureContext) (layout : VkImageLayout)
    (stage access : Nat) : VulkanTextureContext :=
  { tc with layout := layout, stage_mask := stage, access_mask := access }

/-- Modelled from the spec: `VulkanTextureContext::clear_color_image` is
defined outside this file; it records a clear of the image, and the spec
gives it no effect on the tracked state. -/
def VulkanTextureContext.clear_color_image (tc : VulkanTextureContext) :
    VulkanTextureContext :=
  tc

/-- Lines 171-191: the colour image of the acquired buffer.  Returns the
calls recorded and the texture context afterwards. -/
def begin_color (w : Window) (tc : VulkanTextureContext) : List Call × VulkanTextureContext :=
  if !w.get_clear_color_active then
    ((if tc.layout = VK_IMAGE_LAYOUT_UNDEFINED then
        [Call.clear_color_image (.color w.image_index)] else []) ++
      [Call.transition (.color w.image_index) VK_IMAGE_LAYOUT_COLOR_ATTACHMENT_OPTIMAL
        VK_PIPELINE_STAGE_COLOR_ATTACHMENT_OUTPUT_BIT VK_ACCESS_COLOR_ATTACHMENT_WRITE_BIT],
     (if tc.layout = VK_IMAGE_LAYOUT_UNDEFINED then tc.clear_color_image else tc).transition
        VK_IMAGE_LAYOUT_COLOR_ATTACHMENT_OPTIMAL
        VK_PIPELINE_STAGE_COLOR_ATTACHMENT_OUTPUT_BIT VK_ACCESS_COLOR_ATTACHMENT_WRITE_BIT)
  else
    ([], { tc with layout := VK_IMAGE_LAYOUT_COLOR_ATTACHMENT_OPTIMAL
                   access_mask := VK_ACCESS_COLOR_ATTACHMENT_WRITE_BIT
                   stage_mask := VK_PIPELINE_STAGE_COLOR_ATTACHMENT_OUTPUT_BIT })

/-- Lines 199-210: the depth-stencil image, when there is one. -/
def begin_depth_stencil (w : Window) (tc : VulkanTextureContext) :
    List Call × VulkanTextureContext :=
  if !w.get_clear_depth_active || !w.get_clear_stencil_active then
    ([Call.transition .depth_stencil VK_IMAGE_LAYOUT_DEPTH_STENCIL_ATTACHMENT_OPTIMAL
        (VK_PIPELINE_STAGE_EARLY_FRAGMENT_TESTS_BIT ||| VK_PIPELINE_STAGE_LATE_FRAGMENT_TESTS_BIT)
        VK_ACCESS_DEPTH_STENCIL_ATTACHMENT_WRITE_BIT],
     tc.transition VK_IMAGE_LAYOUT_DEPTH_STENCIL_ATTACHMENT_OPTIMAL
        (VK_PIPELINE_STAGE_EARLY_FRAGMENT_TESTS_BIT ||| VK_PIPELINE_STAGE_LATE_FRAGMENT_TESTS_BIT)
        VK_ACCESS_DEPTH_STENCIL_ATTACHMENT_WRITE_BIT)
  else
    ([], { tc with layout := VK_IMAGE_LAYOUT_DEPTH_STENCIL_ATTACHMENT_OPTIMAL
                   access_mask := VK_ACCESS_DEPTH_STENCIL_ATTACHMENT_WRITE_BIT
                   stage_mask := VK_PIPELINE_STAGE_EARLY_FRAGMENT_TESTS_BIT |||
                                 VK_PIPELINE_STAGE_LATE_FRAGMENT_TESTS_BIT })

/-- Lines 142-218: `_swap_buffers[_image_index]` is taken, the colour image
and, when there is one, the depth-stencil image are brought into their
attachment layouts, the render pass is begun and the GSG is told about it.
Reading `buffer._tc->_layout` through a null `_tc` is a fault, as is an index
outside the swap buffers. -/
def begin_render_pass (w : Window) : Run Bool :=
  match w.swap_buffers[w.image_index]? with
  | none => .fault w
  | some buffer =>
    match buffer.tc with
    | none => .fault w
    | some tc =>
      let color := begin_color w tc
      let depth := w.depth_stencil_tc.map (begin_depth_stencil w)
      .done true { w with
        swap_buffers := w.swap_buffers.set w.image_index { buffer with tc := some color.2 }
        depth_stencil_tc := depth.map (fun d => d.2)
        gsg := w.gsg.map fun g =>
          { g with render_pass := w.render_pass
                   fb_color_tc := some w.image_index
                   fb_depth_tc := w.depth_stencil_tc.isSome }
        trace := w.trace ++ (color.1 ++ ((depth.map (fun d => d.1)).getD [] ++
          [.vkCmdBeginRenderPass w.render_pass buffer.framebuffer
            (if w.depth_stencil_tc.isSome then 2 else 1)])) }

/-- Lines 96-102: the render pass is set up again when the clear flags have
changed; the value `setup_render_pass` returns is not looked at. -/
def rebuild_render_pass (dev : Device) (w : Window) : Window :=
  if w.current_clear_mask ≠ w.clear_mask then
    (setup_render_pass dev (w.log .vkQueueWaitIdle)).2
  else w

/-- Lines 104-113: the swapchain is destroyed and created again when the
window size is not the size the swapchain was made for.  Returns false when
`create_swapchain` does. -/
def recreate_swapchain (dev : Device) (w : Window) : Run Bool :=
  if w.swapchain_size ≠ w.size then
    (destroy_swapchain (w.log .vkQueueWaitIdle)).andThen fun _ w => create_swapchain dev w
  else .done true w

/-- Lines 137-138: `vkAcquireNextImageKHR` writes the index of the next
image to `_image_index`; when it fails (`none`) the member keeps its value.
The result code is not looked at. -/
def acquire_image (dev : Device) (w : Window) : Window :=
  match dev.acquire_next_image with
  | some i => { w with image_index := i, trace := w.trace ++ [.vkAcquireNextImageKHR] }
  | none => { w with trace := w.trace ++ [.vkAcquireNextImageKHR] }

/-- Lines 126-218, entered in render mode: the semaphore is made, the next
image is acquired and its index checked, and the render pass is begun. -/
def render_frame (dev : Device) (w : Window) : Run Bool :=
  let w := w.log .vkCreateSemaphore
  nassertr (dev.create_semaphore.1 == 0) false w <|
  let w := acquire_image dev { w with present_complete := dev.create_semaphore.2 }
  nassertr (decide (w.image_index < w.swap_buffers.length)) false w <|
  begin_render_pass w

/-- Modelled from the spec: `VulkanGraphicsStateGuardian::begin_frame` is
defined outside this file; it "opens a fresh command recording": when it
succeeds the GSG holds the command buffer the device hands out. -/
def Gsg.begin_frame (g : Gsg) (cmd : Handle) : Gsg :=
  { g with cmd := cmd }

/-- Lines 115-218.  The call of `set_current_properties` touches no member
modelled here.  The device answers `none` when the GSG's `begin_frame`
returns false. -/
def start_frame (dev : Device) (mode : FrameMode) (w : Window) : Run Bool :=
  let w := w.log .gsg_begin_frame
  match dev.gsg_begin_frame with
  | none => .done false w
  | some cmd =>
    let w := { w with gsg := w.gsg.map fun g => g.begin_frame cmd }
    if mode ≠ .FM_render then .done true w else render_frame dev w

/-- The member function `VulkanGraphicsWindow::begin_frame`: the two early
returns of lines 71-81, then the three parts above. -/
def begin_frame (dev : Device) (mode : FrameMode) (w : Window) : Run Bool :=
  match w.gsg with
  | none => .done false w
  | some _ =>
    if !w.unexposed_draw && !w.got_expose_event then .done false w else
    (recreate_swapchain dev (rebuild_render_pass dev w)).andIf (start_frame dev mode)

/-! ## open_window (lines 368-522) -/

/-- The setter `FrameBufferProperties::set_rgba_bits`. -/
def FrameBufferProperties.set_rgba_bits (p : FrameBufferProperties) (r g b a : Int) :
    FrameBufferProperties :=
  { p with rgba_bits := (r, g, b, a) }

/-- The loops of lines 455-462 and 464-471: the first entry whose format is
one of the two wanted ones, if any. -/
def scan_formats (bgra rgba : VkFormat) : List VkSurfaceFormatKHR → Option VkSurfaceFormatKHR
  | [] => none
  | f :: fs =>
    if f.format = bgra ∨ f.format = rgba then some f else scan_formats bgra rgba fs

/-- Lines 443-448: the format taken when the surface has no preference. -/
def default_surface_format (p : FrameBufferProperties) : VkSurfaceFormatKHR :=
  ⟨if p.srgb_color then VK_FORMAT_B8G8R8A8_SRGB else VK_FORMAT_B8G8R8A8_UNORM,
   VK_COLORSPACE_SRGB_NONLINEAR_KHR⟩

/-- Lines 452-472: `formats[0]` unless the scan finds an 8-bit BGRA or RGBA
format of the requested kind, in which case the colour bits are set to 8
each. -/
def choose_surface_format (p : FrameBufferProperties) (first : VkSurfaceFormatKHR)
    (formats : List VkSurfaceFormatKHR) : VkSurfaceFormatKHR × FrameBufferProperties :=
  let found :=
    if p.srgb_color then
      scan_formats VK_FORMAT_B8G8R8A8_SRGB VK_FORMAT_R8G8B8A8_SRGB formats
    else
      scan_formats VK_FORMAT_B8G8R8A8_UNORM VK_FORMAT_R8G8B8A8_UNORM formats
  match found with
  | some f => (f, p.set_rgba_bits 8 8 8 8)
  | none => (first, p)

/-- Lines 483 and 485 (502 and 504): whether the device can use the format as
a depth-stencil attachment with optimal tiling. -/
def Device.supports_depth_stencil (dev : Device) (format : VkFormat) : Bool :=
  dev.optimalTilingFeatures format &&& VK_FORMAT_FEATURE_DEPTH_STENCIL_ATTACHMENT_BIT != 0

/-- Lines 476-519: choice of the depth/stencil format. -/
def choose_depth_stencil_format (dev : Device) (w : Window) : Window :=
  let request_depth32 : Bool :=
    decide (w.fb_properties.depth_bits > 24) || w.fb_properties.float_depth
  if w.fb_properties.depth_bits > 0 ∨ w.fb_properties.stencil_bits > 0 then
    let w := (w.log (.vkGetPhysicalDeviceFormatProperties VK_FORMAT_D32_SFLOAT_S8_UINT)).log
      (.vkGetPhysicalDeviceFormatProperties VK_FORMAT_D24_UNORM_S8_UINT)
    let supports_depth32 := dev.supports_depth_stencil VK_FORMAT_D32_SFLOAT_S8_UINT
    let supports_depth24 := dev.supports_depth_stencil VK_FORMAT_D24_UNORM_S8_UINT
    let w :=
      if (supports_depth32 && request_depth32) || !supports_depth24 then
        { w with depth_stencil_format := VK_FORMAT_D32_SFLOAT_S8_UINT
                 fb_properties := { w.fb_properties with depth_bits := 32 } }
      else
        { w with depth_stencil_format := VK_FORMAT_D24_UNORM_S8_UINT
                 fb_properties := { w.fb_properties with depth_bits := 24 } }
    { w with fb_properties := { w.fb_properties with stencil_bits := 8 }
             depth_stencil_aspect_mask := w.depth_stencil_aspect_mask |||
               (VK_IMAGE_ASPECT_DEPTH_BIT ||| VK_IMAGE_ASPECT_STENCIL_BIT) }
  else if w.fb_properties.depth_bits > 0 then
    let w := (w.log (.vkGetPhysicalDeviceFormatProperties VK_FORMAT_D32_SFLOAT)).log
      (.vkGetPhysicalDeviceFormatProperties VK_FORMAT_X8_D24_UNORM_PACK32)
    let supports_depth32 := dev.supports_depth_stencil VK_FORMAT_D32_SFLOAT
    let supports_depth24 := dev.supports_depth_stencil VK_FORMAT_X8_D24_UNORM_PACK32
    let w :=
      if (supports_depth32 && request_depth32) || !supports_depth24 then
        { w with depth_stencil_format := VK_FORMAT_D32_SFLOAT
                 fb_properties := { w.fb_properties with depth_bits := 32 } }
      else
        { w with depth_stencil_format := VK_FORMAT_X8_D24_UNORM_PACK32
                 fb_properties := { w.fb_properties with depth_bits := 24 } }
    { w with depth_stencil_aspect_mask := w.depth_stencil_aspect_mask |||
               VK_IMAGE_ASPECT_DEPTH_BIT }
  else
    { w with depth_stencil_format := VK_FORMAT_UNDEFINED
             depth_stencil_aspect_mask := w.depth_stencil_aspect_mask ||| 0 }

/-- Line 521: `setup_render_pass() && create_swapchain()`. -/
def setup_and_create (dev : Device) (w : Window) : Run Bool :=
  if (setup_render_pass dev w).1 then
    create_swapchain dev (setup_render_pass dev w).2
  else .done false (setup_render_pass dev w).2

/-- Lines 370-425: the base class opens the window, the surface is made
and a GSG is found.  When the window already has a GSG (line 420) the local
`vkgsg` is never assigned and line 424 reads through it: a fault. -/
def open_surface (dev : Device) (w : Window) : Run Bool :=
  let w := w.log .base_open_window
  if !dev.base_open_window then .done false w else
  let w := w.log .vkCreateSurfaceKHR
  if dev.create_surface.1 ≠ 0 then .done false w else
  let w := { w with surface := dev.create_surface.2 }
  match w.gsg with
  | some _ => .fault w
  | none =>
    let w := w.log .find_queue_family_for_surface
    match dev.find_queue_family with
    | none => .done false w
    | some queue_family_index =>
      let vkgsg := { dev.new_gsg with graphics_queue_family_index := queue_family_index }
      .done true { w with
        gsg := some vkgsg
        fb_properties := { w.fb_properties with force_hardware := vkgsg.is_hardware
                                                force_software := !vkgsg.is_hardware } }

/-- Lines 427-473: the surface formats are queried and one is chosen.
Reading `formats[0]` of an empty array would be a fault; the assertion before
it rules that out. -/
def query_surface_format (dev : Device) (w : Window) : Run Bool :=
  let w := w.log .vkGetPhysicalDeviceSurfaceFormatsKHR
  nassertr (dev.surface_formats_count_result == 0) false w <|
  let w := w.log .vkGetPhysicalDeviceSurfaceFormatsKHR
  nassertr (dev.surface_formats_result == 0) false w <|
  let formats := dev.surface_formats
  if formats.length = 1 ∧ formats.head?.map (fun f => f.format) = some VK_FORMAT_UNDEFINED then
    .done true { w with surface_format := default_surface_format w.fb_properties }
  else
    nassertr (decide (formats.length > 1)) false w <|
    match formats.head? with
    | none => .fault w
    | some first =>
      .done true { w with
        surface_format := (choose_surface_format w.fb_properties first formats).1
        fb_properties := (choose_surface_format w.fb_properties first formats).2 }

/-- The member function `VulkanGraphicsWindow::open_window`. -/
def open_window (dev : Device) (w : Window) : Run Bool :=
  ((open_surface dev w).andIf (query_surface_format dev)).andIf fun w =>
    setup_and_create dev (choose_depth_stencil_format dev w)

/-! ## end_frame (lines 226-255) -/

/-- Modelled from the spec: the macro `nassertv` is defined outside this
file; it is `nassertr` for a function of type void: when the condition does
not hold the function returns at once. -/
def nassertv (condition : Bool) (w : Window) (rest : Run Unit) : Run Unit :=
  nassertr condition () w rest

/-- Modelled from the spec: `GraphicsOutput::copy_to_textures` is defined
outside this file; it is the "downstream consumer invoked after render pass
end", and it touches no member modelled here. -/
def copy_to_textures (w : Window) : Window :=
  w.log .copy_to_textures

/-- Modelled from the spec: `VulkanGraphicsStateGuardian::end_frame` is
defined outside this file; it makes the command layer "finalize (submit) the
frame's commands", which closes the recording, and it touches no member
modelled here. -/
def Gsg.end_frame (w : Window) : Window :=
  w.log .gsg_end_frame

/-- Modelled from the spec: `GraphicsOutput::trigger_flip` is defined
outside this file; it signals that the frame is ready to present. -/
def trigger_flip (w : Window) : Window :=
  w.log .trigger_flip

/-- Modelled from the spec: `GraphicsOutput::clear_cube_map_selection` is
defined outside this file; it is the base-class cleanup hook. -/
def clear_cube_map_selection (w : Window) : Window :=
  w.log .clear_cube_map_selection

/-- Lines 237-244: the render pass is ended, the GSG forgets it, the tracked
layout of `_swap_buffers[_image_index]` becomes present-source and the
textures are copied.  Writing through a null `_tc` is a fault, as is an
index outside the swap buffers. -/
def end_render_pass (w : Window) : Run Unit :=
  let w := { w with
    gsg := w.gsg.map fun g => { g with render_pass := VK_NULL_HANDLE }
    trace := w.trace ++ [.vkCmdEndRenderPass] }
  match w.swap_buffers[w.image_index]? with
  | none => .fault w
  | some buffer =>
    match buffer.tc with
    | none => .fault w
    | some tc =>
      .done () (copy_to_textures { w with
        swap_buffers := w.swap_buffers.set w.image_index
          { buffer with tc := some { tc with layout := VK_IMAGE_LAYOUT_PRESENT_SRC_KHR } } })

/-- Lines 250-254: the flip is triggered when the semaphore of the frame is
there. -/
def finish_frame (w : Window) : Run Unit :=
  nassertv (w.present_complete != VK_NULL_HANDLE) w <|
  .done () (clear_cube_map_selection (trigger_flip w))

/-- The member function `VulkanGraphicsWindow::end_frame`.  Both tests of
`mode == FM_render` (lines 233 and 250) see the same mode, so the render
case is followed through as one branch. -/
def end_frame (mode : FrameMode) (w : Window) : Run Unit :=
  match w.gsg with
  | none => .done () w
  | some vkgsg =>
    if mode = .FM_render then
      nassertv (vkgsg.cmd != VK_NULL_HANDLE) w <|
      (end_render_pass w).andThen fun _ w => finish_frame (Gsg.end_frame w)
    else .done () (Gsg.end_frame w)

/-! ## begin_flip, ready_flip, end_flip (lines 268-337) -/

/-- The member function `VulkanGraphicsWindow::begin_flip`: an empty body. -/
def begin_flip (w : Window) : Window := w

/-- The member function `VulkanGraphicsWindow::ready_flip`: an empty body. -/
def ready_flip (w : Window) : Window := w

/-- Lines 319-329: whether `end_flip` returns after the present request: not
when the surface is out of date or suboptimal, and otherwise when the result
is not success. -/
def present_failed (err : VkResult) : Bool :=
  if err = VK_ERROR_OUT_OF_DATE_KHR then false
  else if err = VK_SUBOPTIMAL_KHR then false
  else if err ≠ VK_SUCCESS then true
  else false

/-- Lines 318-336: the present request for `_swapchain` and `_image_index`,
then the wait for the queue and the destruction of the semaphore.  The
`assert` of line 333 ends the program when the wait did not succeed, which is
a fault here. -/
def present_image (dev : Device) (w : Window) : Run Unit :=
  let w := w.log (.vkQueuePresentKHR w.swapchain w.image_index)
  if present_failed dev.queue_present then .done () w else
  let w := w.log .vkQueueWaitIdle
  if dev.queue_wait_idle ≠ VK_SUCCESS then .fault w else
  .done () { w with
    present_complete := VK_NULL_HANDLE
    trace := w.trace ++ [.vkDestroySemaphore w.present_complete] }

/-- The member function `VulkanGraphicsWindow::end_flip`.  Reading
`buffer._tc->_layout` through a null `_tc` is a fault, as is an index outside
the swap buffers. -/
def end_flip (dev : Device) (w : Window) : Run Unit :=
  match w.gsg with
  | none => .done () w
  | some _ =>
    match w.swap_buffers[w.image_index]? with
    | none => .fault w
    | some buffer =>
      match buffer.tc with
      | none => .fault w
      | some tc =>
        nassertv (tc.layout == VK_IMAGE_LAYOUT_PRESENT_SRC_KHR) w <|
        present_image dev w

/-! ## close_window (lines 342-362) -/

/-- Lines 351-355: the render pass is destroyed when there is one. -/
def destroy_render_pass (w : Window) : Window :=
  if w.render_pass ≠ VK_NULL_HANDLE then
    { w with render_pass := VK_NULL_HANDLE
             trace := w.trace ++ [.vkDestroyRenderPass w.render_pass] }
  else w

/-- The member function `VulkanGraphicsWindow::close_window`: with a GSG
bound the queue is waited for, the swapchain and the render pass are
destroyed and the GSG is let go; the base class closes the window in either
case. -/
def close_window (w : Window) : Run Unit :=
  match w.gsg with
  | some _ =>
    (destroy_swapchain (w.log .vkQueueWaitIdle)).andThen fun _ w =>
      .done () (({ destroy_render_pass w with gsg := none }).log .base_close_window)
  | none => .done () (w.log .base_close_window)

/-! ## Vocabulary of the statements -/

/-- Calls appended to the trace on the way from window `w` to window `r`. -/
def calls_since (w r : Window) : List Call :=
  r.trace.drop w.trace.length

/-- The part of the file a call is issued from. -/
inductive Scope where
  | sync
  | pass
  | destroy
  | create
  | images
  | draw
  | finish
  | window
  deriving DecidableEq, Repr

/-- Scope of a call: `sync` is the queue-idle wait, `pass` is
`setup_render_pass`, `destroy` is `destroy_swapchain`, `create` is
`create_swapchain` up to line 775, `images` is the rest of it, `draw` is
lines 115-218 of `begin_frame`, `finish` is `end_frame` and `end_flip`,
`window` is `open_window` and `close_window`. -/
def Call.scope : Call → Scope
  | .vkQueueWaitIdle => .sync
  | .setup_render_pass => .pass
  | .vkCreateRenderPass _ => .pass
  | .destroy_swapchain => .destroy
  | .vkResetCommandBuffer => .destroy
  | .vkDestroyFramebuffer _ => .destroy
  | .vkDestroyImageView _ => .destroy
  | .vkDestroyImage _ => .destroy
  | .vkFreeMemory _ => .destroy
  | .vkDestroySwapchainKHR _ => .destroy
  | .create_swapchain => .create
  | .vkGetPhysicalDeviceSurfaceCapabilitiesKHR => .create
  | .vkGetPhysicalDeviceSurfacePresentModesKHR => .create
  | .vkCreateSwapchainKHR _ => .create
  | .vkGetSwapchainImagesKHR => .images
  | .vkCreateImageView _ _ => .images
  | .vkCreateImage _ _ _ => .images
  | .find_memory_type => .images
  | .vkAllocateMemory => .images
  | .vkBindImageMemory => .images
  | .vkCreateFramebuffer _ _ => .images
  | .gsg_begin_frame => .draw
  | .vkCreateSemaphore => .draw
  | .vkAcquireNextImageKHR => .draw
  | .clear_color_image _ => .draw
  | .transition _ _ _ _ => .draw
  | .vkCmdBeginRenderPass _ _ _ => .draw
  | .vkCmdEndRenderPass => .finish
  | .copy_to_textures => .finish
  | .gsg_end_frame => .finish
  | .trigger_flip => .finish
  | .clear_cube_map_selection => .finish
  | .vkQueuePresentKHR _ _ => .finish
  | .vkDestroySemaphore _ => .finish
  | .vkDestroyRenderPass _ => .window
  | .base_open_window => .window
  | .base_close_window => .window
  | .vkCreateSurfaceKHR => .window
  | .find_queue_family_for_surface => .window
  | .vkGetPhysicalDeviceSurfaceFormatsKHR => .window
  | .vkGetPhysicalDeviceFormatProperties _ => .window

/-- Window `r` has the trace of `w` followed by calls that all satisfy `P`. -/
def Extends (P : Call → Prop) (w r : Window) : Prop :=
  ∃ L, r.trace = w.trace ++ L ∧ ∀ c ∈ L, P c

/-- Members that only `open_window` changes, and whether a GSG is bound. -/
def Window.config (w : Window) :=
  (w.clear_mask, w.size, w.unexposed_draw, w.got_expose_event, w.surface_format,
   w.depth_stencil_format, w.depth_stencil_aspect_mask, w.fb_properties.depth_bits,
   w.fb_properties.stencil_bits, w.fb_properties.float_depth, w.gsg.isSome, w.surface)

/-- The calls `begin_render_pass` records for the depth-stencil image: those
of `begin_depth_stencil` when there is one, none otherwise. -/
def depth_stencil_calls (w : Window) : List Call :=
  ((w.depth_stencil_tc.map (begin_depth_stencil w)).map (fun d => d.1)).getD []

/-- The destructive steps of `begin_frame` and `close_window`: the call of
`destroy_swapchain`, the rebuild of the render pass, and the destruction of
the swapchain or of the render pass itself. -/
def Call.destructive : Call → Bool
  | .destroy_swapchain => true
  | .setup_render_pass => true
  | .vkDestroySwapchainKHR _ => true
  | .vkDestroyRenderPass _ => true
  | _ => false

/-- The calls that give the queue work to do: the submission of the commands
of a frame, the acquisition of an image, the present request. -/
def Call.queue_work : Call → Bool
  | .gsg_end_frame => true
  | .vkAcquireNextImageKHR => true
  | .vkQueuePresentKHR _ _ => true
  | _ => false

/-- Every destructive step in the sequence has a wait for the queue before
it, with no queue work between the wait and the step. -/
def guarded (calls : List Call) : Prop :=
  ∀ pre c post, calls = pre ++ c :: post → c.destructive = true →
    ∃ a b, pre = a ++ Call.vkQueueWaitIdle :: b ∧ ∀ x ∈ b, x.queue_work = false

/-- Members only `setup_render_pass` writes. -/
def Window.pass (w : Window) :=
  (w.current_clear_mask, w.render_pass)

/-- Every swap buffer has a texture context: no `_tc` is null. -/
def Window.buffers_live (w : Window) : Prop :=
  ∀ b ∈ w.swap_buffers, b.tc ≠ none

/-- The steps of `open_window` before the surface format is chosen all
succeed: the base class opens the window, the surface is made, the window has
no GSG yet and a queue family is found for the new one, and both queries of
the surface formats succeed. -/
def reaches_format_choice (dev : Device) (w : Window) : Prop :=
  dev.base_open_window = true ∧ dev.create_surface.1 = 0 ∧ w.gsg = none ∧
  dev.find_queue_family ≠ none ∧ dev.surface_formats_count_result = 0 ∧
  dev.surface_formats_result = 0

/-- The list of surface formats is the single wildcard entry
(`VK_FORMAT_UNDEFINED`). -/
def is_wildcard (formats : List VkSurfaceFormatKHR) : Prop :=
  formats.length = 1 ∧ formats.head?.map (fun f => f.format) = some VK_FORMAT_UNDEFINED

/-- The steps of `open_window` before the depth/stencil format is chosen all
succeed: those before the surface format is chosen, and the surface reports
either the wildcard or more than one format. -/
def reaches_depth_choice (dev : Device) (w : Window) : Prop :=
  reaches_format_choice dev w ∧
  (is_wildcard dev.surface_formats ∨ 1 < dev.surface_formats.length)

/-! ## Sample inputs -/

/-- A GSG with no command buffer yet. -/
def sample_gsg : Gsg :=
  { device := 1, queue := 2, cmd := VK_NULL_HANDLE, graphics_queue_family_index := 0
    render_pass := VK_NULL_HANDLE, fb_color_tc := none, fb_depth_tc := false
    is_hardware := true }

/-- A request for 24 depth bits, 8 stencil bits and one back buffer. -/
def sample_properties : FrameBufferProperties :=
  { depth_bits := 24, stencil_bits := 8, float_depth := false, srgb_color := false
    back_buffers := 1, rgba_bits := (0, 0, 0, 0), force_hardware := false
    force_software := false }

/-- An exposed 800x600 window as the constructor and the base class leave it,
with colour clearing active and a GSG bound: no render pass, no swapchain. -/
def sample_window : Window :=
  { gsg := some sample_gsg, surface := 5, swapchain := VK_NULL_HANDLE
    render_pass := VK_NULL_HANDLE, present_complete := VK_NULL_HANDLE
    current_clear_mask := -1, clear_mask := 4, size := (800, 600), swapchain_size := (0, 0)
    unexposed_draw := false, got_expose_event := true
    surface_format := ⟨VK_FORMAT_B8G8R8A8_UNORM, VK_COLORSPACE_SRGB_NONLINEAR_KHR⟩
    depth_stencil_format := VK_FORMAT_D24_UNORM_S8_UINT
    depth_stencil_aspect_mask := 6, depth_stencil_tc := none, swap_buffers := []
    image_index := 0, fb_properties := sample_properties, trace := [] }

/-- A device on which every call succeeds: two surface formats, the 24-bit
depth-stencil format only, two to eight images, three present modes, a
swapchain of two images. -/
def sample_device : Device :=
  { base_open_window := true
    create_surface := (VK_SUCCESS, 5)
    find_queue_family := some 0
    new_gsg := sample_gsg
    surface_formats_count_result := VK_SUCCESS
    surface_formats_result := VK_SUCCESS
    surface_formats := [⟨VK_FORMAT_B8G8R8A8_UNORM, 0⟩, ⟨VK_FORMAT_B8G8R8A8_SRGB, 0⟩]
    optimalTilingFeatures := fun f =>
      if f = VK_FORMAT_D24_UNORM_S8_UINT then VK_FORMAT_FEATURE_DEPTH_STENCIL_ATTACHMENT_BIT
      else 0
    create_render_pass := (VK_SUCCESS, 7)
    surface_capabilities := (VK_SUCCESS, 2, 8)
    present_modes := [VK_PRESENT_MODE_FIFO_KHR, VK_PRESENT_MODE_IMMEDIATE_KHR,
      VK_PRESENT_MODE_MAILBOX_KHR]
    create_swapchain := (VK_SUCCESS, 9)
    swapchain_images := [11, 12]
    create_image_view := fun i => (VK_SUCCESS, 20 + i)
    create_image := (VK_SUCCESS, 30)
    find_memory_type := true
    allocate_memory := (VK_SUCCESS, 31)
    bind_image_memory := VK_SUCCESS
    create_depth_view := (VK_SUCCESS, 32)
    create_framebuffer := fun i => (VK_SUCCESS, 40 + i)
    gsg_begin_frame := some 50
    create_semaphore := (VK_SUCCESS, 60)
    acquire_next_image := some 1
    queue_present := VK_SUCCESS }

/-- The window before `open_window`: no GSG, no depth/stencil format, an
empty aspect mask. -/
def unopened_window : Window :=
  { sample_window with gsg := none, depth_stencil_format := VK_FORMAT_UNDEFINED
                       depth_stencil_aspect_mask := 0 }

/-- The sample window after `open_window` on the sample device. -/
def opened_window : Window :=
  (open_window sample_device unopened_window).state

/-- The opened window after the user has resized it to 1024x768. -/
def resized_window : Window :=
  { opened_window with size := (1024, 768) }

/-- A device on which the image view of the first swap image cannot be made
(`VK_ERROR_OUT_OF_HOST_MEMORY`). -/
def failing_view_device : Device :=
  { sample_device with create_image_view := fun i => if i = 0 then (-1, 0) else (0, 20 + i) }

/-- The resized window as `begin_frame` leaves it when the view of the first
swap image could not be made. -/
def half_built_window : Window :=
  (begin_frame failing_view_device .FM_render resized_window).state

/-- A presentation engine that hands out index 5. -/
def out_of_range_device : Device :=
  { sample_device with acquire_next_image := some 5 }

/-- A device that supports none of the depth formats. -/
def no_depth_device : Device :=
  { sample_device with optimalTilingFeatures := fun _ => 0 }

/-- A device that supports every depth format. -/
def all_formats_device : Device :=
  { sample_device with
    optimalTilingFeatures := fun _ => VK_FORMAT_FEATURE_DEPTH_STENCIL_ATTACHMENT_BIT }

/-- A request for 24 depth bits and no stencil bits. -/
def depth_only_window : Window :=
  { unopened_window with fb_properties := { sample_properties with stencil_bits := 0 } }

/-- A surface that reports exactly one format, 8-bit BGRA unorm. -/
def single_format_device : Device :=
  { sample_device with surface_formats := [⟨VK_FORMAT_B8G8R8A8_UNORM, 0⟩] }

/-- A surface that reports at least two images and no upper limit
(`maxImageCount` 0). -/
def unlimited_device : Device :=
  { sample_device with surface_capabilities := (VK_SUCCESS, 2, 0) }

/-- The sample window with two back buffers asked for. -/
def triple_buffer_window : Window :=
  { sample_window with fb_properties := { sample_properties with back_buffers := 2 } }

/-- The sample window with the clear flag of depth alone set. -/
def depth_clear_window : Window :=
  { sample_window with clear_mask := 2 ^ RTP_depth }

/-- The sample window with no clear flag set. -/
def no_clear_window : Window :=
  { sample_window with clear_mask := 0 }

/-- A device that answers as the sample device does, but rejects the render
pass description. -/
def rejecting_device : Device :=
  { sample_device with create_render_pass := (-1, VK_NULL_HANDLE) }

/-- A device that answers as the sample device does, but whose queue does
not become idle: the wait returns `VK_ERROR_DEVICE_LOST`. -/
def lost_device : Device :=
  { sample_device with queue_wait_idle := -4 }

/-- The tracked state of a swapchain image after a frame has been drawn to
it. -/
def drawn_tc : VulkanTextureContext :=
  { VulkanTextureContext.new 11 VK_FORMAT_B8G8R8A8_UNORM with
    layout := VK_IMAGE_LAYOUT_PRESENT_SRC_KHR }

/-- A window whose frame has ended: one swap buffer, in present-source
layout, and the semaphore of the frame. -/
def presentable_window : Window :=
  { sample_window with
    swapchain := 9
    present_complete := 60
    swapchain_size := (800, 600)
    swap_buffers := [{ tc := some drawn_tc, framebuffer := 40 }]
    image_index := 0 }

instance (w : Window) : Decidable w.buffers_live := by
  unfold Window.buffers_live
  infer_instance

instance (dev : Device) (w : Window) : Decidable (reaches_format_choice dev w) := by
  unfold reaches_format_choice
  infer_instance

instance (formats : List VkSurfaceFormatKHR) : Decidable (is_wildcard formats) := by
  unfold is_wildcard
  infer_instance

instance (dev : Device) (w : Window) : Decidable (reaches_depth_choice dev w) := by
  unfold reaches_depth_choice
  infer_instance

/-! # Theorems -/

/-! ## Lemmas on outcomes and traces -/

theorem calls_since_append (w r : Window) (L : List Call) (h : r.trace = w.trace ++ L) :
    calls_since w r = L := by
  simp [calls_since, h]

theorem Extends.refl (P : Call → Prop) (w : Window) : Extends P w w :=
  ⟨[], by simp, by simp⟩

theorem Extends.trans {P : Call → Prop} {a b c : Window}
    (h1 : Extends P a b) (h2 : Extends P b c) : Extends P a c := by
  obtain ⟨L1, e1, p1⟩ := h1
  obtain ⟨L2, e2, p2⟩ := h2
  refine ⟨L1 ++ L2, by rw [e2, e1, List.append_assoc], ?_⟩
  intro x hx
  rcases List.mem_append.mp hx with h | h
  · exact p1 x h
  · exact p2 x h

theorem Extends.mono {P Q : Call → Prop} {a b : Window} (hPQ : ∀ c, P c → Q c)
    (h : Extends P a b) : Extends Q a b := by
  obtain ⟨L, e, p⟩ := h
  exact ⟨L, e, fun c hc => hPQ c (p c hc)⟩

theorem Extends.of_trace {P : Call → Prop} {w r : Window} (L : List Call)
    (h : r.trace = w.trace ++ L) (hP : ∀ c ∈ L, P c) : Extends P w r :=
  ⟨L, h, hP⟩

theorem Extends.calls {P : Call → Prop} {w r : Window} (h : Extends P w r) :
    ∀ c ∈ calls_since w r, P c := by
  obtain ⟨L, e, p⟩ := h
  rw [calls_since_append w r L e]
  exact p

theorem Extends.calls_eq {P : Call → Prop} {a b c : Window}
    (h1 : Extends P a b) (h2 : Extends P b c) :
    calls_since a c = calls_since a b ++ calls_since b c := by
  obtain ⟨L1, e1, _⟩ := h1
  obtain ⟨L2, e2, _⟩ := h2
  rw [calls_since_append a b L1 e1, calls_since_append b c L2 e2,
    calls_since_append a c (L1 ++ L2) (by rw [e2, e1, List.append_assoc])]

theorem Extends.log {P : Call → Prop} (w : Window) (c : Call) (h : P c) :
    Extends P w (w.log c) :=
  ⟨[c], rfl, by simpa using h⟩

theorem Extends.andIf {P : Call → Prop} {w : Window} {r : Run Bool} {k : Window → Run Bool}
    (hr : Extends P w r.state) (hk : ∀ v, Extends P v (k v).state) :
    Extends P w (r.andIf k).state := by
  cases r with
  | done a v =>
    cases a
    · simpa [Run.andIf, Run.state] using hr
    · exact Extends.trans hr (hk v)
  | fault v => simpa [Run.andIf, Run.state] using hr

theorem andIf_config {r : Run Bool} {k : Window → Run Bool} {c}
    (hr : r.state.config = c) (hk : ∀ w, w.config = c → (k w).state.config = c) :
    (r.andIf k).state.config = c := by
  cases r with
  | done a w => cases a <;> simp_all [Run.andIf, Run.state]
  | fault w => simpa [Run.andIf, Run.state] using hr

theorem andIf_pass {r : Run Bool} {k : Window → Run Bool} {c}
    (hr : r.state.pass = c) (hk : ∀ w, w.pass = c → (k w).state.pass = c) :
    (r.andIf k).state.pass = c := by
  cases r with
  | done a w => cases a <;> simp_all [Run.andIf, Run.state]
  | fault w => simpa [Run.andIf, Run.state] using hr

theorem andIf_done_true {r : Run Bool} {k : Window → Run Bool} {w : Window}
    (h : r.andIf k = .done true w) : ∃ v, r = .done true v ∧ k v = .done true w := by
  cases r with
  | done a v =>
    cases a
    · simp [Run.andIf] at h
    · exact ⟨v, rfl, by simpa [Run.andIf] using h⟩
  | fault v => simp [Run.andIf] at h

/-! ## setup_render_pass -/

theorem setup_render_pass_config (dev : Device) (w : Window) :
    (setup_render_pass dev w).2.config = w.config := by
  unfold setup_render_pass
  simp only [Window.log]
  split
  · rfl
  · split_ifs <;> rfl

theorem setup_render_pass_extends (dev : Device) (w : Window) :
    Extends (fun c => c.scope = .pass) w (setup_render_pass dev w).2 := by
  unfold setup_render_pass
  simp only [Window.log]
  split
  · exact ⟨[.setup_render_pass], rfl, by simp [Call.scope]⟩
  · split_ifs
    · exact ⟨_, List.append_assoc _ _ _, by simp [Call.scope]⟩
    · exact ⟨_, List.append_assoc _ _ _, by simp [Call.scope]⟩

theorem setup_render_pass_marker (dev : Device) (w : Window) :
    Call.setup_render_pass ∈ calls_since w (setup_render_pass dev w).2 := by
  unfold setup_render_pass
  simp only [Window.log]
  split
  · simp [calls_since]
  · split_ifs <;> simp [calls_since]

theorem setup_render_pass_buffers (dev : Device) (w : Window) :
    (setup_render_pass dev w).2.swap_buffers = w.swap_buffers ∧
    (setup_render_pass dev w).2.swapchain_size = w.swapchain_size ∧
    (setup_render_pass dev w).2.depth_stencil_tc = w.depth_stencil_tc ∧
    (setup_render_pass dev w).2.fb_properties = w.fb_properties := by
  unfold setup_render_pass
  simp only [Window.log]
  split
  · exact ⟨rfl, rfl, rfl, rfl⟩
  · split_ifs <;> exact ⟨rfl, rfl, rfl, rfl⟩

theorem setup_render_pass_ok (dev : Device) (w : Window) (g : Gsg) (hg : w.gsg = some g)
    (h : dev.create_render_pass.1 = 0) :
    (setup_render_pass dev w).1 = true ∧
    (setup_render_pass dev w).2.current_clear_mask = w.clear_mask := by
  unfold setup_render_pass
  simp [Window.log, hg, h]

/-! ## destroy_swapchain -/

theorem destroy_swap_buffers_scope (bs : List SwapBuffer) :
    ∀ c ∈ (destroy_swap_buffers bs).1, c.scope = .destroy := by
  induction bs with
  | nil => simp [destroy_swap_buffers]
  | cons b bs ih =>
    unfold destroy_swap_buffers
    cases b.tc with
    | none => simp [Call.scope]
    | some tc =>
      intro c hc
      simp only [List.mem_cons] at hc
      rcases hc with h | h | h
      · rw [h]; rfl
      · rw [h]; rfl
      · exact ih c h

theorem destroy_swap_buffers_live (bs : List SwapBuffer) (h : ∀ b ∈ bs, b.tc ≠ none) :
    (destroy_swap_buffers bs).2 = false := by
  induction bs with
  | nil => rfl
  | cons b bs ih =>
    unfold destroy_swap_buffers
    have hb := h b (List.mem_cons_self _ _)
    cases htc : b.tc with
    | none => exact absurd htc hb
    | some tc => exact ih (fun x hx => h x (List.mem_cons_of_mem _ hx))

theorem destroy_swap_buffers_null (bs : List SwapBuffer) (h : ∃ b ∈ bs, b.tc = none) :
    (destroy_swap_buffers bs).2 = true := by
  induction bs with
  | nil => simp at h
  | cons b bs ih =>
    unfold destroy_swap_buffers
    cases htc : b.tc with
    | none => rfl
    | some tc =>
      obtain ⟨x, hx, hxn⟩ := h
      rcases List.mem_cons.mp hx with e | e
      · rw [e, htc] at hxn; cases hxn
      · exact ih ⟨x, e, hxn⟩

theorem destroy_depth_stencil_scope (tc : Option VulkanTextureContext) :
    ∀ c ∈ destroy_depth_stencil tc, c.scope = .destroy := by
  unfold destroy_depth_stencil
  cases tc with
  | none => simp
  | some tc =>
    intro c hc
    simp only [List.mem_append] at hc
    rcases hc with (h | h) | h <;> split_ifs at h <;> simp at h <;> rw [h] <;> rfl

theorem destroy_swapchain_config (w : Window) :
    (destroy_swapchain w).state.config = w.config := by
  unfold destroy_swapchain
  simp only [Window.log]
  split
  · rfl
  · split_ifs <;> rfl

theorem destroy_swapchain_pass (w : Window) :
    (destroy_swapchain w).state.pass = w.pass := by
  unfold destroy_swapchain
  simp only [Window.log]
  split
  · rfl
  · split_ifs <;> rfl

theorem destroy_swapchain_size (w : Window) :
    (destroy_swapchain w).state.swapchain_size = w.swapchain_size := by
  unfold destroy_swapchain
  simp only [Window.log]
  split
  · rfl
  · split_ifs <;> rfl

theorem ite_singleton_scope (b : Prop) [Decidable b] (c : Call) (s : Scope)
    (h : c.scope = s) : ∀ x ∈ (if b then [c] else []), x.scope = s := by
  intro x hx
  split_ifs at hx
  · rw [List.mem_singleton.mp hx]; exact h
  · simp at hx

theorem destroy_swapchain_extends (w : Window) :
    Extends (fun c => c.scope = .destroy) w (destroy_swapchain w).state := by
  unfold destroy_swapchain
  simp only [Window.log]
  split
  · exact ⟨[.destroy_swapchain], rfl, by simp [Call.scope]⟩
  · rename_i g _
    have hreset := ite_singleton_scope (g.cmd ≠ VK_NULL_HANDLE) .vkResetCommandBuffer
      .destroy rfl
    have hchain := ite_singleton_scope (w.swapchain ≠ VK_NULL_HANDLE)
      (.vkDestroySwapchainKHR w.swapchain) .destroy rfl
    by_cases hf : (destroy_swap_buffers w.swap_buffers).2 = true
    · rw [if_pos hf]
      refine ⟨_, List.append_assoc _ _ _, ?_⟩
      intro c hc
      simp only [List.mem_append, List.mem_singleton] at hc
      rcases hc with h | h | h
      · rw [h]; rfl
      · exact hreset c h
      · exact destroy_swap_buffers_scope _ c h
    · rw [if_neg hf]
      refine ⟨_, List.append_assoc _ _ _, ?_⟩
      intro c hc
      simp only [List.mem_append, List.mem_singleton] at hc
      rcases hc with h | ((h | h) | h) | h
      · rw [h]; rfl
      · exact hreset c h
      · exact destroy_swap_buffers_scope _ c h
      · exact destroy_depth_stencil_scope _ c h
      · exact hchain c h

theorem destroy_swapchain_marker (w : Window) :
    ∃ L, calls_since w (destroy_swapchain w).state = Call.destroy_swapchain :: L := by
  unfold destroy_swapchain
  simp only [Window.log]
  split
  · exact ⟨[], by simp [calls_since, Run.state]⟩
  · split_ifs <;> exact ⟨_, by simp [calls_since, Run.state]; rfl⟩

theorem destroy_swapchain_live (w : Window) (g : Gsg) (hg : w.gsg = some g)
    (hlive : w.buffers_live) :
    ∃ r, destroy_swapchain w = .done () r ∧ r.swap_buffers = [] ∧ r.depth_stencil_tc = none ∧
      r.swapchain = VK_NULL_HANDLE ∧ r.image_index = 0 := by
  unfold destroy_swapchain
  simp only [Window.log, hg]
  rw [destroy_swap_buffers_live _ hlive]
  exact ⟨_, rfl, rfl, rfl, rfl, rfl⟩

theorem destroy_swapchain_null (w : Window) (g : Gsg) (hg : w.gsg = some g)
    (hnull : ∃ b ∈ w.swap_buffers, b.tc = none) :
    ∃ r, destroy_swapchain w = .fault r := by
  unfold destroy_swapchain
  simp only [Window.log, hg]
  rw [destroy_swap_buffers_null _ hnull]
  exact ⟨_, rfl⟩

/-! ## create_swapchain -/

theorem create_image_views_scope (dev : Device) (info : VkSwapchainCreateInfoKHR)
    (images : List Handle) :
    ∀ (i : Nat) (bs : List SwapBuffer),
      ∀ c ∈ (create_image_views dev info i images bs).2.2, c.scope = .images := by
  induction images with
  | nil => intro i bs; simp [create_image_views]
  | cons image images ih =>
    intro i bs
    cases bs with
    | nil => simp [create_image_views]
    | cons b bs =>
      unfold create_image_views
      split_ifs
      · simp [Call.scope]
      · intro c hc
        rcases List.mem_cons.mp hc with h | h
        · rw [h]; rfl
        · exact ih _ _ c h

/-- When the loop over the swap images runs to its end on as many buffers as
there are images, every buffer has a texture context with the extent of the
swapchain request. -/
theorem create_image_views_live (dev : Device) (info : VkSwapchainCreateInfoKHR)
    (images : List Handle) :
    ∀ (i : Nat) (bs : List SwapBuffer), bs.length = images.length →
      (create_image_views dev info i images bs).1 = true →
      ∀ b ∈ (create_image_views dev info i images bs).2.1,
        ∃ tc, b.tc = some tc ∧
          tc.extent = ⟨info.imageExtent.1, info.imageExtent.2, 1⟩ := by
  induction images with
  | nil =>
    intro i bs hlen _
    have : bs = [] := List.length_eq_zero.mp (by simpa using hlen)
    subst this
    simp [create_image_views]
  | cons image images ih =>
    intro i bs hlen hok
    cases bs with
    | nil => simp at hlen
    | cons b bs =>
      unfold create_image_views at hok ⊢
      by_cases herr : (dev.create_image_view i).1 ≠ 0
      · rw [if_pos herr] at hok
        cases hok
      · rw [if_neg herr] at hok ⊢
        intro x hx
        rcases List.mem_cons.mp hx with h | h
        · rw [h]; exact ⟨_, rfl, rfl⟩
        · exact ih (i + 1) bs (by simpa using hlen) hok x h

theorem create_depth_stencil_scope (dev : Device) (w : Window) :
    ∀ c ∈ (create_depth_stencil dev w).calls, c.scope = .images := by
  unfold create_depth_stencil
  simp only
  split_ifs <;> simp [Call.scope]

theorem create_framebuffers_scope (dev : Device) (rp : Handle) (dv : Option Handle)
    (bs : List SwapBuffer) :
    ∀ (i : Nat), ∀ c ∈ (create_framebuffers dev rp dv i bs).calls, c.scope = .images := by
  induction bs with
  | nil => intro i; simp [create_framebuffers]
  | cons b bs ih =>
    intro i
    unfold create_framebuffers
    cases b.tc with
    | none => simp
    | some tc =>
      simp only
      split_ifs
      · simp [Call.scope]
      · intro c hc
        rcases List.mem_cons.mp hc with h | h
        · rw [h]; rfl
        · exact ih _ c h

/-- The framebuffer loop leaves every `_tc` as it was. -/
theorem create_framebuffers_tc (dev : Device) (rp : Handle) (dv : Option Handle)
    (bs : List SwapBuffer) :
    ∀ (i : Nat), (create_framebuffers dev rp dv i bs).buffers.map (fun b => b.tc) =
      bs.map (fun b => b.tc) := by
  induction bs with
  | nil => intro i; simp [create_framebuffers]
  | cons b bs ih =>
    intro i
    unfold create_framebuffers
    cases htc : b.tc with
    | none => simp
    | some tc =>
      simp only
      split_ifs
      · rfl
      · simp [ih, htc]

theorem create_framebuffers_live (dev : Device) (rp : Handle) (dv : Option Handle)
    (bs : List SwapBuffer) (h : ∀ b ∈ bs, b.tc ≠ none) :
    ∀ (i : Nat), (create_framebuffers dev rp dv i bs).fault = false := by
  induction bs with
  | nil => intro i; simp [create_framebuffers]
  | cons b bs ih =>
    intro i
    unfold create_framebuffers
    have hb := h b (List.mem_cons_self _ _)
    cases htc : b.tc with
    | none => exact absurd htc hb
    | some tc =>
      simp only
      split_ifs
      · rfl
      · exact ih (fun x hx => h x (List.mem_cons_of_mem _ hx)) _

theorem mem_of_map_tc {xs ys : List SwapBuffer}
    (h : xs.map (fun b => b.tc) = ys.map (fun b => b.tc)) {b : SwapBuffer} (hb : b ∈ xs) :
    ∃ b' ∈ ys, b'.tc = b.tc := by
  have : b.tc ∈ xs.map (fun b => b.tc) := List.mem_map_of_mem _ hb
  rw [h] at this
  obtain ⟨b', hb', e⟩ := List.mem_map.mp this
  exact ⟨b', hb', e⟩

theorem create_swapchain_object_config (dev : Device) (w : Window) :
    (create_swapchain_object dev w).state.config = w.config := by
  unfold create_swapchain_object
  simp only [Window.log]
  split_ifs <;> rfl

theorem create_swap_buffers_config (dev : Device) (info) (w : Window) :
    (create_swap_buffers dev info w).state.config = w.config := rfl

theorem create_depth_image_config (dev : Device) (w : Window) :
    (create_depth_image dev w).state.config = w.config := by
  unfold create_depth_image
  split_ifs <;> rfl

theorem create_swap_framebuffers_config (dev : Device) (w : Window) :
    (create_swap_framebuffers dev w).state.config = w.config := by
  unfold create_swap_framebuffers
  simp only
  split_ifs <;> rfl

theorem create_swapchain_config (dev : Device) (w : Window) :
    (create_swapchain dev w).state.config = w.config := by
  unfold create_swapchain
  simp only
  split
  · rfl
  · refine andIf_config (andIf_config (andIf_config ?_ ?_) ?_) ?_
    · exact create_swapchain_object_config dev _
    · intro w1 h; rw [create_swap_buffers_config]; exact h
    · intro w1 h; rw [create_depth_image_config]; exact h
    · intro w1 h; rw [create_swap_framebuffers_config]; exact h

theorem create_swapchain_object_pass (dev : Device) (w : Window) :
    (create_swapchain_object dev w).state.pass = w.pass := by
  unfold create_swapchain_object
  simp only [Window.log]
  split_ifs <;> rfl

theorem create_depth_image_pass (dev : Device) (w : Window) :
    (create_depth_image dev w).state.pass = w.pass := by
  unfold create_depth_image
  split_ifs <;> rfl

theorem create_swap_framebuffers_pass (dev : Device) (w : Window) :
    (create_swap_framebuffers dev w).state.pass = w.pass := by
  unfold create_swap_framebuffers
  simp only
  split_ifs <;> rfl

theorem create_swapchain_pass (dev : Device) (w : Window) :
    (create_swapchain dev w).state.pass = w.pass := by
  unfold create_swapchain
  simp only
  split
  · rfl
  · refine andIf_pass (andIf_pass (andIf_pass ?_ ?_) ?_) ?_
    · exact create_swapchain_object_pass dev _
    · intro w1 h; exact h
    · intro w1 h; rw [create_depth_image_pass]; exact h
    · intro w1 h; rw [create_swap_framebuffers_pass]; exact h

theorem create_swapchain_object_extends (dev : Device) (w : Window) :
    Extends (fun c => c.scope = .create) w (create_swapchain_object dev w).state := by
  unfold create_swapchain_object
  simp only [Window.log]
  split_ifs
  · exact ⟨_, rfl, by simp [Call.scope]⟩
  · exact ⟨_, List.append_assoc _ _ _, by simp [Call.scope]⟩
  · exact ⟨_, List.append_assoc _ _ _, by simp [Call.scope]⟩

theorem create_swap_buffers_extends (dev : Device) (info) (w : Window) :
    Extends (fun c => c.scope = .images) w (create_swap_buffers dev info w).state := by
  unfold create_swap_buffers
  refine ⟨_, List.append_assoc _ _ _, ?_⟩
  intro c hc
  rcases List.mem_append.mp hc with h | h
  · simp at h
    rw [h]; rfl
  · exact create_image_views_scope dev info _ _ _ c h

theorem create_depth_image_extends (dev : Device) (w : Window) :
    Extends (fun c => c.scope = .images) w (create_depth_image dev w).state := by
  unfold create_depth_image
  split_ifs
  · exact ⟨_, rfl, create_depth_stencil_scope dev w⟩
  · exact ⟨[], by simp [Run.state], by simp⟩

theorem create_swap_framebuffers_extends (dev : Device) (w : Window) :
    Extends (fun c => c.scope = .images) w (create_swap_framebuffers dev w).state := by
  unfold create_swap_framebuffers
  simp only
  split_ifs <;> exact ⟨_, rfl, create_framebuffers_scope dev _ _ _ _⟩

theorem create_swapchain_extends (dev : Device) (w : Window) :
    Extends (fun c => c.scope = .create ∨ c.scope = .images) w
      (create_swapchain dev w).state := by
  unfold create_swapchain
  simp only
  have h0 : Extends (fun c => c.scope = .create ∨ c.scope = .images) w
      (w.log .create_swapchain) := Extends.log w _ (Or.inl rfl)
  split
  · exact h0
  · refine Extends.trans h0 ?_
    refine Extends.andIf (Extends.andIf (Extends.andIf ?_ ?_) ?_) ?_
    · exact Extends.mono (fun _ h => Or.inl h) (create_swapchain_object_extends dev _)
    · intro v; exact Extends.mono (fun _ h => Or.inr h) (create_swap_buffers_extends dev _ v)
    · intro v; exact Extends.mono (fun _ h => Or.inr h) (create_depth_image_extends dev v)
    · intro v; exact Extends.mono (fun _ h => Or.inr h) (create_swap_framebuffers_extends dev v)

theorem create_swap_buffers_done (dev : Device) (info : VkSwapchainCreateInfoKHR)
    (v r : Window) (h : create_swap_buffers dev info v = .done true r) :
    r.size = v.size ∧ r.depth_stencil_format = v.depth_stencil_format ∧
    ∀ b ∈ r.swap_buffers, ∃ tc, b.tc = some tc ∧
      tc.extent = ⟨info.imageExtent.1, info.imageExtent.2, 1⟩ := by
  unfold create_swap_buffers at h
  simp only [Run.done.injEq] at h
  obtain ⟨hok, hr⟩ := h
  subst hr
  refine ⟨rfl, rfl, ?_⟩
  exact create_image_views_live dev info _ 0 _ (by simp) hok

theorem create_depth_image_done (dev : Device) (v r : Window) (a : Bool)
    (h : create_depth_image dev v = .done a r) :
    r.size = v.size ∧ r.swap_buffers = v.swap_buffers := by
  unfold create_depth_image at h
  split_ifs at h <;> simp only [Run.done.injEq] at h <;> obtain ⟨_, hr⟩ := h <;> subst hr <;>
    exact ⟨rfl, rfl⟩

theorem create_depth_image_returns (dev : Device) (v : Window) :
    ∃ a r, create_depth_image dev v = .done a r := by
  unfold create_depth_image
  split_ifs <;> exact ⟨_, _, rfl⟩

theorem create_swap_framebuffers_done (dev : Device) (v r : Window)
    (h : create_swap_framebuffers dev v = .done true r) :
    r.swapchain_size = r.size ∧ r.size = v.size ∧
    r.swap_buffers.map (fun b => b.tc) = v.swap_buffers.map (fun b => b.tc) := by
  unfold create_swap_framebuffers at h
  simp only at h
  by_cases hf : (create_framebuffers dev v.render_pass
      (Option.map (fun tc => tc.image_view) v.depth_stencil_tc) 0 v.swap_buffers).fault = true
  · rw [if_pos hf] at h; cases h
  · rw [if_neg hf] at h
    by_cases hk : (!(create_framebuffers dev v.render_pass
        (Option.map (fun tc => tc.image_view) v.depth_stencil_tc) 0 v.swap_buffers).ok) = true
    · rw [if_pos hk] at h; cases h
    · rw [if_neg hk] at h
      simp only [Run.done.injEq, true_and] at h
      subst h
      exact ⟨rfl, rfl, create_framebuffers_tc dev _ _ _ _⟩

theorem create_swap_framebuffers_returns (dev : Device) (v : Window)
    (hlive : v.buffers_live) : ∃ a r, create_swap_framebuffers dev v = .done a r := by
  unfold create_swap_framebuffers
  simp only
  rw [create_framebuffers_live dev _ _ _ hlive]
  simp only [Bool.false_eq_true, if_false]
  split_ifs <;> exact ⟨_, _, rfl⟩

/-- A successful `create_swapchain` records the window size as the size of
the swapchain and leaves every swap buffer with a texture context whose
extent is the window size. -/
theorem create_swapchain_done (dev : Device) (w r : Window)
    (h : create_swapchain dev w = .done true r) :
    r.swapchain_size = r.size ∧ r.size = w.size ∧
    ∀ b ∈ r.swap_buffers, ∃ tc, b.tc = some tc ∧
      tc.extent = ⟨toU32 w.size.1, toU32 w.size.2, 1⟩ := by
  unfold create_swapchain at h
  simp only at h
  split at h
  · simp at h
  · obtain ⟨v3, h3, h4⟩ := andIf_done_true h
    obtain ⟨v2, h2, h3'⟩ := andIf_done_true h3
    obtain ⟨v1, h1, h2'⟩ := andIf_done_true h2
    have e1 : v1.size = w.size := by
      have := create_swapchain_object_config dev (w.log .create_swapchain)
      rw [h1] at this
      exact congrArg (fun c => c.2.1) this
    obtain ⟨s2, _, l2⟩ := create_swap_buffers_done dev _ v1 v2 h2'
    obtain ⟨s3, b3⟩ := create_depth_image_done dev v2 v3 true h3'
    obtain ⟨ss, s4, b4⟩ := create_swap_framebuffers_done dev v3 r h4
    refine ⟨ss, by rw [s4, s3, s2, e1], ?_⟩
    intro b hb
    obtain ⟨b', hb', e⟩ := mem_of_map_tc b4 hb
    rw [b3] at hb'
    obtain ⟨tc, htc, hext⟩ := l2 b' hb'
    exact ⟨tc, by rw [← e, htc], hext⟩

/-- The function `create_swapchain` always returns: the framebuffer loop
only meets buffers the view loop has given a texture context. -/
theorem create_swapchain_returns (dev : Device) (w : Window) :
    ∃ a r, create_swapchain dev w = .done a r := by
  unfold create_swapchain
  simp only
  split
  · exact ⟨_, _, rfl⟩
  · have h1 : ∃ a r, create_swapchain_object dev (w.log .create_swapchain) = .done a r := by
      unfold create_swapchain_object
      simp only
      split_ifs <;> exact ⟨_, _, rfl⟩
    obtain ⟨a1, v1, e1⟩ := h1
    rw [e1]
    cases a1
    · exact ⟨_, _, rfl⟩
    · simp only [Run.andIf]
      cases h2 : (create_swap_buffers dev (swapchain_info dev (w.log .create_swapchain)) v1) with
      | fault v => simp [create_swap_buffers] at h2
      | done a2 v2 =>
        cases a2
        · exact ⟨_, _, rfl⟩
        · simp only
          obtain ⟨_, _, l2⟩ := create_swap_buffers_done dev _ v1 v2 h2
          obtain ⟨a3, v3, e3⟩ := create_depth_image_returns dev v2
          rw [e3]
          cases a3
          · exact ⟨_, _, rfl⟩
          · simp only
            obtain ⟨_, b3⟩ := create_depth_image_done dev v2 v3 true e3
            apply create_swap_framebuffers_returns
            intro b hb
            rw [b3] at hb
            obtain ⟨tc, htc, _⟩ := l2 b hb
            rw [htc]; simp

/-- The parts of `create_swapchain` after the swapchain object is made. -/
theorem create_swapchain_images_extends (dev : Device) (info : VkSwapchainCreateInfoKHR)
    (r : Run Bool) :
    Extends (fun c => c.scope = .images) r.state
      (((r.andIf (create_swap_buffers dev info)).andIf (create_depth_image dev)).andIf
        (create_swap_framebuffers dev)).state := by
  refine Extends.andIf (Extends.andIf (Extends.andIf (Extends.refl _ _) ?_) ?_) ?_
  · intro v; exact create_swap_buffers_extends dev _ v
  · intro v; exact create_depth_image_extends dev v
  · intro v; exact create_swap_framebuffers_extends dev v

/-- When the GSG is bound and the surface capabilities are obtained,
`create_swapchain` asks the device for a swapchain described by
`swapchain_info`: it is the fifth call issued, and the only call of
`vkCreateSwapchainKHR`. -/
theorem create_swapchain_request (dev : Device) (w : Window) (g : Gsg) (hg : w.gsg = some g)
    (hcaps : dev.surface_capabilities.1 = 0) :
    ∃ post, calls_since w (create_swapchain dev w).state =
      [.create_swapchain, .vkGetPhysicalDeviceSurfaceCapabilitiesKHR,
       .vkGetPhysicalDeviceSurfacePresentModesKHR, .vkGetPhysicalDeviceSurfacePresentModesKHR,
       .vkCreateSwapchainKHR (swapchain_info dev w)] ++ post ∧
      ∀ c ∈ post, ∀ info, c ≠ .vkCreateSwapchainKHR info := by
  have hstage : (create_swapchain_object dev (w.log .create_swapchain)).state.trace =
      w.trace ++ [.create_swapchain, .vkGetPhysicalDeviceSurfaceCapabilitiesKHR,
       .vkGetPhysicalDeviceSurfacePresentModesKHR, .vkGetPhysicalDeviceSurfacePresentModesKHR,
       .vkCreateSwapchainKHR (swapchain_info dev w)] := by
    unfold create_swapchain_object
    simp only [Window.log, hcaps, ne_eq, not_true_eq_false, if_false]
    split_ifs <;> simp [Run.state] <;> rfl
  have hext := create_swapchain_images_extends dev (swapchain_info dev (w.log .create_swapchain))
    (create_swapchain_object dev (w.log .create_swapchain))
  obtain ⟨post, hpost, hscope⟩ := hext
  refine ⟨post, ?_, ?_⟩
  · apply calls_since_append
    unfold create_swapchain
    simp only [show (w.log .create_swapchain).gsg = some g from hg]
    rw [hpost, hstage, List.append_assoc]
  · intro c hc info e
    have := hscope c hc
    rw [e] at this
    cases this

/-! ## Choice of the present mode and of the image count -/

theorem present_mode_loop_spec (modes : List VkPresentModeKHR) (cur : VkPresentModeKHR) :
    present_mode_loop cur modes =
      if VK_PRESENT_MODE_MAILBOX_KHR ∈ modes then VK_PRESENT_MODE_MAILBOX_KHR
      else if VK_PRESENT_MODE_IMMEDIATE_KHR ∈ modes then VK_PRESENT_MODE_IMMEDIATE_KHR
      else cur := by
  induction modes generalizing cur with
  | nil => simp [present_mode_loop]
  | cons m ms ih =>
    unfold present_mode_loop
    by_cases h1 : m = VK_PRESENT_MODE_MAILBOX_KHR
    · simp [h1]
    · have h1' : ¬ VK_PRESENT_MODE_MAILBOX_KHR = m := fun h => h1 h.symm
      by_cases h2 : m = VK_PRESENT_MODE_IMMEDIATE_KHR
      · have h3 : ¬ VK_PRESENT_MODE_MAILBOX_KHR = VK_PRESENT_MODE_IMMEDIATE_KHR := by decide
        rw [if_neg h1, if_pos h2, ih]
        subst h2
        simp [h3]
      · have h2' : ¬ VK_PRESENT_MODE_IMMEDIATE_KHR = m := fun h => h2 h.symm
        rw [if_neg h1, if_neg h2, ih]
        simp [h1', h2']

theorem toU32_of_nonneg (x : Int) (h0 : 0 ≤ x) (h1 : x < 2 ^ 32) : (toU32 x : Int) = x := by
  unfold toU32
  rw [Int.emod_eq_of_lt h0 h1]
  exact Int.toNat_of_nonneg h0

theorem num_images_spec (lo hi : Nat) (b : Int) (h0 : 0 ≤ b) (h1 : b < 2 ^ 31 - 1) :
    lo ≤ num_images lo hi b ∧
    ((lo : Int) ≤ b + 1 → b + 1 ≤ hi → (num_images lo hi b : Int) = b + 1) ∧
    (b + 1 < lo → num_images lo hi b = lo) ∧
    (lo ≤ hi → num_images lo hi b ≤ hi ∧ ((hi : Int) < b + 1 → num_images lo hi b = hi)) := by
  have hu : (toU32 (1 + b) : Int) = 1 + b := toU32_of_nonneg _ (by omega) (by omega)
  unfold num_images
  generalize toU32 (1 + b) = n at hu
  refine ⟨le_max_left _ _, ?_, ?_, ?_⟩
  · intro h2 h3
    have : min hi n = n := min_eq_right (by omega)
    rw [this]
    have : max lo n = n := max_eq_right (by omega)
    rw [this]; omega
  · intro h2
    have : min hi n ≤ lo := le_trans (min_le_right _ _) (by omega)
    exact max_eq_left this
  · intro h2
    refine ⟨max_le h2 (min_le_left _ _), ?_⟩
    intro h3
    have : min hi n = hi := min_eq_left (by omega)
    rw [this]
    exact max_eq_right h2

/-- On a surface that reports `maxImageCount` 0 the image count is the
minimum, whatever the hint. -/
theorem num_images_unlimited (lo : Nat) (b : Int) : num_images lo 0 b = lo := by
  simp [num_images]

/-! ## open_window -/

theorem setup_and_create_config (dev : Device) (w : Window) :
    (setup_and_create dev w).state.config = w.config := by
  unfold setup_and_create
  split_ifs
  · rw [create_swapchain_config, setup_render_pass_config]
  · exact setup_render_pass_config dev w

theorem setup_and_create_stencil_bits (dev : Device) (w : Window) :
    (setup_and_create dev w).state.fb_properties.stencil_bits = w.fb_properties.stencil_bits :=
  congrArg (fun c => c.2.2.2.2.2.2.2.2.1) (setup_and_create_config dev w)

theorem setup_and_create_format (dev : Device) (w : Window) :
    (setup_and_create dev w).state.depth_stencil_format = w.depth_stencil_format :=
  congrArg (fun c => c.2.2.2.2.2.1) (setup_and_create_config dev w)

theorem setup_and_create_aspect_mask (dev : Device) (w : Window) :
    (setup_and_create dev w).state.depth_stencil_aspect_mask = w.depth_stencil_aspect_mask :=
  congrArg (fun c => c.2.2.2.2.2.2.1) (setup_and_create_config dev w)

/-- The choice of the surface format leaves the depth and stencil request as
it is. -/
theorem choose_surface_format_request (p : FrameBufferProperties)
    (first : VkSurfaceFormatKHR) (formats : List VkSurfaceFormatKHR) :
    (choose_surface_format p first formats).2.depth_bits = p.depth_bits ∧
    (choose_surface_format p first formats).2.stencil_bits = p.stencil_bits ∧
    (choose_surface_format p first formats).2.float_depth = p.float_depth := by
  unfold choose_surface_format
  simp only
  split <;> exact ⟨rfl, rfl, rfl⟩

/-- When the surface reports the wildcard or more than one format, lines
427-473 return true and leave the depth and stencil request and the aspect
mask as they are. -/
theorem query_surface_format_some (dev : Device) (w : Window)
    (hc : dev.surface_formats_count_result = 0) (hr : dev.surface_formats_result = 0)
    (h : is_wildcard dev.surface_formats ∨ 1 < dev.surface_formats.length) :
    ∃ v, query_surface_format dev w = .done true v ∧
      v.fb_properties.depth_bits = w.fb_properties.depth_bits ∧
      v.fb_properties.stencil_bits = w.fb_properties.stencil_bits ∧
      v.fb_properties.float_depth = w.fb_properties.float_depth ∧
      v.depth_stencil_aspect_mask = w.depth_stencil_aspect_mask := by
  unfold query_surface_format
  simp only [Window.log, nassertr, hc, hr, beq_self_eq_true, if_true]
  by_cases hw : dev.surface_formats.length = 1 ∧
      dev.surface_formats.head?.map (fun f => f.format) = some VK_FORMAT_UNDEFINED
  · rw [if_pos hw]
    exact ⟨_, rfl, rfl, rfl, rfl, rfl⟩
  · rw [if_neg hw]
    have hlen : 1 < dev.surface_formats.length := by
      rcases h with h | h
      · exact absurd h hw
      · exact h
    rw [if_pos (by simpa using hlen)]
    cases hf : dev.surface_formats with
    | nil => rw [hf] at hlen; simp at hlen
    | cons first rest =>
      simp only [List.head?_cons]
      obtain ⟨e1, e2, e3⟩ := choose_surface_format_request w.fb_properties first (first :: rest)
      exact ⟨_, rfl, e1, e2, e3, rfl⟩

/-- Under `reaches_depth_choice` the function `open_window` is the choice of
the depth/stencil format followed by line 521, on a window that has the
request and the aspect mask of the window it was called on. -/
theorem open_window_reaches (dev : Device) (w : Window) (h : reaches_depth_choice dev w) :
    ∃ v, open_window dev w = setup_and_create dev (choose_depth_stencil_format dev v) ∧
      v.fb_properties.depth_bits = w.fb_properties.depth_bits ∧
      v.fb_properties.stencil_bits = w.fb_properties.stencil_bits ∧
      v.fb_properties.float_depth = w.fb_properties.float_depth ∧
      v.depth_stencil_aspect_mask = w.depth_stencil_aspect_mask := by
  obtain ⟨⟨hbase, hsurf, hgsg, hq, hc, hr⟩, hfmt⟩ := h
  obtain ⟨q, hq⟩ := Option.ne_none_iff_exists'.mp hq
  have hs : ∃ u, open_surface dev w = .done true u ∧
      u.fb_properties.depth_bits = w.fb_properties.depth_bits ∧
      u.fb_properties.stencil_bits = w.fb_properties.stencil_bits ∧
      u.fb_properties.float_depth = w.fb_properties.float_depth ∧
      u.depth_stencil_aspect_mask = w.depth_stencil_aspect_mask := by
    unfold open_surface
    simp only [Window.log, hbase, hsurf, hgsg, hq, Bool.not_true, Bool.false_eq_true,
      if_false, ne_eq, not_true_eq_false]
    exact ⟨_, rfl, rfl, rfl, rfl, rfl⟩
  obtain ⟨u, hu, a1, a2, a3, a4⟩ := hs
  obtain ⟨v, hv, b1, b2, b3, b4⟩ := query_surface_format_some dev u hc hr hfmt
  refine ⟨v, ?_, b1.trans a1, b2.trans a2, b3.trans a3, b4.trans a4⟩
  unfold open_window
  rw [hu]
  simp only [Run.andIf]
  rw [hv]

/-- Lines 480-497 are entered for every request that names depth or stencil
bits: the format chosen is one of the two combined formats, eight stencil
bits are reported and both aspect bits are added to the aspect mask. -/
theorem choose_depth_stencil_format_requested (dev : Device) (v : Window)
    (h : 0 < v.fb_properties.depth_bits ∨ 0 < v.fb_properties.stencil_bits) :
    (choose_depth_stencil_format dev v).depth_stencil_format =
      (if (dev.supports_depth_stencil VK_FORMAT_D32_SFLOAT_S8_UINT &&
            (decide (v.fb_properties.depth_bits > 24) || v.fb_properties.float_depth)) ||
          !dev.supports_depth_stencil VK_FORMAT_D24_UNORM_S8_UINT
        then VK_FORMAT_D32_SFLOAT_S8_UINT else VK_FORMAT_D24_UNORM_S8_UINT) ∧
    (choose_depth_stencil_format dev v).fb_properties.stencil_bits = 8 ∧
    (choose_depth_stencil_format dev v).depth_stencil_aspect_mask =
      v.depth_stencil_aspect_mask |||
        (VK_IMAGE_ASPECT_DEPTH_BIT ||| VK_IMAGE_ASPECT_STENCIL_BIT) := by
  unfold choose_depth_stencil_format
  simp only [Window.log]
  rw [if_pos (by simpa using h)]
  split_ifs <;> exact ⟨rfl, rfl, rfl⟩

/-! ## begin_frame -/

theorem begin_color_scope (w : Window) (tc : VulkanTextureContext) :
    ∀ c ∈ (begin_color w tc).1, c.scope = .draw := by
  unfold begin_color
  split_ifs <;> simp [Call.scope]

theorem begin_depth_stencil_scope (w : Window) (tc : VulkanTextureContext) :
    ∀ c ∈ (begin_depth_stencil w tc).1, c.scope = .draw := by
  unfold begin_depth_stencil
  split_ifs <;> simp [Call.scope]

/-- What `begin_render_pass` leaves alone, and that it returns true when it
returns. -/
theorem begin_render_pass_frame (w : Window) :
    (begin_render_pass w).state.config = w.config ∧
    (begin_render_pass w).state.pass = w.pass ∧
    (begin_render_pass w).state.swapchain_size = w.swapchain_size ∧
    (begin_render_pass w).state.image_index = w.image_index ∧
    (begin_render_pass w).state.swap_buffers.length = w.swap_buffers.length ∧
    (begin_render_pass w).value ≠ some false ∧
    Extends (fun c => c.scope = .draw) w (begin_render_pass w).state := by
  unfold begin_render_pass
  split
  · exact ⟨rfl, rfl, rfl, rfl, rfl, by simp [Run.value], Extends.refl _ _⟩
  · split
    · exact ⟨rfl, rfl, rfl, rfl, rfl, by simp [Run.value], Extends.refl _ _⟩
    · rename_i buffer _ tc _
      refine ⟨by simp [Run.state, Window.config], rfl, rfl, rfl,
        by simp [Run.state], by simp [Run.value], ?_⟩
      refine ⟨_, rfl, ?_⟩
      intro c hc
      rcases List.mem_append.mp hc with h | h
      · exact begin_color_scope w tc c h
      · rcases List.mem_append.mp h with h | h
        · cases hd : w.depth_stencil_tc with
          | none => rw [hd] at h; simp at h
          | some dtc =>
            rw [hd] at h
            exact begin_depth_stencil_scope w dtc c (by simpa using h)
        · simp at h; rw [h]; rfl

theorem acquire_image_frame (dev : Device) (w : Window) :
    (acquire_image dev w).config = w.config ∧
    (acquire_image dev w).pass = w.pass ∧
    (acquire_image dev w).swapchain_size = w.swapchain_size ∧
    (acquire_image dev w).swap_buffers = w.swap_buffers ∧
    (acquire_image dev w).trace = w.trace ++ [.vkAcquireNextImageKHR] ∧
    (∀ i, dev.acquire_next_image = some i → (acquire_image dev w).image_index = i) := by
  unfold acquire_image
  cases dev.acquire_next_image <;> simp <;> exact ⟨rfl, rfl⟩

/-- What lines 126-218 leave alone. -/
theorem render_frame_frame (dev : Device) (w : Window) :
    (render_frame dev w).state.config = w.config ∧
    (render_frame dev w).state.pass = w.pass ∧
    (render_frame dev w).state.swapchain_size = w.swapchain_size ∧
    (render_frame dev w).state.swap_buffers.length = w.swap_buffers.length ∧
    Extends (fun c => c.scope = .draw) w (render_frame dev w).state := by
  unfold render_frame
  simp only [Window.log, nassertr]
  by_cases hs : (dev.create_semaphore.1 == 0) = true
  · rw [if_pos hs]
    obtain ⟨c1, c2, c3, c4, c5, _⟩ := acquire_image_frame dev
      { w with trace := w.trace ++ [.vkCreateSemaphore]
               present_complete := dev.create_semaphore.2 }
    have c6 : Extends (fun c => c.scope = .draw) w (acquire_image dev
        { w with trace := w.trace ++ [.vkCreateSemaphore]
                 present_complete := dev.create_semaphore.2 }) :=
      ⟨[.vkCreateSemaphore, .vkAcquireNextImageKHR], by rw [c5]; simp, by simp [Call.scope]⟩
    split_ifs
    · obtain ⟨d1, d2, d3, _, d5, _, d7⟩ := begin_render_pass_frame (acquire_image dev
        { w with trace := w.trace ++ [.vkCreateSemaphore]
                 present_complete := dev.create_semaphore.2 })
      exact ⟨d1.trans c1, d2.trans c2, d3.trans c3, d5.trans (congrArg List.length c4),
        c6.trans d7⟩
    · exact ⟨c1, c2, c3, congrArg List.length c4, c6⟩
  · rw [if_neg hs]
    exact ⟨rfl, rfl, rfl, rfl, ⟨_, rfl, by simp [Call.scope]⟩⟩

/-- What lines 115-218 leave alone. -/
theorem start_frame_frame (dev : Device) (mode : FrameMode) (w : Window) :
    (start_frame dev mode w).state.config = w.config ∧
    (start_frame dev mode w).state.pass = w.pass ∧
    (start_frame dev mode w).state.swapchain_size = w.swapchain_size ∧
    (start_frame dev mode w).state.swap_buffers.length = w.swap_buffers.length ∧
    Extends (fun c => c.scope = .draw) w (start_frame dev mode w).state := by
  unfold start_frame
  simp only [Window.log]
  cases hb : dev.gsg_begin_frame with
  | none => exact ⟨rfl, rfl, rfl, rfl, ⟨_, rfl, by simp [Call.scope]⟩⟩
  | some cmd =>
    simp only
    have c0 : Extends (fun c => c.scope = .draw) w
        { w with trace := w.trace ++ [.gsg_begin_frame]
                 gsg := w.gsg.map fun g => g.begin_frame cmd } :=
      ⟨_, rfl, by simp [Call.scope]⟩
    by_cases hm : mode ≠ .FM_render
    · rw [if_pos hm]
      exact ⟨by simp [Run.state, Window.config], rfl, rfl, rfl, c0⟩
    · rw [if_neg hm]
      obtain ⟨d1, d2, d3, d4, d5⟩ := render_frame_frame dev
        { w with trace := w.trace ++ [.gsg_begin_frame]
                 gsg := w.gsg.map fun g => g.begin_frame cmd }
      exact ⟨d1.trans (by simp [Window.config]), d2, d3, d4, c0.trans d5⟩

/-- In render mode `begin_frame`'s last part returns true only with an image
index inside the swap buffers. -/
theorem render_frame_index (dev : Device) (w r : Window)
    (h : render_frame dev w = .done true r) : r.image_index < r.swap_buffers.length := by
  unfold render_frame at h
  simp only [Window.log, nassertr] at h
  by_cases hs : (dev.create_semaphore.1 == 0) = true
  · rw [if_pos hs] at h
    split_ifs at h with hi
    · have hf := begin_render_pass_frame (acquire_image dev
        { w with trace := w.trace ++ [.vkCreateSemaphore]
                 present_complete := dev.create_semaphore.2 })
      rw [h] at hf
      obtain ⟨_, _, _, d4, d5, _, _⟩ := hf
      simp only [Run.state] at d4 d5
      rw [d4, d5]
      exact of_decide_eq_true hi
    · cases h
  · rw [if_neg hs] at h; cases h

theorem rebuild_render_pass_frame (dev : Device) (w : Window) :
    (rebuild_render_pass dev w).config = w.config ∧
    (rebuild_render_pass dev w).swapchain_size = w.swapchain_size ∧
    (rebuild_render_pass dev w).swap_buffers = w.swap_buffers ∧
    Extends (fun c => c.scope = .sync ∨ c.scope = .pass) w (rebuild_render_pass dev w) := by
  unfold rebuild_render_pass
  split_ifs
  · obtain ⟨b1, b2, _, _⟩ := setup_render_pass_buffers dev (w.log .vkQueueWaitIdle)
    refine ⟨(setup_render_pass_config dev _).trans rfl, b2, b1, ?_⟩
    exact (Extends.log w .vkQueueWaitIdle (Or.inl rfl)).trans
      (Extends.mono (fun _ h => Or.inr h) (setup_render_pass_extends dev _))
  · exact ⟨rfl, rfl, rfl, Extends.refl _ _⟩

/-- The render pass is set up again exactly when the recorded clear mask is
not the current one. -/
theorem rebuild_render_pass_marker (dev : Device) (w : Window) :
    Call.setup_render_pass ∈ calls_since w (rebuild_render_pass dev w) ↔
      w.current_clear_mask ≠ w.clear_mask := by
  unfold rebuild_render_pass
  by_cases h : w.current_clear_mask ≠ w.clear_mask
  · rw [if_pos h]
    refine ⟨fun _ => h, fun _ => ?_⟩
    have e1 : Extends (fun _ => True) w (w.log .vkQueueWaitIdle) := Extends.log _ _ trivial
    have e2 : Extends (fun _ => True) (w.log .vkQueueWaitIdle)
        (setup_render_pass dev (w.log .vkQueueWaitIdle)).2 :=
      Extends.mono (fun _ _ => trivial) (setup_render_pass_extends dev _)
    rw [Extends.calls_eq e1 e2]
    exact List.mem_append_right _ (setup_render_pass_marker dev _)
  · rw [if_neg h]
    simp [calls_since, h]

theorem rebuild_render_pass_mask (dev : Device) (w : Window) (hg : w.gsg ≠ none)
    (h : w.current_clear_mask = w.clear_mask ∨ dev.create_render_pass.1 = 0) :
    (rebuild_render_pass dev w).current_clear_mask = (rebuild_render_pass dev w).clear_mask := by
  unfold rebuild_render_pass
  by_cases hm : w.current_clear_mask ≠ w.clear_mask
  · rw [if_pos hm]
    rcases h with h | h
    · exact absurd h hm
    · obtain ⟨g, hg'⟩ := Option.ne_none_iff_exists'.mp hg
      have := (setup_render_pass_ok dev (w.log .vkQueueWaitIdle) g hg' h).2
      rw [this]
      have hc := setup_render_pass_config dev (w.log .vkQueueWaitIdle)
      exact (congrArg (fun c => c.1) hc).symm
  · rw [if_neg hm]
    exact not_not.mp hm

theorem recreate_swapchain_frame (dev : Device) (w : Window) :
    (recreate_swapchain dev w).state.config = w.config ∧
    (recreate_swapchain dev w).state.pass = w.pass ∧
    Extends (fun c => c.scope = .sync ∨ c.scope = .destroy ∨ c.scope = .create ∨
      c.scope = .images) w (recreate_swapchain dev w).state := by
  unfold recreate_swapchain
  split_ifs
  · have e0 : Extends (fun c => c.scope = .sync ∨ c.scope = .destroy ∨ c.scope = .create ∨
        c.scope = .images) w (w.log .vkQueueWaitIdle) := Extends.log _ _ (Or.inl rfl)
    have c1 := destroy_swapchain_config (w.log .vkQueueWaitIdle)
    have p1 := destroy_swapchain_pass (w.log .vkQueueWaitIdle)
    have e1 : Extends (fun c => c.scope = .sync ∨ c.scope = .destroy ∨ c.scope = .create ∨
        c.scope = .images) (w.log .vkQueueWaitIdle)
        (destroy_swapchain (w.log .vkQueueWaitIdle)).state :=
      Extends.mono (fun _ h => Or.inr (Or.inl h)) (destroy_swapchain_extends _)
    cases hd : destroy_swapchain (w.log .vkQueueWaitIdle) with
    | fault v =>
      rw [hd] at c1 p1 e1
      exact ⟨c1, p1, e0.trans e1⟩
    | done u v =>
      rw [hd] at c1 p1 e1
      simp only [Run.andThen]
      refine ⟨(create_swapchain_config dev v).trans c1, (create_swapchain_pass dev v).trans p1,
        e0.trans (e1.trans ?_)⟩
      exact Extends.mono (fun _ h => Or.inr (Or.inr h)) (create_swapchain_extends dev v)
  · exact ⟨rfl, rfl, Extends.refl _ _⟩

/-- When lines 104-113 let the frame go on, the size recorded for the
swapchain is the size of the window. -/
theorem recreate_swapchain_done (dev : Device) (w r : Window)
    (h : recreate_swapchain dev w = .done true r) : r.swapchain_size = r.size := by
  unfold recreate_swapchain at h
  by_cases hs : w.swapchain_size ≠ w.size
  · rw [if_pos hs] at h
    cases hd : destroy_swapchain (w.log .vkQueueWaitIdle) with
    | fault v => rw [hd] at h; cases h
    | done u v =>
      rw [hd] at h
      exact (create_swapchain_done dev v r h).1
  · rw [if_neg hs] at h
    cases h
    exact not_not.mp hs

/-- With a GSG bound and the window exposed, `begin_frame` is its three
parts in sequence. -/
theorem begin_frame_eq (dev : Device) (mode : FrameMode) (w : Window) (hg : w.gsg ≠ none)
    (hexp : w.unexposed_draw = true ∨ w.got_expose_event = true) :
    begin_frame dev mode w =
      (recreate_swapchain dev (rebuild_render_pass dev w)).andIf (start_frame dev mode) := by
  obtain ⟨g, hg'⟩ := Option.ne_none_iff_exists'.mp hg
  unfold begin_frame
  rw [hg']
  simp only
  rw [if_neg]
  rcases hexp with h | h <;> simp [h]

/-- The calls of `begin_frame` come in three groups: those of the render
pass rebuild, those of the swapchain recreation, those of lines 115-218. -/
theorem begin_frame_calls (dev : Device) (mode : FrameMode) (w : Window) (hg : w.gsg ≠ none)
    (hexp : w.unexposed_draw = true ∨ w.got_expose_event = true) :
    ∃ C, calls_since w (begin_frame dev mode w).state =
        calls_since w (rebuild_render_pass dev w) ++
        calls_since (rebuild_render_pass dev w)
          (recreate_swapchain dev (rebuild_render_pass dev w)).state ++ C ∧
      (∀ c ∈ C, c.scope = .draw) ∧
      (C ≠ [] → ∃ v, recreate_swapchain dev (rebuild_render_pass dev w) = .done true v) ∧
      (begin_frame dev mode w).state.config = w.config := by
  rw [begin_frame_eq dev mode w hg hexp]
  obtain ⟨c1, _, _, e1⟩ := rebuild_render_pass_frame dev w
  obtain ⟨c2, _, e2⟩ := recreate_swapchain_frame dev (rebuild_render_pass dev w)
  have e1' : Extends (fun _ => True) w (rebuild_render_pass dev w) :=
    Extends.mono (fun _ _ => trivial) e1
  have e2' : Extends (fun _ => True) (rebuild_render_pass dev w)
      (recreate_swapchain dev (rebuild_render_pass dev w)).state :=
    Extends.mono (fun _ _ => trivial) e2
  cases hr : recreate_swapchain dev (rebuild_render_pass dev w) with
  | fault v =>
    rw [hr] at e2' c2
    refine ⟨[], ?_, by simp, by simp, c2.trans c1⟩
    simp only [Run.andIf, List.append_nil]
    exact Extends.calls_eq e1' e2'
  | done a v =>
    rw [hr] at e2' c2
    cases a
    · refine ⟨[], ?_, by simp, by simp, c2.trans c1⟩
      simp only [Run.andIf, List.append_nil]
      exact Extends.calls_eq e1' e2'
    · obtain ⟨c3, _, _, _, e3⟩ := start_frame_frame dev mode v
      refine ⟨calls_since v (start_frame dev mode v).state, ?_, e3.calls,
        fun _ => ⟨v, rfl⟩, c3.trans (c2.trans c1)⟩
      simp only [Run.andIf]
      have e3' : Extends (fun _ => True) v (start_frame dev mode v).state :=
        Extends.mono (fun _ _ => trivial) e3
      simp only [Run.state] at e2'
      rw [Extends.calls_eq (e1'.trans e2') e3', Extends.calls_eq e1' e2']
      rfl

/-- After the render pass rebuild nothing in `begin_frame` writes the
recorded clear mask or the render pass. -/
theorem begin_frame_pass (dev : Device) (mode : FrameMode) (w : Window) (hg : w.gsg ≠ none)
    (hexp : w.unexposed_draw = true ∨ w.got_expose_event = true) :
    (begin_frame dev mode w).state.pass = (rebuild_render_pass dev w).pass := by
  rw [begin_frame_eq dev mode w hg hexp]
  refine andIf_pass (recreate_swapchain_frame dev _).2.1 ?_
  intro v hv
  rw [(start_frame_frame dev mode v).2.1]
  exact hv

theorem config_gsg {a b : Window} (h : a.config = b.config) (hb : b.gsg ≠ none) :
    a.gsg ≠ none := by
  have e : a.gsg.isSome = b.gsg.isSome := congrArg (fun c => c.2.2.2.2.2.2.2.2.2.2.1) h
  intro ha
  rw [ha] at e
  cases hbg : b.gsg with
  | none => exact hb hbg
  | some g => rw [hbg] at e; cases e

theorem config_exposed {a b : Window} (h : a.config = b.config)
    (hb : b.unexposed_draw = true ∨ b.got_expose_event = true) :
    a.unexposed_draw = true ∨ a.got_expose_event = true := by
  have e1 : a.unexposed_draw = b.unexposed_draw := congrArg (fun c => c.2.2.1) h
  have e2 : a.got_expose_event = b.got_expose_event := congrArg (fun c => c.2.2.2.1) h
  rw [e1, e2]; exact hb

/-- The render pass build is invoked by `begin_frame` exactly when the
recorded clear mask is not the current one. -/
theorem begin_frame_marker (dev : Device) (mode : FrameMode) (w : Window) (hg : w.gsg ≠ none)
    (hexp : w.unexposed_draw = true ∨ w.got_expose_event = true) :
    Call.setup_render_pass ∈ calls_since w (begin_frame dev mode w).state ↔
      w.current_clear_mask ≠ w.clear_mask := by
  obtain ⟨C, hC, hdraw, _, _⟩ := begin_frame_calls dev mode w hg hexp
  rw [hC, ← rebuild_render_pass_marker dev w]
  constructor
  · intro h
    rcases List.mem_append.mp h with h | h
    · rcases List.mem_append.mp h with h | h
      · exact h
      · have := (recreate_swapchain_frame dev (rebuild_render_pass dev w)).2.2.calls _ h
        simp [Call.scope] at this
    · have := hdraw _ h
      simp [Call.scope] at this
  · intro h
    exact List.mem_append_left _ (List.mem_append_left _ h)

/-- The two ways `begin_frame` goes on a bound, exposed window: it stops in
the swapchain recreation, having issued no call of lines 115-218, or it runs
lines 115-218 on the window the recreation leaves. -/
theorem begin_frame_cases (dev : Device) (mode : FrameMode) (w : Window) (hg : w.gsg ≠ none)
    (hexp : w.unexposed_draw = true ∨ w.got_expose_event = true) :
    ((begin_frame dev mode w).value ≠ some true ∧
      ∀ c ∈ calls_since w (begin_frame dev mode w).state, c.scope ≠ .draw) ∨
    ∃ v, recreate_swapchain dev (rebuild_render_pass dev w) = .done true v ∧
      begin_frame dev mode w = start_frame dev mode v ∧
      calls_since w (start_frame dev mode v).state =
        calls_since w v ++ calls_since v (start_frame dev mode v).state ∧
      ∀ c ∈ calls_since w v, c.scope ≠ .draw := by
  rw [begin_frame_eq dev mode w hg hexp]
  obtain ⟨_, _, _, e1⟩ := rebuild_render_pass_frame dev w
  obtain ⟨_, _, e2⟩ := recreate_swapchain_frame dev (rebuild_render_pass dev w)
  have e12 : Extends (fun c => c.scope ≠ .draw) w
      (recreate_swapchain dev (rebuild_render_pass dev w)).state := by
    refine Extends.trans (Extends.mono ?_ e1) (Extends.mono ?_ e2)
    · intro c h; rcases h with h | h <;> rw [h] <;> decide
    · intro c h; rcases h with h | h | h | h <;> rw [h] <;> decide
  cases hr : recreate_swapchain dev (rebuild_render_pass dev w) with
  | fault v =>
    rw [hr] at e12
    exact Or.inl ⟨by simp [Run.andIf, Run.value], e12.calls⟩
  | done a v =>
    rw [hr] at e12
    cases a
    · exact Or.inl ⟨by simp [Run.andIf, Run.value], e12.calls⟩
    · refine Or.inr ⟨v, rfl, rfl, ?_, e12.calls⟩
      exact Extends.calls_eq (Extends.mono (fun _ _ => trivial) e12)
        (Extends.mono (fun _ _ => trivial) (start_frame_frame dev mode v).2.2.2.2)

/-- An acquired index outside the swap buffers makes lines 126-218 return
false without beginning a render pass. -/
theorem render_frame_out_of_range (dev : Device) (v : Window) (i : Nat)
    (hacq : dev.acquire_next_image = some i)
    (hlen : ¬ i < (render_frame dev v).state.swap_buffers.length) :
    render_frame dev v = .done false (render_frame dev v).state ∧
    (∀ c ∈ calls_since v (render_frame dev v).state,
      c = .vkCreateSemaphore ∨ c = .vkAcquireNextImageKHR) ∧
    (Call.vkAcquireNextImageKHR ∈ calls_since v (render_frame dev v).state →
      (render_frame dev v).state.image_index = i) := by
  have hlen' := (render_frame_frame dev v).2.2.2.1
  rw [hlen'] at hlen
  unfold render_frame
  simp only [Window.log, nassertr]
  by_cases hs : (dev.create_semaphore.1 == 0) = true
  · rw [if_pos hs]
    obtain ⟨_, _, _, c4, c5, c6⟩ := acquire_image_frame dev
      { v with trace := v.trace ++ [.vkCreateSemaphore]
               present_complete := dev.create_semaphore.2 }
    have hi := c6 i hacq
    have hcheck : ¬ (decide ((acquire_image dev
        { v with trace := v.trace ++ [.vkCreateSemaphore]
                 present_complete := dev.create_semaphore.2 }).image_index <
        (acquire_image dev
        { v with trace := v.trace ++ [.vkCreateSemaphore]
                 present_complete := dev.create_semaphore.2 }).swap_buffers.length) = true) := by
      rw [hi, c4]; simpa using hlen
    rw [if_neg hcheck]
    refine ⟨rfl, ?_, fun _ => hi⟩
    simp only [Run.state]
    rw [calls_since_append v _ [.vkCreateSemaphore, .vkAcquireNextImageKHR]
      (by rw [c5]; simp)]
    simp
  · rw [if_neg hs]
    refine ⟨rfl, ?_, ?_⟩ <;> simp [calls_since, Run.state]

theorem start_frame_out_of_range (dev : Device) (v : Window) (i : Nat)
    (hacq : dev.acquire_next_image = some i)
    (hlen : ¬ i < (start_frame dev .FM_render v).state.swap_buffers.length) :
    start_frame dev .FM_render v = .done false (start_frame dev .FM_render v).state ∧
    (∀ c ∈ calls_since v (start_frame dev .FM_render v).state,
      c = .gsg_begin_frame ∨ c = .vkCreateSemaphore ∨ c = .vkAcquireNextImageKHR) ∧
    (Call.vkAcquireNextImageKHR ∈ calls_since v (start_frame dev .FM_render v).state →
      (start_frame dev .FM_render v).state.image_index = i) := by
  unfold start_frame at hlen ⊢
  simp only [Window.log] at hlen ⊢
  cases hb : dev.gsg_begin_frame with
  | none => refine ⟨rfl, ?_, ?_⟩ <;> simp [calls_since, Run.state]
  | some cmd =>
    rw [hb] at hlen
    simp only [ne_eq, not_true_eq_false, if_false] at hlen ⊢
    obtain ⟨h1, h2, h3⟩ := render_frame_out_of_range dev _ i hacq hlen
    have e0 : Extends (fun _ => True) v
        { v with trace := v.trace ++ [.gsg_begin_frame]
                 gsg := v.gsg.map fun g => g.begin_frame cmd } :=
      ⟨[.gsg_begin_frame], rfl, by simp⟩
    have e1 := Extends.mono (fun _ _ => trivial) (render_frame_frame dev
        { v with trace := v.trace ++ [.gsg_begin_frame]
                 gsg := v.gsg.map fun g => g.begin_frame cmd }).2.2.2.2
    have hc := Extends.calls_eq e0 e1
    have h0 : calls_since v
        { v with trace := v.trace ++ [.gsg_begin_frame]
                 gsg := v.gsg.map fun g => g.begin_frame cmd } = [.gsg_begin_frame] :=
      calls_since_append _ _ _ rfl
    rw [h0] at hc
    refine ⟨h1, ?_, ?_⟩
    · intro c hcm
      rw [hc] at hcm
      rcases List.mem_append.mp hcm with h | h
      · left; simpa using h
      · right; exact h2 c h
    · intro hm
      rw [hc] at hm
      rcases List.mem_append.mp hm with h | h
      · simp at h
      · exact h3 h

/-- Lines 71-81: without a GSG, or unexposed, `begin_frame` returns false at
once. -/
theorem begin_frame_skip (dev : Device) (mode : FrameMode) (w : Window)
    (h : ¬ (w.gsg ≠ none ∧ (w.unexposed_draw = true ∨ w.got_expose_event = true))) :
    begin_frame dev mode w = .done false w := by
  unfold begin_frame
  cases hg : w.gsg with
  | none => rfl
  | some g =>
    simp only
    rw [if_pos]
    have : ¬ (w.unexposed_draw = true ∨ w.got_expose_event = true) :=
      fun hh => h ⟨by rw [hg]; simp, hh⟩
    simp only [not_or, Bool.not_eq_true] at this
    simp [this.1, this.2]

/-- In render mode lines 115-218 return true only with an image index inside
the swap buffers. -/
theorem start_frame_index (dev : Device) (v r : Window)
    (h : start_frame dev .FM_render v = .done true r) :
    r.image_index < r.swap_buffers.length := by
  unfold start_frame at h
  simp only [Window.log] at h
  cases hb : dev.gsg_begin_frame with
  | none => rw [hb] at h; cases h
  | some cmd =>
    rw [hb] at h
    simp only [ne_eq, not_true_eq_false, if_false] at h
    exact render_frame_index dev _ r h

theorem create_swapchain_marker (dev : Device) (w : Window) :
    ∃ L, calls_since w (create_swapchain dev w).state = Call.create_swapchain :: L ∧
      ∀ c ∈ L, c.scope = .create ∨ c.scope = .images := by
  have h0 : Extends (fun c => c.scope = .create ∨ c.scope = .images)
      (w.log .create_swapchain) (create_swapchain dev w).state := by
    unfold create_swapchain
    simp only
    split
    · exact Extends.refl _ _
    · refine Extends.andIf (Extends.andIf (Extends.andIf ?_ ?_) ?_) ?_
      · exact Extends.mono (fun _ h => Or.inl h) (create_swapchain_object_extends dev _)
      · intro v; exact Extends.mono (fun _ h => Or.inr h) (create_swap_buffers_extends dev _ v)
      · intro v; exact Extends.mono (fun _ h => Or.inr h) (create_depth_image_extends dev v)
      · intro v
        exact Extends.mono (fun _ h => Or.inr h) (create_swap_framebuffers_extends dev v)
  obtain ⟨L, hL, hP⟩ := h0
  refine ⟨L, ?_, hP⟩
  apply calls_since_append
  rw [hL]
  simp [Window.log]

theorem destroy_swapchain_marker_scope (w : Window) :
    ∃ L, calls_since w (destroy_swapchain w).state = Call.destroy_swapchain :: L ∧
      ∀ c ∈ L, c.scope = .destroy := by
  obtain ⟨L, hL⟩ := destroy_swapchain_marker w
  refine ⟨L, hL, ?_⟩
  intro c hc
  exact (destroy_swapchain_extends w).calls c (by rw [hL]; exact List.mem_cons_of_mem _ hc)

/-- A `create_swapchain` that returns true was called with a GSG bound. -/
theorem create_swapchain_bound (dev : Device) (w r : Window)
    (h : create_swapchain dev w = .done true r) : r.gsg ≠ none := by
  have hc := create_swapchain_config dev w
  rw [h] at hc
  apply config_gsg hc
  intro hg
  unfold create_swapchain at h
  simp only [Window.log, hg] at h
  cases h

/-- Whenever `begin_frame` returns true the size recorded for the swapchain
is the size of the window. -/
theorem begin_frame_true_size (dev : Device) (mode : FrameMode) (w r : Window)
    (h : begin_frame dev mode w = .done true r) : r.swapchain_size = r.size := by
  by_cases hbe : w.gsg ≠ none ∧ (w.unexposed_draw = true ∨ w.got_expose_event = true)
  · obtain ⟨hg, hexp⟩ := hbe
    rw [begin_frame_eq dev mode w hg hexp] at h
    obtain ⟨v, hv, hs⟩ := andIf_done_true h
    have hsz := recreate_swapchain_done dev _ v hv
    obtain ⟨c1, _, c3, _, _⟩ := start_frame_frame dev mode v
    rw [hs] at c1 c3
    simp only [Run.state] at c1 c3
    have : r.size = v.size := congrArg (fun c => c.2.1) c1
    rw [c3, this]
    exact hsz
  · rw [begin_frame_skip dev mode w hbe] at h
    cases h

/-- On a bound, exposed window whose size is not the size of the swapchain
and whose swap buffers all have a texture context, `begin_frame` waits for
the queue, destroys the swapchain and creates it again before any image is
acquired; when the creation succeeds the recorded size and the extent of
every swap buffer are the window size, and when it fails `begin_frame`
returns false. -/
theorem begin_frame_resize_live (dev : Device) (mode : FrameMode) (w : Window)
    (hg : w.gsg ≠ none) (hexp : w.unexposed_draw = true ∨ w.got_expose_event = true)
    (hsz : w.swapchain_size ≠ w.size) (hlive : w.buffers_live) :
    ∃ u, destroy_swapchain ((rebuild_render_pass dev w).log .vkQueueWaitIdle) = .done () u ∧
      u.swap_buffers = [] ∧
      begin_frame dev mode w = (create_swapchain dev u).andIf (start_frame dev mode) ∧
      (∃ A B C, calls_since w (begin_frame dev mode w).state =
          A ++ [.vkQueueWaitIdle, .destroy_swapchain] ++ B ++ [.create_swapchain] ++ C ∧
        ∀ c ∈ A ++ B, c ≠ .vkAcquireNextImageKHR) ∧
      (∀ v, create_swapchain dev u = .done true v →
        v.swapchain_size = w.size ∧
        (∀ b ∈ v.swap_buffers, ∃ tc, b.tc = some tc ∧
          tc.extent = ⟨toU32 w.size.1, toU32 w.size.2, 1⟩) ∧
        (begin_frame dev mode w).state.swapchain_size = w.size) ∧
      ((create_swapchain dev u).value ≠ some true →
        (begin_frame dev mode w).value = some false) := by
  obtain ⟨c1, s1, b1, e1⟩ := rebuild_render_pass_frame dev w
  have hsize1 : (rebuild_render_pass dev w).size = w.size := congrArg (fun c => c.2.1) c1
  have hg1 : ((rebuild_render_pass dev w).log .vkQueueWaitIdle).gsg ≠ none :=
    config_gsg (b := w) c1 hg
  obtain ⟨g1, hg1'⟩ := Option.ne_none_iff_exists'.mp hg1
  have hlive1 : ((rebuild_render_pass dev w).log .vkQueueWaitIdle).buffers_live := by
    intro b hb
    exact hlive b (by rw [← b1]; exact hb)
  obtain ⟨u, hu, hub, _, _, _⟩ := destroy_swapchain_live _ g1 hg1' hlive1
  have hrec : recreate_swapchain dev (rebuild_render_pass dev w) = create_swapchain dev u := by
    unfold recreate_swapchain
    rw [if_pos (by rw [s1, hsize1]; exact hsz), hu]
    rfl
  have hbf : begin_frame dev mode w = (create_swapchain dev u).andIf (start_frame dev mode) := by
    rw [begin_frame_eq dev mode w hg hexp, hrec]
  have husize : u.size = w.size := by
    have := destroy_swapchain_config ((rebuild_render_pass dev w).log .vkQueueWaitIdle)
    rw [hu] at this
    have h2 : u.size = ((rebuild_render_pass dev w).log .vkQueueWaitIdle).size :=
      congrArg (fun c => c.2.1) this
    rw [h2]; exact hsize1
  refine ⟨u, hu, hub, hbf, ?_, ?_, ?_⟩
  · -- order of the calls
    obtain ⟨B, hB, hBs⟩ := destroy_swapchain_marker_scope
      ((rebuild_render_pass dev w).log .vkQueueWaitIdle)
    rw [hu] at hB
    simp only [Run.state] at hB
    obtain ⟨L, hL, _⟩ := create_swapchain_marker dev u
    have t1 : Extends (fun _ => True) w (rebuild_render_pass dev w) :=
      Extends.mono (fun _ _ => trivial) e1
    have t2 : Extends (fun _ => True) (rebuild_render_pass dev w)
        ((rebuild_render_pass dev w).log .vkQueueWaitIdle) := Extends.log _ _ trivial
    have t3 : Extends (fun _ => True) ((rebuild_render_pass dev w).log .vkQueueWaitIdle) u := by
      have := Extends.mono (fun _ _ => trivial)
        (destroy_swapchain_extends ((rebuild_render_pass dev w).log .vkQueueWaitIdle))
      rw [hu] at this
      exact this
    have t4 : Extends (fun _ => True) u (create_swapchain dev u).state :=
      Extends.mono (fun _ _ => trivial) (create_swapchain_extends dev u)
    have t5 : Extends (fun _ => True) (create_swapchain dev u).state
        ((create_swapchain dev u).andIf (start_frame dev mode)).state :=
      Extends.andIf (Extends.refl _ _)
        (fun v => Extends.mono (fun _ _ => trivial) (start_frame_frame dev mode v).2.2.2.2)
    refine ⟨calls_since w (rebuild_render_pass dev w), B,
      L ++ calls_since (create_swapchain dev u).state
        ((create_swapchain dev u).andIf (start_frame dev mode)).state, ?_, ?_⟩
    · rw [hbf, Extends.calls_eq (((t1.trans t2).trans t3).trans t4) t5,
        Extends.calls_eq ((t1.trans t2).trans t3) t4, Extends.calls_eq (t1.trans t2) t3,
        Extends.calls_eq t1 t2, hB, hL]
      simp [calls_since, Window.log]
    · intro c hc
      rcases List.mem_append.mp hc with h | h
      · intro e
        have := e1.calls c h
        rw [e] at this
        simp [Call.scope] at this
      · intro e
        have := hBs c h
        rw [e] at this
        simp [Call.scope] at this
  · intro v hv
    obtain ⟨d1, d2, d3⟩ := create_swapchain_done dev u v hv
    refine ⟨by rw [d1, d2, husize], ?_, ?_⟩
    · rw [husize] at d3; exact d3
    · rw [hbf, hv]
      simp only [Run.andIf]
      rw [(start_frame_frame dev mode v).2.2.1, d1, d2, husize]
  · intro hne
    rw [hbf]
    obtain ⟨a, v, hv⟩ := create_swapchain_returns dev u
    rw [hv] at hne ⊢
    cases a
    · rfl
    · exact absurd rfl hne

/-- The scan returns the first entry with one of the two wanted formats. -/
theorem scan_formats_some (a b : VkFormat) (formats : List VkSurfaceFormatKHR)
    (f : VkSurfaceFormatKHR) (h : scan_formats a b formats = some f) :
    ∃ pre post, formats = pre ++ f :: post ∧ (f.format = a ∨ f.format = b) ∧
      ∀ x ∈ pre, ¬ (x.format = a ∨ x.format = b) := by
  induction formats with
  | nil => simp [scan_formats] at h
  | cons x xs ih =>
    unfold scan_formats at h
    by_cases hx : x.format = a ∨ x.format = b
    · rw [if_pos hx] at h
      cases h
      exact ⟨[], xs, rfl, hx, by simp⟩
    · rw [if_neg hx] at h
      obtain ⟨pre, post, e, hf, hpre⟩ := ih h
      refine ⟨x :: pre, post, by rw [e]; rfl, hf, ?_⟩
      intro y hy
      rcases List.mem_cons.mp hy with e' | e'
      · rw [e']; exact hx
      · exact hpre y e'

theorem scan_formats_none (a b : VkFormat) (formats : List VkSurfaceFormatKHR)
    (h : scan_formats a b formats = none) :
    ∀ x ∈ formats, ¬ (x.format = a ∨ x.format = b) := by
  induction formats with
  | nil => simp
  | cons x xs ih =>
    unfold scan_formats at h
    by_cases hx : x.format = a ∨ x.format = b
    · rw [if_pos hx] at h; cases h
    · rw [if_neg hx] at h
      intro y hy
      rcases List.mem_cons.mp hy with e' | e'
      · rw [e']; exact hx
      · exact ih h y e'

/-- Lines 452-472 select the first entry in list order whose format is 8-bit
BGRA or RGBA of the requested kind, and `formats[0]` when there is none. -/
theorem choose_surface_format_first (p : FrameBufferProperties)
    (first : VkSurfaceFormatKHR) (formats : List VkSurfaceFormatKHR) :
    (∃ pre post, formats = pre ++ (choose_surface_format p first formats).1 :: post ∧
        ((choose_surface_format p first formats).1.format =
            (if p.srgb_color then VK_FORMAT_B8G8R8A8_SRGB else VK_FORMAT_B8G8R8A8_UNORM) ∨
         (choose_surface_format p first formats).1.format =
            (if p.srgb_color then VK_FORMAT_R8G8B8A8_SRGB else VK_FORMAT_R8G8B8A8_UNORM)) ∧
        ∀ x ∈ pre, ¬ (x.format = (if p.srgb_color then VK_FORMAT_B8G8R8A8_SRGB
              else VK_FORMAT_B8G8R8A8_UNORM) ∨
            x.format = (if p.srgb_color then VK_FORMAT_R8G8B8A8_SRGB
              else VK_FORMAT_R8G8B8A8_UNORM))) ∨
     ((∀ x ∈ formats, ¬ (x.format = (if p.srgb_color then VK_FORMAT_B8G8R8A8_SRGB
              else VK_FORMAT_B8G8R8A8_UNORM) ∨
            x.format = (if p.srgb_color then VK_FORMAT_R8G8B8A8_SRGB
              else VK_FORMAT_R8G8B8A8_UNORM))) ∧
      (choose_surface_format p first formats).1 = first) := by
  unfold choose_surface_format
  cases hs : p.srgb_color
  · simp only [Bool.false_eq_true, if_false]
    cases hf : scan_formats VK_FORMAT_B8G8R8A8_UNORM VK_FORMAT_R8G8B8A8_UNORM formats with
    | none => exact Or.inr ⟨scan_formats_none _ _ _ hf, rfl⟩
    | some f => exact Or.inl (scan_formats_some _ _ _ f hf)
  · simp only [if_true]
    cases hf : scan_formats VK_FORMAT_B8G8R8A8_SRGB VK_FORMAT_R8G8B8A8_SRGB formats with
    | none => exact Or.inr ⟨scan_formats_none _ _ _ hf, rfl⟩
    | some f => exact Or.inl (scan_formats_some _ _ _ f hf)

/-- For a surface that reports more than one format, lines 427-473 return
true with the surface format chosen by lines 452-472, `formats[0]` being the
head of the list. -/
theorem query_surface_format_many (dev : Device) (w : Window)
    (hc : dev.surface_formats_count_result = 0) (hr : dev.surface_formats_result = 0)
    (h : 1 < dev.surface_formats.length) :
    ∃ first v, dev.surface_formats.head? = some first ∧
      query_surface_format dev w = .done true v ∧
      v.surface_format =
        (choose_surface_format w.fb_properties first dev.surface_formats).1 := by
  unfold query_surface_format
  simp only [Window.log, nassertr, hc, hr, beq_self_eq_true, if_true]
  rw [if_neg (by omega), if_pos (by simpa using h)]
  cases hf : dev.surface_formats with
  | nil => rw [hf] at h; simp at h
  | cons first rest =>
    simp only [List.head?_cons]
    exact ⟨first, _, rfl, rfl, rfl⟩

theorem setup_and_create_value (dev : Device) (v : Window) :
    (setup_and_create dev v).value = some true ↔
      (setup_render_pass dev v).1 = true ∧
      (create_swapchain dev (setup_render_pass dev v).2).value = some true := by
  unfold setup_and_create
  by_cases h : (setup_render_pass dev v).1 = true
  · rw [if_pos h]; simp [h]
  · rw [if_neg h]; simp [h, Run.value]

/-! ## The render pass part of begin_frame, in detail -/

theorem config_clear_mask {a b : Window} (h : a.config = b.config) :
    a.clear_mask = b.clear_mask :=
  congrArg (fun c => c.1) h

theorem config_flags {a b : Window} (h : a.clear_mask = b.clear_mask) :
    a.get_clear_color_active = b.get_clear_color_active ∧
    a.get_clear_depth_active = b.get_clear_depth_active ∧
    a.get_clear_stencil_active = b.get_clear_stencil_active := by
  simp [Window.get_clear_color_active, Window.get_clear_depth_active,
    Window.get_clear_stencil_active, Window.get_clear_active, h]

/-- The calls `begin_depth_stencil` records: one transition to the
depth-stencil attachment layout unless both depth and stencil are cleared. -/
theorem begin_depth_stencil_calls (w : Window) (tc : VulkanTextureContext) :
    (begin_depth_stencil w tc).1 =
      if w.get_clear_depth_active = true ∧ w.get_clear_stencil_active = true then []
      else [Call.transition .depth_stencil VK_IMAGE_LAYOUT_DEPTH_STENCIL_ATTACHMENT_OPTIMAL
        (VK_PIPELINE_STAGE_EARLY_FRAGMENT_TESTS_BIT ||| VK_PIPELINE_STAGE_LATE_FRAGMENT_TESTS_BIT)
        VK_ACCESS_DEPTH_STENCIL_ATTACHMENT_WRITE_BIT] := by
  unfold begin_depth_stencil
  cases w.get_clear_depth_active <;> cases w.get_clear_stencil_active <;> simp

theorem depth_stencil_calls_eq (w : Window) :
    depth_stencil_calls w =
      if w.depth_stencil_tc ≠ none ∧
          ¬ (w.get_clear_depth_active = true ∧ w.get_clear_stencil_active = true) then
        [Call.transition .depth_stencil VK_IMAGE_LAYOUT_DEPTH_STENCIL_ATTACHMENT_OPTIMAL
          (VK_PIPELINE_STAGE_EARLY_FRAGMENT_TESTS_BIT |||
            VK_PIPELINE_STAGE_LATE_FRAGMENT_TESTS_BIT)
          VK_ACCESS_DEPTH_STENCIL_ATTACHMENT_WRITE_BIT]
      else [] := by
  unfold depth_stencil_calls
  cases hd : w.depth_stencil_tc with
  | none => simp
  | some tc =>
    simp only [Option.map_some', Option.getD_some, begin_depth_stencil_calls]
    by_cases hb : w.get_clear_depth_active = true ∧ w.get_clear_stencil_active = true
    · simp [hb]
    · simp [hb]

/-- The calls `begin_color` records. -/
theorem begin_color_calls (w : Window) (tc : VulkanTextureContext) :
    (begin_color w tc).1 =
      if w.get_clear_color_active = true then []
      else (if tc.layout = VK_IMAGE_LAYOUT_UNDEFINED then
          [Call.clear_color_image (.color w.image_index)] else []) ++
        [Call.transition (.color w.image_index) VK_IMAGE_LAYOUT_COLOR_ATTACHMENT_OPTIMAL
          VK_PIPELINE_STAGE_COLOR_ATTACHMENT_OUTPUT_BIT VK_ACCESS_COLOR_ATTACHMENT_WRITE_BIT] := by
  unfold begin_color
  cases w.get_clear_color_active <;> simp

/-- The tracked state `begin_color` leaves. -/
theorem begin_color_state (w : Window) (tc : VulkanTextureContext) :
    (begin_color w tc).2.layout = VK_IMAGE_LAYOUT_COLOR_ATTACHMENT_OPTIMAL ∧
    (begin_color w tc).2.access_mask = VK_ACCESS_COLOR_ATTACHMENT_WRITE_BIT ∧
    (begin_color w tc).2.stage_mask = VK_PIPELINE_STAGE_COLOR_ATTACHMENT_OUTPUT_BIT := by
  unfold begin_color
  cases w.get_clear_color_active <;>
    simp [VulkanTextureContext.transition, VulkanTextureContext.clear_color_image]

/-- What a `begin_render_pass` that returned has done. -/
theorem begin_render_pass_done (v r : Window) (b : Bool)
    (h : begin_render_pass v = .done b r) :
    ∃ buffer tc, v.swap_buffers[v.image_index]? = some buffer ∧ buffer.tc = some tc ∧
      b = true ∧
      r.trace = v.trace ++ ((begin_color v tc).1 ++ (depth_stencil_calls v ++
        [.vkCmdBeginRenderPass v.render_pass buffer.framebuffer
          (if v.depth_stencil_tc.isSome then 2 else 1)])) ∧
      r.swap_buffers =
        v.swap_buffers.set v.image_index { buffer with tc := some (begin_color v tc).2 } ∧
      r.image_index = v.image_index ∧
      r.render_pass = v.render_pass ∧
      r.swapchain = v.swapchain ∧
      r.present_complete = v.present_complete ∧
      r.config = v.config ∧
      r.depth_stencil_tc.isSome = v.depth_stencil_tc.isSome ∧
      (∀ g, r.gsg = some g → ∃ g0, v.gsg = some g0 ∧ g.cmd = g0.cmd) := by
  unfold begin_render_pass at h
  cases hb : v.swap_buffers[v.image_index]? with
  | none => rw [hb] at h; cases h
  | some buffer =>
    rw [hb] at h
    cases htc : buffer.tc with
    | none => simp only [htc] at h; cases h
    | some tc =>
      simp only [htc] at h
      refine ⟨buffer, tc, rfl, htc, ?_⟩
      injection h with h1 h2
      subst h2
      refine ⟨h1.symm, rfl, rfl, rfl, rfl, rfl, rfl, ?_, ?_, ?_⟩
      · simp [Window.config]
      · cases v.depth_stencil_tc <;> rfl
      · intro g hg
        cases hv : v.gsg with
        | none => simp [hv] at hg
        | some g0 =>
          simp only [hv, Option.map_some', Option.some.injEq] at hg
          exact ⟨g0, rfl, by rw [← hg]⟩

/-- What a `render_frame` that returned true has done: two calls, then
`begin_render_pass` on the window with the image acquired. -/
theorem render_frame_done (dev : Device) (w r : Window)
    (h : render_frame dev w = .done true r) :
    ∃ v, begin_render_pass v = .done true r ∧
      v.trace = w.trace ++ [.vkCreateSemaphore, .vkAcquireNextImageKHR] ∧
      v.config = w.config ∧ v.swap_buffers = w.swap_buffers ∧
      v.depth_stencil_tc = w.depth_stencil_tc ∧ v.gsg = w.gsg ∧
      v.render_pass = w.render_pass ∧ v.swapchain = w.swapchain := by
  unfold render_frame nassertr at h
  simp only [] at h
  split_ifs at h with h1 h2
  · refine ⟨_, h, ?_⟩
    unfold acquire_image
    cases dev.acquire_next_image <;>
      exact ⟨by simp [Window.log], rfl, rfl, rfl, rfl, rfl, rfl⟩
  · injection h with hb; cases hb
  · injection h with hb; cases hb

/-- What a render-mode `start_frame` that returned true has done. -/
theorem start_frame_done (dev : Device) (w r : Window)
    (h : start_frame dev .FM_render w = .done true r) :
    ∃ v cmd, begin_render_pass v = .done true r ∧
      dev.gsg_begin_frame = some cmd ∧
      v.trace = w.trace ++ [.gsg_begin_frame, .vkCreateSemaphore, .vkAcquireNextImageKHR] ∧
      v.config = w.config ∧ v.swap_buffers = w.swap_buffers ∧
      v.depth_stencil_tc = w.depth_stencil_tc ∧
      v.gsg = w.gsg.map (fun g => g.begin_frame cmd) ∧
      v.render_pass = w.render_pass ∧ v.swapchain = w.swapchain := by
  unfold start_frame at h
  simp only [] at h
  cases hc : dev.gsg_begin_frame with
  | none => rw [hc] at h; cases h
  | some cmd =>
    rw [hc] at h
    simp only [ne_eq, not_true_eq_false, if_false] at h
    obtain ⟨v, hv, ht, hcfg, hsb, hd, hg, hrp, hsc⟩ := render_frame_done dev _ r h
    refine ⟨v, cmd, hv, rfl, ?_, ?_, hsb, hd, hg, hrp, hsc⟩
    · rw [ht]; simp [Window.log]
    · rw [hcfg]; cases hw : w.gsg <;> simp [Window.config, Window.log, hw]

/-- What a render-mode `begin_frame` that returned true has done: calls that
are not of the drawing part except for the three that start the frame, then
`begin_render_pass` on the window `v` with the image acquired. -/
theorem begin_frame_done (dev : Device) (w r : Window)
    (h : begin_frame dev .FM_render w = .done true r) :
    ∃ v pre cmd, begin_render_pass v = .done true r ∧ v.trace = w.trace ++ pre ∧
      (∀ c ∈ pre, c.scope ≠ .draw ∨ c = .gsg_begin_frame ∨ c = .vkCreateSemaphore ∨
        c = .vkAcquireNextImageKHR) ∧
      v.config = w.config ∧
      (w.swapchain_size = w.size → v.swap_buffers = w.swap_buffers) ∧
      dev.gsg_begin_frame = some cmd ∧ (∀ g, v.gsg = some g → g.cmd = cmd) ∧
      v.gsg ≠ none := by
  by_cases hc : w.gsg ≠ none ∧ (w.unexposed_draw = true ∨ w.got_expose_event = true)
  · obtain ⟨hg, hexp⟩ := hc
    rw [begin_frame_eq dev .FM_render w hg hexp] at h
    obtain ⟨v0, hv0, hs⟩ := andIf_done_true h
    obtain ⟨v, cmd, hv, hcmd, ht, hcfg, hsb, _, hgsg, _, _⟩ := start_frame_done dev v0 r hs
    obtain ⟨hc1, hs1, hb1, L1, hL1, hP1⟩ := rebuild_render_pass_frame dev w
    obtain ⟨hc2, _, L2, hL2, hP2⟩ := recreate_swapchain_frame dev (rebuild_render_pass dev w)
    rw [hv0] at hc2 hL2
    simp only [Run.state] at hc2 hL2
    have hcv : v.config = w.config := by rw [hcfg, hc2, hc1]
    refine ⟨v, L1 ++ L2 ++ [.gsg_begin_frame, .vkCreateSemaphore, .vkAcquireNextImageKHR],
      cmd, hv, ?_, ?_, hcv, ?_, hcmd, ?_, config_gsg hcv hg⟩
    · rw [ht, hL2, hL1]; simp
    · intro c hc
      rcases List.mem_append.mp hc with hc | hc
      · rcases List.mem_append.mp hc with hc | hc
        · left
          rcases hP1 c hc with e | e <;> rw [e] <;> decide
        · left
          rcases hP2 c hc with e | e | e | e <;> rw [e] <;> decide
      · right
        simpa using hc
    · intro hsz
      have hsize : (rebuild_render_pass dev w).size = w.size :=
        congrArg (fun c => c.2.1) hc1
      have hno : ¬ (rebuild_render_pass dev w).swapchain_size ≠ (rebuild_render_pass dev w).size := by
        rw [hs1, hsize]; exact fun hne => hne hsz
      unfold recreate_swapchain at hv0
      rw [if_neg hno] at hv0
      injection hv0 with _ hv0
      rw [hsb, ← hv0, hb1]
    · intro g hgv
      rw [hgsg] at hgv
      cases hv0g : v0.gsg with
      | none => simp [hv0g] at hgv
      | some g0 =>
        simp only [hv0g, Option.map_some', Option.some.injEq] at hgv
        rw [← hgv]; rfl
  · rw [begin_frame_skip dev .FM_render w hc] at h
    injection h with hb; cases hb

/-- The description `setup_render_pass` hands to the device when a GSG is
bound. -/
theorem setup_render_pass_calls (dev : Device) (w : Window) (hg : w.gsg ≠ none) :
    calls_since w (setup_render_pass dev w).2 =
      [.setup_render_pass, .vkCreateRenderPass (render_pass_info w)] := by
  unfold setup_render_pass
  cases hgs : w.gsg with
  | none => exact absurd hgs hg
  | some g =>
    simp only [Window.log, hgs]
    split_ifs <;> simp [calls_since] <;> rfl

/-- The calls of a render-mode `begin_frame` that returned true, and the
window `v` on which its render pass part ran. -/
theorem begin_frame_render_calls (dev : Device) (w r : Window)
    (h : begin_frame dev .FM_render w = .done true r) :
    ∃ v pre buffer tc, begin_render_pass v = .done true r ∧
      v.swap_buffers[v.image_index]? = some buffer ∧ buffer.tc = some tc ∧
      r.image_index = v.image_index ∧ v.config = w.config ∧ r.config = w.config ∧
      r.render_pass = v.render_pass ∧
      (w.swapchain_size = w.size → v.swap_buffers = w.swap_buffers) ∧
      (∀ c ∈ pre, c.scope ≠ .draw ∨ c = .gsg_begin_frame ∨ c = .vkCreateSemaphore ∨
        c = .vkAcquireNextImageKHR) ∧
      calls_since w r = pre ++ ((begin_color v tc).1 ++ (depth_stencil_calls v ++
        [.vkCmdBeginRenderPass v.render_pass buffer.framebuffer
          (if v.depth_stencil_tc.isSome then 2 else 1)])) ∧
      r.swap_buffers =
        v.swap_buffers.set v.image_index { buffer with tc := some (begin_color v tc).2 } ∧
      r.depth_stencil_tc.isSome = v.depth_stencil_tc.isSome := by
  obtain ⟨v, pre, cmd, hv, ht, hpre, hcfg, hsb, _, _, _⟩ := begin_frame_done dev w r h
  obtain ⟨buffer, tc, hb, htc, _, htr, hsw, hidx, hrp, _, _, hrc, hds, _⟩ :=
    begin_render_pass_done v r true hv
  refine ⟨v, pre, buffer, tc, hv, hb, htc, hidx, hcfg, hrc.trans hcfg, hrp, hsb, hpre, ?_,
    hsw, hds⟩
  unfold calls_since
  rw [htr, ht, List.append_assoc, List.drop_left]

/-- No call of the part of `begin_frame` before the render pass part is a
clear, a transition or the start of a render pass. -/
theorem not_draw_call {c : Call}
    (h : c.scope ≠ .draw ∨ c = .gsg_begin_frame ∨ c = .vkCreateSemaphore ∨
      c = .vkAcquireNextImageKHR) :
    (∀ t, c ≠ .clear_color_image t) ∧ (∀ t l s a, c ≠ .transition t l s a) ∧
    (∀ p f n, c ≠ .vkCmdBeginRenderPass p f n) := by
  rcases h with h | h | h | h
  · refine ⟨?_, ?_, ?_⟩ <;> intros <;> intro e <;> rw [e] at h <;> exact h rfl
  all_goals
    rw [h]
    refine ⟨?_, ?_, ?_⟩ <;> intros <;> intro e <;> cases e

/-- Where a clear of the colour image can sit among the calls recorded by
`begin_color`. -/
theorem begin_color_clear (w : Window) (tc : VulkanTextureContext) (t : Target) :
    Call.clear_color_image t ∈ (begin_color w tc).1 ↔
      (t = .color w.image_index ∧ w.get_clear_color_active = false ∧
        tc.layout = VK_IMAGE_LAYOUT_UNDEFINED) := by
  rw [begin_color_calls]
  cases hc : w.get_clear_color_active
  · by_cases hl : tc.layout = VK_IMAGE_LAYOUT_UNDEFINED
    · simp [hl]
    · simp [hl]
  · simp

/-- Where a transition can sit among the calls recorded by `begin_color`. -/
theorem begin_color_transition (w : Window) (tc : VulkanTextureContext) (t : Target)
    (l : VkImageLayout) (s a : Nat) :
    Call.transition t l s a ∈ (begin_color w tc).1 ↔
      (w.get_clear_color_active = false ∧ t = .color w.image_index ∧
        l = VK_IMAGE_LAYOUT_COLOR_ATTACHMENT_OPTIMAL ∧
        s = VK_PIPELINE_STAGE_COLOR_ATTACHMENT_OUTPUT_BIT ∧
        a = VK_ACCESS_COLOR_ATTACHMENT_WRITE_BIT) := by
  rw [begin_color_calls]
  cases hc : w.get_clear_color_active
  · by_cases hl : tc.layout = VK_IMAGE_LAYOUT_UNDEFINED
    · simp [hl]
    · simp [hl]
  · simp

/-- Where a transition can sit among the calls recorded for the
depth-stencil image. -/
theorem depth_stencil_calls_transition (w : Window) (t : Target) (l : VkImageLayout)
    (s a : Nat) :
    Call.transition t l s a ∈ depth_stencil_calls w ↔
      (w.depth_stencil_tc ≠ none ∧
        ¬ (w.get_clear_depth_active = true ∧ w.get_clear_stencil_active = true) ∧
        t = .depth_stencil ∧ l = VK_IMAGE_LAYOUT_DEPTH_STENCIL_ATTACHMENT_OPTIMAL ∧
        s = (VK_PIPELINE_STAGE_EARLY_FRAGMENT_TESTS_BIT |||
          VK_PIPELINE_STAGE_LATE_FRAGMENT_TESTS_BIT) ∧
        a = VK_ACCESS_DEPTH_STENCIL_ATTACHMENT_WRITE_BIT) := by
  rw [depth_stencil_calls_eq]
  by_cases hc : w.depth_stencil_tc ≠ none ∧
      ¬ (w.get_clear_depth_active = true ∧ w.get_clear_stencil_active = true)
  · rw [if_pos hc]
    simp only [List.mem_singleton, Call.transition.injEq]
    constructor
    · rintro ⟨h1, h2, h3, h4⟩
      exact ⟨hc.1, hc.2, h1, h2, h3, h4⟩
    · rintro ⟨_, _, h1, h2, h3, h4⟩
      exact ⟨h1, h2, h3, h4⟩
  · rw [if_neg hc]
    constructor
    · intro h; cases h
    · rintro ⟨h1, h2, _⟩
      exact absurd ⟨h1, h2⟩ hc

/-- The calls recorded for the depth-stencil image are transitions only. -/
theorem depth_stencil_calls_only (w : Window) :
    ∀ c ∈ depth_stencil_calls w, ∃ s a,
      c = .transition .depth_stencil VK_IMAGE_LAYOUT_DEPTH_STENCIL_ATTACHMENT_OPTIMAL s a := by
  rw [depth_stencil_calls_eq]
  intro c hc
  split_ifs at hc
  · simp only [List.mem_singleton] at hc
    exact ⟨_, _, hc⟩
  · cases hc

/-- The initial layout the render pass description declares for the colour
attachment. -/
theorem color_attachment_initial (p : Window) :
    (color_attachment p).initialLayout =
      if p.get_clear_color_active = true then VK_IMAGE_LAYOUT_UNDEFINED
      else VK_IMAGE_LAYOUT_COLOR_ATTACHMENT_OPTIMAL := by
  unfold color_attachment
  cases p.get_clear_color_active <;> simp

/-- The initial layout the render pass description declares for the
depth-stencil attachment. -/
theorem depth_stencil_attachment_initial (p : Window) :
    (depth_stencil_attachment p).initialLayout =
      if p.get_clear_depth_active = true ∧ p.get_clear_stencil_active = true then
        VK_IMAGE_LAYOUT_UNDEFINED
      else VK_IMAGE_LAYOUT_DEPTH_STENCIL_ATTACHMENT_OPTIMAL := by
  unfold depth_stencil_attachment
  cases p.get_clear_depth_active <;> cases p.get_clear_stencil_active <;> simp

theorem isSome_ne_none {α : Type} {a b : Option α} (h : a.isSome = b.isSome) :
    a ≠ none ↔ b ≠ none := by
  cases a <;> cases b <;> simp at h ⊢

/-- The transitions a render-mode `begin_frame` that returned true has
recorded: one for the acquired colour image when clear-colour is inactive,
one for the depth-stencil image when there is one and depth and stencil are
not both cleared. -/
theorem begin_frame_transition_mem (dev : Device) (w r : Window)
    (h : begin_frame dev .FM_render w = .done true r) (t : Target) (l : VkImageLayout)
    (s a : Nat) :
    Call.transition t l s a ∈ calls_since w r ↔
      ((w.get_clear_color_active = false ∧ t = .color r.image_index ∧
        l = VK_IMAGE_LAYOUT_COLOR_ATTACHMENT_OPTIMAL ∧
        s = VK_PIPELINE_STAGE_COLOR_ATTACHMENT_OUTPUT_BIT ∧
        a = VK_ACCESS_COLOR_ATTACHMENT_WRITE_BIT) ∨
       (r.depth_stencil_tc ≠ none ∧
        ¬ (w.get_clear_depth_active = true ∧ w.get_clear_stencil_active = true) ∧
        t = .depth_stencil ∧ l = VK_IMAGE_LAYOUT_DEPTH_STENCIL_ATTACHMENT_OPTIMAL ∧
        s = (VK_PIPELINE_STAGE_EARLY_FRAGMENT_TESTS_BIT |||
          VK_PIPELINE_STAGE_LATE_FRAGMENT_TESTS_BIT) ∧
        a = VK_ACCESS_DEPTH_STENCIL_ATTACHMENT_WRITE_BIT)) := by
  obtain ⟨v, pre, buffer, tc, _, _, _, hidx, hcfg, _, _, _, hpre, hcalls, _, hds⟩ :=
    begin_frame_render_calls dev w r h
  obtain ⟨hf1, hf2, hf3⟩ := config_flags (config_clear_mask hcfg)
  rw [hcalls, hidx, ← hf1, ← hf2, ← hf3, isSome_ne_none hds]
  constructor
  · intro hm
    rcases List.mem_append.mp hm with hm | hm
    · exact absurd rfl ((not_draw_call (hpre _ hm)).2.1 t l s a)
    · rcases List.mem_append.mp hm with hm | hm
      · exact Or.inl ((begin_color_transition v tc t l s a).mp hm)
      · rcases List.mem_append.mp hm with hm | hm
        · exact Or.inr ((depth_stencil_calls_transition v t l s a).mp hm)
        · simp at hm
  · rintro (hc | hd)
    · exact List.mem_append_right _ (List.mem_append_left _
        ((begin_color_transition v tc t l s a).mpr hc))
    · exact List.mem_append_right _ (List.mem_append_right _ (List.mem_append_left _
        ((depth_stencil_calls_transition v t l s a).mpr hd)))

/-! ## end_frame, end_flip, close_window -/

/-- What `end_render_pass` does when the buffer at the image index has a
texture context. -/
theorem end_render_pass_done (r : Window) (buffer : SwapBuffer) (tc : VulkanTextureContext)
    (hb : r.swap_buffers[r.image_index]? = some buffer) (htc : buffer.tc = some tc) :
    ∃ s, end_render_pass r = .done () s ∧ s.image_index = r.image_index ∧
      s.swapchain = r.swapchain ∧ s.gsg.isSome = r.gsg.isSome ∧
      s.present_complete = r.present_complete ∧
      s.trace = r.trace ++ [.vkCmdEndRenderPass, .copy_to_textures] ∧
      s.swap_buffers = r.swap_buffers.set r.image_index
        { buffer with tc := some { tc with layout := VK_IMAGE_LAYOUT_PRESENT_SRC_KHR } } := by
  unfold end_render_pass
  simp only [hb, htc]
  refine ⟨_, rfl, rfl, rfl, ?_, rfl, ?_, rfl⟩
  · cases r.gsg <;> rfl
  · simp [copy_to_textures, Window.log]

/-- What `finish_frame` does: it returns, and leaves all but the trace. -/
theorem finish_frame_done (r : Window) :
    ∃ s, finish_frame r = .done () s ∧ s.image_index = r.image_index ∧
      s.swapchain = r.swapchain ∧ s.gsg = r.gsg ∧ s.swap_buffers = r.swap_buffers ∧
      s.present_complete = r.present_complete ∧
      s.trace = r.trace ++ (if r.present_complete ≠ VK_NULL_HANDLE then
        [.trigger_flip, .clear_cube_map_selection] else []) := by
  unfold finish_frame nassertv nassertr
  by_cases hp : r.present_complete = VK_NULL_HANDLE
  · refine ⟨r, ?_, rfl, rfl, rfl, rfl, rfl, ?_⟩
    · simp [hp]
    · simp [hp]
  · refine ⟨clear_cube_map_selection (trigger_flip r), ?_, rfl, rfl, rfl, rfl, rfl, ?_⟩
    · simp [hp]
    · simp [hp, clear_cube_map_selection, trigger_flip, Window.log]

/-- A render-mode `end_frame` on a window with a GSG that holds a command
buffer and a texture context at the image index: it returns, and the tracked
layout at the image index is present-source. -/
theorem end_frame_done (r : Window) (g : Gsg) (buffer : SwapBuffer)
    (tc : VulkanTextureContext) (hg : r.gsg = some g) (hcmd : g.cmd ≠ VK_NULL_HANDLE)
    (hb : r.swap_buffers[r.image_index]? = some buffer) (htc : buffer.tc = some tc) :
    ∃ s, end_frame .FM_render r = .done () s ∧ s.image_index = r.image_index ∧
      s.swapchain = r.swapchain ∧ s.gsg ≠ none ∧
      s.present_complete = r.present_complete ∧
      s.trace = r.trace ++ ([.vkCmdEndRenderPass, .copy_to_textures, .gsg_end_frame] ++
        (if r.present_complete ≠ VK_NULL_HANDLE then
          [.trigger_flip, .clear_cube_map_selection] else [])) ∧
      s.swap_buffers = r.swap_buffers.set r.image_index
        { buffer with tc := some { tc with layout := VK_IMAGE_LAYOUT_PRESENT_SRC_KHR } } := by
  obtain ⟨s1, h1, i1, c1, g1, p1, t1, b1⟩ := end_render_pass_done r buffer tc hb htc
  obtain ⟨s2, h2, i2, c2, g2, b2, p2, t2⟩ := finish_frame_done (Gsg.end_frame s1)
  refine ⟨s2, ?_, ?_, ?_, ?_, ?_, ?_, ?_⟩
  · unfold end_frame
    simp only [hg, if_true, nassertv, nassertr]
    rw [if_pos (by simpa using hcmd), h1]
    exact h2
  · rw [i2]; exact i1
  · rw [c2]; exact c1
  · rw [g2]
    intro hn
    have : s1.gsg = none := hn
    rw [this, hg] at g1
    cases g1
  · rw [p2]; exact p1
  · rw [t2]
    have e1 : (Gsg.end_frame s1).trace = s1.trace ++ [.gsg_end_frame] := rfl
    have e2 : (Gsg.end_frame s1).present_complete = r.present_complete := p1
    rw [e1, e2, t1]
    simp
  · rw [b2]; exact b1

/-- When `end_flip` gets to the present request: a GSG is bound and the
tracked layout at the image index is present-source. -/
theorem end_flip_present (dev : Device) (s : Window) (buffer : SwapBuffer)
    (tc : VulkanTextureContext) (hg : s.gsg ≠ none)
    (hb : s.swap_buffers[s.image_index]? = some buffer) (htc : buffer.tc = some tc)
    (hl : tc.layout = VK_IMAGE_LAYOUT_PRESENT_SRC_KHR) :
    end_flip dev s = present_image dev s := by
  unfold end_flip
  cases hgs : s.gsg with
  | none => exact absurd hgs hg
  | some g =>
    simp only [hb, htc, nassertv, nassertr]
    rw [if_pos (by simpa using hl)]

/-- The calls of `present_image` and what it leaves alone. -/
theorem present_image_calls (dev : Device) (s : Window) :
    calls_since s (present_image dev s).state =
      .vkQueuePresentKHR s.swapchain s.image_index ::
        (if present_failed dev.queue_present = true then []
         else .vkQueueWaitIdle ::
          (if dev.queue_wait_idle ≠ VK_SUCCESS then []
           else [.vkDestroySemaphore s.present_complete])) ∧
    (present_image dev s).state.swapchain = s.swapchain ∧
    (present_image dev s).state.swap_buffers = s.swap_buffers ∧
    (present_image dev s).state.image_index = s.image_index := by
  unfold present_image
  simp only [Window.log]
  by_cases h1 : present_failed dev.queue_present = true
  · simp [h1, calls_since, Run.state]
  · by_cases h2 : dev.queue_wait_idle ≠ VK_SUCCESS
    · simp [h1, h2, calls_since, Run.state]
    · simp [h1, h2, calls_since, Run.state]

/-- The function `present_image` returns unless the wait fails, and
the semaphore handle is null once the wait is over. -/
theorem present_image_done (dev : Device) (s : Window)
    (h : present_failed dev.queue_present = true ∨ dev.queue_wait_idle = VK_SUCCESS) :
    present_image dev s = .done () (present_image dev s).state ∧
    (present_image dev s).state.present_complete =
      if present_failed dev.queue_present = true then s.present_complete
      else VK_NULL_HANDLE := by
  unfold present_image
  by_cases h1 : present_failed dev.queue_present = true
  · simp [h1, Run.state, Window.log]
  · have h2 : dev.queue_wait_idle = VK_SUCCESS := h.resolve_left h1
    simp [h1, h2, Run.state]

/-! ## Waits before destructive steps -/

theorem guarded_of_not_destructive {L : List Call} (h : ∀ c ∈ L, c.destructive = false) :
    guarded L := by
  intro pre c post e hc
  have hm : c ∈ L := by rw [e]; simp
  rw [h c hm] at hc
  cases hc

theorem guarded_nil : guarded [] :=
  guarded_of_not_destructive (by simp)

theorem guarded_append {A B : List Call} (hA : guarded A) (hB : guarded B) :
    guarded (A ++ B) := by
  intro pre c post e hc
  rcases List.append_eq_append_iff.mp e with ⟨a1, e1, e2⟩ | ⟨c1, e1, e2⟩
  · obtain ⟨a, b, e3, hb⟩ := hB a1 c post e2 hc
    exact ⟨A ++ a, b, by rw [e1, e3, List.append_assoc], hb⟩
  · cases c1 with
    | nil =>
      obtain ⟨a, b, e3, hb⟩ := hB [] c post (by simpa using e2.symm) hc
      exact ⟨A ++ a, b, by rw [e1, List.append_nil, List.append_assoc, ← e3, List.append_nil], hb⟩
    | cons d c2 =>
      injection e2 with e3 e4
      subst e3
      exact hA pre c c2 e1 hc

theorem guarded_wait {L : List Call} (h : ∀ c ∈ L, c.queue_work = false) :
    guarded (Call.vkQueueWaitIdle :: L) := by
  intro pre c post e hc
  cases pre with
  | nil =>
    injection e with e1 e2
    rw [← e1] at hc
    cases hc
  | cons d pre1 =>
    injection e with e1 e2
    subst e1
    refine ⟨[], pre1, rfl, ?_⟩
    intro x hx
    exact h x (by rw [e2]; simp [hx])

theorem scope_queue_work {c : Call}
    (h : c.scope = .sync ∨ c.scope = .pass ∨ c.scope = .destroy ∨ c.scope = .create ∨
      c.scope = .images ∨ c.scope = .window) : c.queue_work = false := by
  cases c <;> simp [Call.scope] at h <;> rfl

theorem scope_draw_destructive {c : Call} (h : c.scope = .draw) : c.destructive = false := by
  cases c <;> simp [Call.scope] at h <;> rfl

/-- Calls after a wait, none of which gives the queue work, are guarded. -/
theorem guarded_after_wait {P : Call → Prop} {w r : Window}
    (h : Extends P (w.log .vkQueueWaitIdle) r) (hP : ∀ c, P c → c.queue_work = false) :
    guarded (calls_since w r) := by
  obtain ⟨L, e, p⟩ := h
  rw [calls_since_append w r (Call.vkQueueWaitIdle :: L) (by rw [e]; simp [Window.log])]
  exact guarded_wait (fun c hc => hP c (p c hc))

theorem rebuild_render_pass_guarded (dev : Device) (w : Window) :
    guarded (calls_since w (rebuild_render_pass dev w)) := by
  unfold rebuild_render_pass
  split_ifs
  · exact guarded_after_wait (setup_render_pass_extends dev _)
      (fun c hc => scope_queue_work (Or.inr (Or.inl hc)))
  · simp [calls_since, guarded_nil]

theorem recreate_swapchain_guarded (dev : Device) (w : Window) :
    guarded (calls_since w (recreate_swapchain dev w).state) := by
  unfold recreate_swapchain
  split_ifs
  · have e1 : Extends (fun c => c.scope = .destroy ∨ c.scope = .create ∨ c.scope = .images)
        (w.log .vkQueueWaitIdle) (destroy_swapchain (w.log .vkQueueWaitIdle)).state :=
      Extends.mono (fun _ h => Or.inl h) (destroy_swapchain_extends _)
    refine guarded_after_wait (P := fun c => c.scope = .destroy ∨ c.scope = .create ∨
      c.scope = .images) ?_ ?_
    · cases hd : destroy_swapchain (w.log .vkQueueWaitIdle) with
      | fault v =>
        rw [hd] at e1
        exact e1
      | done u v =>
        rw [hd] at e1
        simp only [Run.andThen]
        exact e1.trans (Extends.mono (fun _ h => Or.inr h) (create_swapchain_extends dev v))
    · intro c hc
      rcases hc with hc | hc | hc
      · exact scope_queue_work (Or.inr (Or.inr (Or.inl hc)))
      · exact scope_queue_work (Or.inr (Or.inr (Or.inr (Or.inl hc))))
      · exact scope_queue_work (Or.inr (Or.inr (Or.inr (Or.inr (Or.inl hc)))))
  · simp [calls_since, Run.state, guarded_nil]

theorem begin_frame_guarded (dev : Device) (mode : FrameMode) (w : Window) :
    guarded (calls_since w (begin_frame dev mode w).state) := by
  by_cases hc : w.gsg ≠ none ∧ (w.unexposed_draw = true ∨ w.got_expose_event = true)
  · obtain ⟨C, e, hC, _, _⟩ := begin_frame_calls dev mode w hc.1 hc.2
    rw [e]
    exact guarded_append (guarded_append (rebuild_render_pass_guarded dev w)
      (recreate_swapchain_guarded dev _))
      (guarded_of_not_destructive (fun c h => scope_draw_destructive (hC c h)))
  · rw [begin_frame_skip dev mode w hc]
    simp [calls_since, Run.state, guarded_nil]

theorem destroy_render_pass_extends (w : Window) :
    Extends (fun c => c.scope = .window) w (destroy_render_pass w) := by
  unfold destroy_render_pass
  split_ifs
  · exact ⟨_, rfl, by simp [Call.scope]⟩
  · exact Extends.refl _ _

theorem close_window_guarded (w : Window) :
    guarded (calls_since w (close_window w).state) := by
  unfold close_window
  cases hg : w.gsg with
  | none =>
    simp only []
    refine guarded_of_not_destructive ?_
    simp [calls_since, Run.state, Window.log, Call.destructive]
  | some g =>
    simp only []
    have e1 : Extends (fun c => c.scope = .destroy ∨ c.scope = .window)
        (w.log .vkQueueWaitIdle) (destroy_swapchain (w.log .vkQueueWaitIdle)).state :=
      Extends.mono (fun _ h => Or.inl h) (destroy_swapchain_extends _)
    refine guarded_after_wait (P := fun c => c.scope = .destroy ∨ c.scope = .window) ?_ ?_
    · cases hd : destroy_swapchain (w.log .vkQueueWaitIdle) with
      | fault v =>
        rw [hd] at e1
        exact e1
      | done u v =>
        rw [hd] at e1
        simp only [Run.andThen, Run.state] at e1 ⊢
        refine e1.trans ?_
        obtain ⟨L, eL, pL⟩ := destroy_render_pass_extends v
        refine ⟨L ++ [.base_close_window], ?_, ?_⟩
        · simp [Window.log, eL]
        · intro c hc
          rcases List.mem_append.mp hc with hc | hc
          · exact Or.inr (pL c hc)
          · simp at hc; rw [hc]; exact Or.inr rfl
    · intro c hc
      rcases hc with hc | hc
      · exact scope_queue_work (Or.inr (Or.inr (Or.inl hc)))
      · exact scope_queue_work (Or.inr (Or.inr (Or.inr (Or.inr (Or.inr hc)))))

/-! ## The tracked state of the depth-stencil image -/

/-- The tracked state `begin_depth_stencil` leaves, with or without a
transition recorded. -/
theorem begin_depth_stencil_state (w : Window) (tc : VulkanTextureContext) :
    (begin_depth_stencil w tc).2.layout = VK_IMAGE_LAYOUT_DEPTH_STENCIL_ATTACHMENT_OPTIMAL ∧
    (begin_depth_stencil w tc).2.access_mask = VK_ACCESS_DEPTH_STENCIL_ATTACHMENT_WRITE_BIT ∧
    (begin_depth_stencil w tc).2.stage_mask =
      (VK_PIPELINE_STAGE_EARLY_FRAGMENT_TESTS_BIT |||
        VK_PIPELINE_STAGE_LATE_FRAGMENT_TESTS_BIT) ∧
    (begin_depth_stencil w tc).2.image = tc.image ∧
    (begin_depth_stencil w tc).2.image_view = tc.image_view ∧
    (begin_depth_stencil w tc).2.memory = tc.memory := by
  unfold begin_depth_stencil
  cases w.get_clear_depth_active <;> cases w.get_clear_stencil_active <;>
    simp [VulkanTextureContext.transition]

/-- The depth-stencil image after `begin_render_pass`. -/
theorem begin_render_pass_depth (v r : Window) (b : Bool)
    (h : begin_render_pass v = .done b r) :
    r.depth_stencil_tc = v.depth_stencil_tc.map (fun d => (begin_depth_stencil v d).2) := by
  unfold begin_render_pass at h
  cases hb : v.swap_buffers[v.image_index]? with
  | none => rw [hb] at h; cases h
  | some buffer =>
    rw [hb] at h
    cases htc : buffer.tc with
    | none => simp only [htc] at h; cases h
    | some tc =>
      simp only [htc] at h
      injection h with h1 h2
      subst h2
      cases v.depth_stencil_tc <;> rfl

/-- After a render-mode `begin_frame` that returned true the tracked state of
the depth-stencil image, when there is one, is that of a depth-stencil
attachment. -/
theorem begin_frame_depth_state (dev : Device) (w r : Window)
    (h : begin_frame dev .FM_render w = .done true r) (d : VulkanTextureContext)
    (hd : r.depth_stencil_tc = some d) :
    d.layout = VK_IMAGE_LAYOUT_DEPTH_STENCIL_ATTACHMENT_OPTIMAL ∧
    d.access_mask = VK_ACCESS_DEPTH_STENCIL_ATTACHMENT_WRITE_BIT ∧
    d.stage_mask = (VK_PIPELINE_STAGE_EARLY_FRAGMENT_TESTS_BIT |||
      VK_PIPELINE_STAGE_LATE_FRAGMENT_TESTS_BIT) := by
  obtain ⟨v, _, _, hv, _⟩ := begin_frame_done dev w r h
  have e := begin_render_pass_depth v r true hv
  rw [hd] at e
  cases hv0 : v.depth_stencil_tc with
  | none => rw [hv0] at e; cases e
  | some d0 =>
    rw [hv0] at e
    simp only [Option.map_some', Option.some.injEq] at e
    rw [e]
    obtain ⟨a, b, c, _⟩ := begin_depth_stencil_state v d0
    exact ⟨a, b, c⟩

/-- After a render-mode `begin_frame` that returned true the tracked state of
the acquired colour image is that of a colour attachment. -/
theorem begin_frame_color_state (dev : Device) (w r : Window)
    (h : begin_frame dev .FM_render w = .done true r) :
    ∃ buffer tc, r.swap_buffers[r.image_index]? = some buffer ∧ buffer.tc = some tc ∧
      tc.layout = VK_IMAGE_LAYOUT_COLOR_ATTACHMENT_OPTIMAL ∧
      tc.access_mask = VK_ACCESS_COLOR_ATTACHMENT_WRITE_BIT ∧
      tc.stage_mask = VK_PIPELINE_STAGE_COLOR_ATTACHMENT_OUTPUT_BIT := by
  obtain ⟨v, _, buffer, tc, _, hb, _, hidx, _, _, _, _, _, _, hsw, _⟩ :=
    begin_frame_render_calls dev w r h
  have hlt : v.image_index < v.swap_buffers.length := (List.getElem?_eq_some.mp hb).1
  refine ⟨{ buffer with tc := some (begin_color v tc).2 }, (begin_color v tc).2, ?_, rfl,
    begin_color_state v tc⟩
  rw [hsw, hidx]
  exact List.getElem?_set_self hlt

/-- A render-mode `begin_frame` that returned true records a clear only when
clear-colour is inactive. -/
theorem begin_frame_clear_mem (dev : Device) (w r : Window)
    (h : begin_frame dev .FM_render w = .done true r) (t : Target)
    (hm : Call.clear_color_image t ∈ calls_since w r) :
    w.get_clear_color_active = false := by
  obtain ⟨v, pre, buffer, tc, _, _, _, _, hcfg, _, _, _, hpre, hcalls, _, _⟩ :=
    begin_frame_render_calls dev w r h
  rw [← (config_flags (config_clear_mask hcfg)).1]
  rw [hcalls] at hm
  rcases List.mem_append.mp hm with hm | hm
  · exact absurd rfl ((not_draw_call (hpre _ hm)).1 t)
  · rcases List.mem_append.mp hm with hm | hm
    · exact ((begin_color_clear v tc t).mp hm).2.1
    · rcases List.mem_append.mp hm with hm | hm
      · obtain ⟨s, a, e⟩ := depth_stencil_calls_only v _ hm
        cases e
      · simp at hm

/-! ## The claims -/

/-- C1 (the code departs from the claim): a resize in which the view of the
first of two swap images cannot be made leaves the second swap buffer with a
null `_tc` and `begin_frame` returns false; on the window so left (GSG bound,
exposed, size still different from the swapchain's) the next `begin_frame`
faults in `destroy_swapchain` and `create_swapchain` is never called.  On
windows whose swap buffers all have a texture context the claim holds, see
`begin_frame_resize_live` and `begin_frame_true_size`. -/
theorem begin_frame_after_failed_resize_faults :
    resized_window.gsg ≠ none ∧ resized_window.got_expose_event = true ∧
    resized_window.swapchain_size ≠ resized_window.size ∧ resized_window.buffers_live ∧
    (begin_frame failing_view_device .FM_render resized_window).value = some false ∧
    half_built_window.gsg ≠ none ∧ half_built_window.got_expose_event = true ∧
    half_built_window.swapchain_size ≠ half_built_window.size ∧
    half_built_window.swap_buffers.map (fun b => b.tc.isSome) = [true, false] ∧
    (begin_frame sample_device .FM_render half_built_window).value = none ∧
    Call.create_swapchain ∉
      calls_since half_built_window
        (begin_frame sample_device .FM_render half_built_window).state := by
  refine ⟨by decide, by decide, by decide, by decide, by decide, by decide, by decide,
    by decide, by decide, by decide, by decide⟩

/-- C2: with a GSG bound and the window exposed, `begin_frame` invokes
`setup_render_pass` if and only if the current clear mask differs from the
one recorded when the active pass was built; after a successful build the
recorded mask is the current one; and from the window `begin_frame` leaves,
when the build succeeded or was not needed, another `begin_frame` (any device
answers, any mode) invokes no build. -/
theorem begin_frame_rebuilds_render_pass (dev : Device) (mode : FrameMode) (w : Window)
    (hg : w.gsg ≠ none) (hexp : w.unexposed_draw = true ∨ w.got_expose_event = true) :
    (Call.setup_render_pass ∈ calls_since w (begin_frame dev mode w).state ↔
      w.current_clear_mask ≠ w.clear_mask) ∧
    (w.current_clear_mask ≠ w.clear_mask → dev.create_render_pass.1 = 0 →
      (begin_frame dev mode w).state.current_clear_mask = w.clear_mask ∧
      (begin_frame dev mode w).state.clear_mask = w.clear_mask) ∧
    (w.current_clear_mask = w.clear_mask ∨ dev.create_render_pass.1 = 0 →
      ∀ (dev2 : Device) (mode2 : FrameMode),
        Call.setup_render_pass ∉ calls_since (begin_frame dev mode w).state
          (begin_frame dev2 mode2 (begin_frame dev mode w).state).state) := by
  have hcfg := (begin_frame_calls dev mode w hg hexp).choose_spec.2.2.2
  have hclear : (begin_frame dev mode w).state.clear_mask = w.clear_mask :=
    congrArg (fun c => c.1) hcfg
  have hpass : (begin_frame dev mode w).state.current_clear_mask =
      (rebuild_render_pass dev w).current_clear_mask :=
    congrArg (fun c => c.1) (begin_frame_pass dev mode w hg hexp)
  have hclear' : (rebuild_render_pass dev w).clear_mask = w.clear_mask :=
    congrArg (fun c => c.1) (rebuild_render_pass_frame dev w).1
  refine ⟨begin_frame_marker dev mode w hg hexp, ?_, ?_⟩
  · intro _ hok
    refine ⟨?_, hclear⟩
    rw [hpass, rebuild_render_pass_mask dev w hg (Or.inr hok), hclear']
  · intro h dev2 mode2
    rw [begin_frame_marker dev2 mode2 _ (config_gsg hcfg hg) (config_exposed hcfg hexp)]
    rw [hpass, rebuild_render_pass_mask dev w hg h, hclear', hclear]
    simp

/-- Witness of C2: the sample window has recorded mask -1 and current mask 4;
the first `begin_frame` builds the pass and records 4, the second builds
nothing. -/
theorem begin_frame_rebuilds_render_pass_witness :
    sample_window.gsg ≠ none ∧
    (sample_window.unexposed_draw = true ∨ sample_window.got_expose_event = true) ∧
    sample_window.current_clear_mask ≠ sample_window.clear_mask ∧
    sample_device.create_render_pass.1 = 0 ∧
    Call.setup_render_pass ∈
      calls_since sample_window (begin_frame sample_device .FM_render sample_window).state ∧
    (begin_frame sample_device .FM_render sample_window).state.current_clear_mask = 4 ∧
    Call.setup_render_pass ∉
      calls_since (begin_frame sample_device .FM_render sample_window).state
        (begin_frame sample_device .FM_render
          (begin_frame sample_device .FM_render sample_window).state).state :=
  have h := begin_frame_rebuilds_render_pass sample_device .FM_render sample_window
    (by decide) (Or.inr rfl)
  ⟨by decide, Or.inr rfl, by decide, rfl, h.1.mpr (by decide), (h.2.1 (by decide) rfl).1,
    h.2.2 (Or.inr rfl) sample_device .FM_render⟩

/-- C3: a render-mode `begin_frame` returns true only if the stored image
index is below the number of swap buffers; and when the presentation engine
hands out an index `i` that is not below it, `begin_frame` does not return
true, begins no render pass, and, once the acquisition has been made, returns
false with `i` stored: no swap buffer is indexed (that would be a fault). -/
theorem begin_frame_image_index (dev : Device) (w : Window) :
    (∀ r, begin_frame dev .FM_render w = .done true r →
      r.image_index < r.swap_buffers.length) ∧
    (∀ i, dev.acquire_next_image = some i →
      ¬ i < (begin_frame dev .FM_render w).state.swap_buffers.length →
      (begin_frame dev .FM_render w).value ≠ some true ∧
      (∀ a b c, Call.vkCmdBeginRenderPass a b c ∉
        calls_since w (begin_frame dev .FM_render w).state) ∧
      (Call.vkAcquireNextImageKHR ∈ calls_since w (begin_frame dev .FM_render w).state →
        begin_frame dev .FM_render w = .done false (begin_frame dev .FM_render w).state ∧
        (begin_frame dev .FM_render w).state.image_index = i)) := by
  by_cases hbe : w.gsg ≠ none ∧ (w.unexposed_draw = true ∨ w.got_expose_event = true)
  · obtain ⟨hg, hexp⟩ := hbe
    rcases begin_frame_cases dev .FM_render w hg hexp with ⟨hv, hcalls⟩ | ⟨v, _, hbf, hsplit, hpre⟩
    · refine ⟨?_, ?_⟩
      · intro r hr
        rw [hr] at hv
        exact absurd rfl hv
      · intro i _ _
        refine ⟨hv, ?_, ?_⟩
        · intro a b c hm
          exact hcalls _ hm rfl
        · intro hm
          exact absurd rfl (hcalls _ hm)
    · rw [hbf]
      refine ⟨fun r hr => start_frame_index dev v r hr, ?_⟩
      intro i hacq hlen
      obtain ⟨h1, h2, h3⟩ := start_frame_out_of_range dev v i hacq hlen
      refine ⟨?_, ?_, ?_⟩
      · rw [h1]; simp [Run.value]
      · intro a b c hm
        rw [hsplit] at hm
        rcases List.mem_append.mp hm with h | h
        · exact hpre _ h rfl
        · rcases h2 _ h with e | e | e <;> cases e
      · intro hm
        rw [hsplit] at hm
        rcases List.mem_append.mp hm with h | h
        · exact absurd rfl (hpre _ h)
        · exact ⟨h1, h3 h⟩
  · rw [begin_frame_skip dev .FM_render w hbe]
    refine ⟨fun r hr => (by cases hr), ?_⟩
    intro i _ _
    refine ⟨by simp [Run.value], ?_, ?_⟩
    · simp [calls_since, Run.state]
    · simp [calls_since, Run.state]

/-- Witness of C3: index 5 for a swapchain of two images; `begin_frame`
acquires, returns false with 5 stored and begins no render pass. -/
theorem begin_frame_image_index_witness :
    out_of_range_device.acquire_next_image = some 5 ∧
    ¬ 5 < (begin_frame out_of_range_device .FM_render sample_window).state.swap_buffers.length ∧
    Call.vkAcquireNextImageKHR ∈
      calls_since sample_window (begin_frame out_of_range_device .FM_render sample_window).state ∧
    begin_frame out_of_range_device .FM_render sample_window =
      .done false (begin_frame out_of_range_device .FM_render sample_window).state ∧
    (begin_frame out_of_range_device .FM_render sample_window).state.image_index = 5 ∧
    (∀ a b c, Call.vkCmdBeginRenderPass a b c ∉
      calls_since sample_window
        (begin_frame out_of_range_device .FM_render sample_window).state) :=
  have h := (begin_frame_image_index out_of_range_device sample_window).2 5 rfl (by decide)
  ⟨rfl, by decide, by decide, (h.2.2 (by decide)).1, (h.2.2 (by decide)).2, h.2.1⟩

/-- C4: after any `create_swapchain` that returns true (any device answers,
any window, any number of images, with or without a depth/stencil format),
`destroy_swapchain` returns and leaves no swap buffer, no depth-stencil
image, a null swapchain handle and image index 0. -/
theorem create_then_destroy_swapchain (dev : Device) (w : Window)
    (h : (create_swapchain dev w).value = some true) :
    ∃ r, destroy_swapchain (create_swapchain dev w).state = .done () r ∧
      r.swap_buffers = [] ∧ r.depth_stencil_tc = none ∧ r.swapchain = VK_NULL_HANDLE ∧
      r.image_index = 0 := by
  cases hc : create_swapchain dev w with
  | fault v => rw [hc] at h; cases h
  | done a v =>
    rw [hc] at h
    simp only [Run.value, Option.some.injEq] at h
    subst h
    obtain ⟨g, hg⟩ := Option.ne_none_iff_exists'.mp (create_swapchain_bound dev w v hc)
    have hlive : v.buffers_live := by
      intro b hb
      obtain ⟨tc, htc, _⟩ := (create_swapchain_done dev w v hc).2.2 b hb
      rw [htc]; simp
    exact destroy_swapchain_live v g hg hlive

/-- Witness of C4: on the sample device the swapchain of the sample window
is created with two swap buffers and a depth-stencil image, then destroyed. -/
theorem create_then_destroy_swapchain_witness :
    (create_swapchain sample_device sample_window).value = some true ∧
    (create_swapchain sample_device sample_window).state.swap_buffers.length = 2 ∧
    (create_swapchain sample_device sample_window).state.depth_stencil_tc ≠ none ∧
    ∃ r, destroy_swapchain (create_swapchain sample_device sample_window).state = .done () r ∧
      r.swap_buffers = [] ∧ r.depth_stencil_tc = none ∧ r.swapchain = VK_NULL_HANDLE ∧
      r.image_index = 0 :=
  ⟨by decide, by decide, by decide,
    create_then_destroy_swapchain sample_device sample_window (by decide)⟩

/-- C5: for every device that supports at least one of the two combined
depth-stencil formats and every request with stencil bits > 0, `open_window`
(reaching the choice of the depth format) selects float32+stencil8 when it is
supported and more than 24 depth bits or floating-point depth were asked for,
otherwise 24-bit+stencil8 when that is supported, otherwise float32+stencil8;
the selected format is a supported one. -/
theorem open_window_depth_stencil_format (dev : Device) (w : Window)
    (hreach : reaches_depth_choice dev w)
    (hstencil : 0 < w.fb_properties.stencil_bits)
    (hsup : dev.supports_depth_stencil VK_FORMAT_D32_SFLOAT_S8_UINT = true ∨
      dev.supports_depth_stencil VK_FORMAT_D24_UNORM_S8_UINT = true) :
    (open_window dev w).state.depth_stencil_format =
      (if dev.supports_depth_stencil VK_FORMAT_D32_SFLOAT_S8_UINT = true ∧
          (24 < w.fb_properties.depth_bits ∨ w.fb_properties.float_depth = true) then
        VK_FORMAT_D32_SFLOAT_S8_UINT
      else if dev.supports_depth_stencil VK_FORMAT_D24_UNORM_S8_UINT = true then
        VK_FORMAT_D24_UNORM_S8_UINT
      else VK_FORMAT_D32_SFLOAT_S8_UINT) ∧
    dev.supports_depth_stencil (open_window dev w).state.depth_stencil_format = true := by
  obtain ⟨v, hv, e1, e2, e3, _⟩ := open_window_reaches dev w hreach
  have hsel := (choose_depth_stencil_format_requested dev v
    (Or.inr (by rw [e2]; exact hstencil))).1
  rw [hv, setup_and_create_format, hsel, e1, e3]
  cases h32 : dev.supports_depth_stencil VK_FORMAT_D32_SFLOAT_S8_UINT <;>
    cases h24 : dev.supports_depth_stencil VK_FORMAT_D24_UNORM_S8_UINT <;>
    cases hf : w.fb_properties.float_depth <;>
    by_cases hd : 24 < w.fb_properties.depth_bits <;>
    simp_all
  rw [if_neg (not_lt.mpr hd)]
  exact h24

/-- Witness of C5: depth 24 / stencil 8 asked of a device that supports only
the 24-bit combined format selects that format. -/
theorem open_window_depth_stencil_format_witness :
    reaches_depth_choice sample_device unopened_window ∧
    0 < unopened_window.fb_properties.stencil_bits ∧
    (sample_device.supports_depth_stencil VK_FORMAT_D32_SFLOAT_S8_UINT = true ∨
      sample_device.supports_depth_stencil VK_FORMAT_D24_UNORM_S8_UINT = true) ∧
    sample_device.supports_depth_stencil VK_FORMAT_D32_SFLOAT_S8_UINT = false ∧
    (open_window sample_device unopened_window).state.depth_stencil_format =
      VK_FORMAT_D24_UNORM_S8_UINT ∧
    sample_device.supports_depth_stencil
      (open_window sample_device unopened_window).state.depth_stencil_format = true :=
  have h := open_window_depth_stencil_format sample_device unopened_window
    (by decide) (by decide) (Or.inr (by decide))
  ⟨by decide, by decide, Or.inr (by decide), by decide, by decide, h.2⟩

/-- C6 as stated fails: depth 24 / stencil 8 asked of a device that supports
neither combined depth-stencil format; `open_window` returns true, having
selected float32+stencil8 and gone on to `setup_render_pass` and
`create_swapchain`. -/
theorem open_window_no_depth_support_succeeds :
    reaches_depth_choice no_depth_device unopened_window ∧
    0 < unopened_window.fb_properties.depth_bits ∧
    0 < unopened_window.fb_properties.stencil_bits ∧
    no_depth_device.supports_depth_stencil VK_FORMAT_D32_SFLOAT_S8_UINT = false ∧
    no_depth_device.supports_depth_stencil VK_FORMAT_D24_UNORM_S8_UINT = false ∧
    (open_window no_depth_device unopened_window).value = some true ∧
    (open_window no_depth_device unopened_window).state.depth_stencil_format =
      VK_FORMAT_D32_SFLOAT_S8_UINT ∧
    Call.setup_render_pass ∈ (open_window no_depth_device unopened_window).state.trace ∧
    Call.create_swapchain ∈ (open_window no_depth_device unopened_window).state.trace := by
  refine ⟨by decide, by decide, by decide, by decide, by decide, by decide, by decide,
    by decide, by decide⟩

/-- C6 as amended: for every request with depth bits > 0 or stencil bits > 0,
when the device supports neither of the two combined depth-stencil formats,
`open_window` (reaching the choice of the depth format) does not fail on that
account: it selects a depth/stencil format (float32+stencil8 when stencil
bits > 0) and goes on to line 521 with it, returning true exactly when
`setup_render_pass` and `create_swapchain` both do. -/
theorem open_window_without_depth_support (dev : Device) (w : Window)
    (hreach : reaches_depth_choice dev w)
    (hreq : 0 < w.fb_properties.depth_bits ∨ 0 < w.fb_properties.stencil_bits)
    (h32 : dev.supports_depth_stencil VK_FORMAT_D32_SFLOAT_S8_UINT = false)
    (h24 : dev.supports_depth_stencil VK_FORMAT_D24_UNORM_S8_UINT = false) :
    ∃ v, open_window dev w = setup_and_create dev v ∧
      v.depth_stencil_format ≠ VK_FORMAT_UNDEFINED ∧
      (0 < w.fb_properties.stencil_bits →
        v.depth_stencil_format = VK_FORMAT_D32_SFLOAT_S8_UINT) ∧
      ((open_window dev w).value = some true ↔
        (setup_render_pass dev v).1 = true ∧
        (create_swapchain dev (setup_render_pass dev v).2).value = some true) := by
  obtain ⟨v, hv, e1, e2, _, _⟩ := open_window_reaches dev w hreach
  have hsel := (choose_depth_stencil_format_requested dev v (by rw [e1, e2]; exact hreq)).1
  rw [h32, h24] at hsel
  simp only [Bool.false_and, Bool.not_false, Bool.or_true, if_true] at hsel
  refine ⟨_, hv, ?_, fun _ => hsel, ?_⟩
  · rw [hsel]; decide
  · rw [hv]; exact setup_and_create_value dev _

/-- Witness of the amended C6, on the device without depth formats. -/
theorem open_window_without_depth_support_witness :
    reaches_depth_choice no_depth_device unopened_window ∧
    (0 < unopened_window.fb_properties.depth_bits ∨
      0 < unopened_window.fb_properties.stencil_bits) ∧
    no_depth_device.supports_depth_stencil VK_FORMAT_D32_SFLOAT_S8_UINT = false ∧
    no_depth_device.supports_depth_stencil VK_FORMAT_D24_UNORM_S8_UINT = false ∧
    ∃ v, open_window no_depth_device unopened_window = setup_and_create no_depth_device v ∧
      v.depth_stencil_format ≠ VK_FORMAT_UNDEFINED ∧
      (0 < unopened_window.fb_properties.stencil_bits →
        v.depth_stencil_format = VK_FORMAT_D32_SFLOAT_S8_UINT) ∧
      ((open_window no_depth_device unopened_window).value = some true ↔
        (setup_render_pass no_depth_device v).1 = true ∧
        (create_swapchain no_depth_device (setup_render_pass no_depth_device v).2).value =
          some true) :=
  ⟨by decide, Or.inl (by decide), by decide, by decide,
    open_window_without_depth_support no_depth_device unopened_window (by decide)
      (Or.inl (by decide)) (by decide) (by decide)⟩

/-- C7 (the code departs from the claim): 24 depth bits and no stencil bits
asked of a device that supports every depth format; `open_window` selects the
combined 24-bit+stencil8 format, reports 8 stencil bits and puts the stencil
bit into the aspect mask; the depth-only formats are never asked about
(lines 499-515 cannot be reached, the test of line 480 holds whenever that
of line 499 does). -/
theorem open_window_depth_only_request :
    reaches_depth_choice all_formats_device depth_only_window ∧
    0 < depth_only_window.fb_properties.depth_bits ∧
    depth_only_window.fb_properties.stencil_bits = 0 ∧
    depth_only_window.depth_stencil_aspect_mask = 0 ∧
    all_formats_device.supports_depth_stencil VK_FORMAT_D32_SFLOAT = true ∧
    all_formats_device.supports_depth_stencil VK_FORMAT_X8_D24_UNORM_PACK32 = true ∧
    (open_window all_formats_device depth_only_window).value = some true ∧
    (open_window all_formats_device depth_only_window).state.depth_stencil_format =
      VK_FORMAT_D24_UNORM_S8_UINT ∧
    (open_window all_formats_device depth_only_window).state.fb_properties.stencil_bits = 8 ∧
    (open_window all_formats_device depth_only_window).state.depth_stencil_aspect_mask =
      VK_IMAGE_ASPECT_DEPTH_BIT ||| VK_IMAGE_ASPECT_STENCIL_BIT ∧
    Call.vkGetPhysicalDeviceFormatProperties VK_FORMAT_D32_SFLOAT ∉
      (open_window all_formats_device depth_only_window).state.trace := by
  refine ⟨by decide, by decide, by decide, by decide, by decide, by decide, by decide,
    by decide, by decide, by decide, by decide⟩

/-- C8 (the code departs from the claim): a surface that reports exactly one
format, 8-bit BGRA unorm, with linear colour asked for; the list is not empty
and not the wildcard, yet `nassertr(num_formats > 1, false)` fails, no format
is selected (`_surface_format` keeps its value) and `open_window` returns
false before `setup_render_pass`.  For lists of more than one entry the claim
holds, see `query_surface_format_many` and `choose_surface_format_first`. -/
theorem open_window_single_surface_format :
    reaches_format_choice single_format_device unopened_window ∧
    single_format_device.surface_formats = [⟨VK_FORMAT_B8G8R8A8_UNORM, 0⟩] ∧
    ¬ is_wildcard single_format_device.surface_formats ∧
    unopened_window.fb_properties.srgb_color = false ∧
    open_window single_format_device unopened_window =
      .done false (open_window single_format_device unopened_window).state ∧
    (open_window single_format_device unopened_window).state.surface_format =
      unopened_window.surface_format ∧
    Call.setup_render_pass ∉ (open_window single_format_device unopened_window).state.trace := by
  refine ⟨by decide, by decide, by decide, by decide, ?_, by decide, by decide⟩
  rfl

/-- C9: for every list of present modes the surface reports, the swapchain
request issued by `create_swapchain` (reached when the GSG is bound and the
surface capabilities are obtained) names mailbox if mailbox occurs in the
list, otherwise immediate if immediate occurs in it, otherwise FIFO. -/
theorem create_swapchain_present_mode (dev : Device) (w : Window) (g : Gsg)
    (hg : w.gsg = some g) (hcaps : dev.surface_capabilities.1 = 0) :
    ∃ info post, calls_since w (create_swapchain dev w).state =
        [.create_swapchain, .vkGetPhysicalDeviceSurfaceCapabilitiesKHR,
         .vkGetPhysicalDeviceSurfacePresentModesKHR,
         .vkGetPhysicalDeviceSurfacePresentModesKHR, .vkCreateSwapchainKHR info] ++ post ∧
      (∀ c ∈ post, ∀ i, c ≠ .vkCreateSwapchainKHR i) ∧
      info.presentMode =
        if VK_PRESENT_MODE_MAILBOX_KHR ∈ dev.present_modes then VK_PRESENT_MODE_MAILBOX_KHR
        else if VK_PRESENT_MODE_IMMEDIATE_KHR ∈ dev.present_modes then
          VK_PRESENT_MODE_IMMEDIATE_KHR
        else VK_PRESENT_MODE_FIFO_KHR := by
  obtain ⟨post, h1, h2⟩ := create_swapchain_request dev w g hg hcaps
  exact ⟨swapchain_info dev w, post, h1, h2, present_mode_loop_spec _ _⟩

/-- Witness of C9: the sample surface reports FIFO, immediate, mailbox. -/
theorem create_swapchain_present_mode_witness :
    sample_window.gsg = some sample_gsg ∧ sample_device.surface_capabilities.1 = 0 ∧
    ∃ info post, calls_since sample_window (create_swapchain sample_device sample_window).state =
        [.create_swapchain, .vkGetPhysicalDeviceSurfaceCapabilitiesKHR,
         .vkGetPhysicalDeviceSurfacePresentModesKHR,
         .vkGetPhysicalDeviceSurfacePresentModesKHR, .vkCreateSwapchainKHR info] ++ post ∧
      (∀ c ∈ post, ∀ i, c ≠ .vkCreateSwapchainKHR i) ∧
      info.presentMode =
        if VK_PRESENT_MODE_MAILBOX_KHR ∈ sample_device.present_modes then
          VK_PRESENT_MODE_MAILBOX_KHR
        else if VK_PRESENT_MODE_IMMEDIATE_KHR ∈ sample_device.present_modes then
          VK_PRESENT_MODE_IMMEDIATE_KHR
        else VK_PRESENT_MODE_FIFO_KHR :=
  ⟨rfl, rfl, create_swapchain_present_mode sample_device sample_window sample_gsg rfl rfl⟩

/-- C10, failing input: the surface reports at least 2 images and
`maxImageCount` 0, which is how a surface says it sets no upper limit; two
back buffers are asked for, so 2 + 1 = 3 images lie in the reported range.
The swapchain request names 2 images: the hint is ignored. -/
theorem create_swapchain_unlimited_ignores_hint :
    unlimited_device.surface_capabilities = (VK_SUCCESS, 2, 0) ∧
    triple_buffer_window.fb_properties.back_buffers = 2 ∧
    (create_swapchain unlimited_device triple_buffer_window).value = some true ∧
    Call.vkCreateSwapchainKHR (swapchain_info unlimited_device triple_buffer_window) ∈
      calls_since triple_buffer_window
        (create_swapchain unlimited_device triple_buffer_window).state ∧
    (swapchain_info unlimited_device triple_buffer_window).minImageCount = 2 ∧
    (swapchain_info unlimited_device triple_buffer_window).minImageCount ≠ 2 + 1 ∧
    num_images 2 0 2 = 2 :=
  ⟨by decide, by decide, by decide, by decide, by decide, by decide, by decide⟩

/-- The clamp of lines 723-725 where it works: for every minimum `lo` and
maximum `hi` the surface reports and every back-buffer hint `b` with
`0 ≤ b` and `b + 1` an `int`, the image count `n` in the swapchain request of
`create_swapchain` is at least `lo`, is `b+1` when `lo ≤ b+1 ≤ hi`, is `lo`
when `b+1 < lo`, and when `lo ≤ hi` it is at most `hi` and is `hi` when
`b+1 > hi`. -/
theorem create_swapchain_image_count (dev : Device) (w : Window) (g : Gsg)
    (hg : w.gsg = some g) (hcaps : dev.surface_capabilities.1 = 0)
    (h0 : 0 ≤ w.fb_properties.back_buffers)
    (h1 : w.fb_properties.back_buffers < 2 ^ 31 - 1) :
    ∃ info post, calls_since w (create_swapchain dev w).state =
        [.create_swapchain, .vkGetPhysicalDeviceSurfaceCapabilitiesKHR,
         .vkGetPhysicalDeviceSurfacePresentModesKHR,
         .vkGetPhysicalDeviceSurfacePresentModesKHR, .vkCreateSwapchainKHR info] ++ post ∧
      (∀ c ∈ post, ∀ i, c ≠ .vkCreateSwapchainKHR i) ∧
      dev.surface_capabilities.2.1 ≤ info.minImageCount ∧
      ((dev.surface_capabilities.2.1 : Int) ≤ w.fb_properties.back_buffers + 1 →
        w.fb_properties.back_buffers + 1 ≤ dev.surface_capabilities.2.2 →
        (info.minImageCount : Int) = w.fb_properties.back_buffers + 1) ∧
      (w.fb_properties.back_buffers + 1 < dev.surface_capabilities.2.1 →
        info.minImageCount = dev.surface_capabilities.2.1) ∧
      (dev.surface_capabilities.2.1 ≤ dev.surface_capabilities.2.2 →
        info.minImageCount ≤ dev.surface_capabilities.2.2 ∧
        ((dev.surface_capabilities.2.2 : Int) < w.fb_properties.back_buffers + 1 →
          info.minImageCount = dev.surface_capabilities.2.2)) := by
  obtain ⟨post, hp1, hp2⟩ := create_swapchain_request dev w g hg hcaps
  obtain ⟨a, b, c, d⟩ := num_images_spec dev.surface_capabilities.2.1
    dev.surface_capabilities.2.2 w.fb_properties.back_buffers h0 h1
  exact ⟨swapchain_info dev w, post, hp1, hp2, a, b, c, d⟩

/-- The clamp at the sample surface, which reports 2 to 8 images, with one
back buffer asked for. -/
theorem create_swapchain_image_count_witness :
    sample_window.gsg = some sample_gsg ∧ sample_device.surface_capabilities.1 = 0 ∧
    0 ≤ sample_window.fb_properties.back_buffers ∧
    sample_window.fb_properties.back_buffers < 2 ^ 31 - 1 ∧
    ∃ info post, calls_since sample_window (create_swapchain sample_device sample_window).state =
        [.create_swapchain, .vkGetPhysicalDeviceSurfaceCapabilitiesKHR,
         .vkGetPhysicalDeviceSurfacePresentModesKHR,
         .vkGetPhysicalDeviceSurfacePresentModesKHR, .vkCreateSwapchainKHR info] ++ post ∧
      (∀ c ∈ post, ∀ i, c ≠ .vkCreateSwapchainKHR i) ∧
      sample_device.surface_capabilities.2.1 ≤ info.minImageCount ∧
      ((sample_device.surface_capabilities.2.1 : Int) ≤
          sample_window.fb_properties.back_buffers + 1 →
        sample_window.fb_properties.back_buffers + 1 ≤ sample_device.surface_capabilities.2.2 →
        (info.minImageCount : Int) = sample_window.fb_properties.back_buffers + 1) ∧
      (sample_window.fb_properties.back_buffers + 1 < sample_device.surface_capabilities.2.1 →
        info.minImageCount = sample_device.surface_capabilities.2.1) ∧
      (sample_device.surface_capabilities.2.1 ≤ sample_device.surface_capabilities.2.2 →
        info.minImageCount ≤ sample_device.surface_capabilities.2.2 ∧
        ((sample_device.surface_capabilities.2.2 : Int) <
            sample_window.fb_properties.back_buffers + 1 →
          info.minImageCount = sample_device.surface_capabilities.2.2)) :=
  ⟨rfl, rfl, by decide, by decide,
    create_swapchain_image_count sample_device sample_window sample_gsg rfl rfl
      (by decide) (by decide)⟩

/-! ## C11 -/

/-- C11: for every window with a GSG bound, whatever its clear-colour flag,
the description `setup_render_pass` hands to `vkCreateRenderPass` has as
attachment 0, the colour attachment of the subpass, one whose load-op is
clear when clear-colour is active and load otherwise, whose store-op is
store, whose initial layout is undefined when clear-colour is active and
colour-attachment-optimal otherwise, and whose final layout is
present-source. -/
theorem setup_render_pass_color_attachment (dev : Device) (w : Window) (hg : w.gsg ≠ none) :
    ∃ info a,
      calls_since w (setup_render_pass dev w).2 =
        [.setup_render_pass, .vkCreateRenderPass info] ∧
      info.colorAttachment.1 = 0 ∧ info.attachments[0]? = some a ∧
      a.loadOp = (if w.get_clear_color_active then VK_ATTACHMENT_LOAD_OP_CLEAR
        else VK_ATTACHMENT_LOAD_OP_LOAD) ∧
      a.storeOp = VK_ATTACHMENT_STORE_OP_STORE ∧
      a.initialLayout = (if w.get_clear_color_active then VK_IMAGE_LAYOUT_UNDEFINED
        else VK_IMAGE_LAYOUT_COLOR_ATTACHMENT_OPTIMAL) ∧
      a.finalLayout = VK_IMAGE_LAYOUT_PRESENT_SRC_KHR := by
  refine ⟨render_pass_info w, color_attachment w, setup_render_pass_calls dev w hg, rfl, rfl, ?_⟩
  unfold color_attachment
  cases w.get_clear_color_active <;> simp

/-- C11 at the sample window, whose clear-colour flag is active. -/
theorem setup_render_pass_color_attachment_witness :
    sample_window.gsg ≠ none ∧ sample_window.get_clear_color_active = true ∧
    ∃ info a,
      calls_since sample_window (setup_render_pass sample_device sample_window).2 =
        [.setup_render_pass, .vkCreateRenderPass info] ∧
      info.colorAttachment.1 = 0 ∧ info.attachments[0]? = some a ∧
      a.loadOp = (if sample_window.get_clear_color_active then VK_ATTACHMENT_LOAD_OP_CLEAR
        else VK_ATTACHMENT_LOAD_OP_LOAD) ∧
      a.storeOp = VK_ATTACHMENT_STORE_OP_STORE ∧
      a.initialLayout = (if sample_window.get_clear_color_active then VK_IMAGE_LAYOUT_UNDEFINED
        else VK_IMAGE_LAYOUT_COLOR_ATTACHMENT_OPTIMAL) ∧
      a.finalLayout = VK_IMAGE_LAYOUT_PRESENT_SRC_KHR :=
  ⟨by decide, by decide,
    setup_render_pass_color_attachment sample_device sample_window (by decide)⟩

/-! ## C12 -/

/-- C12, counterexample: the sample window clears colour only.  In the
description `setup_render_pass` hands to the device, the depth-stencil
attachment has load-op DONT_CARE for depth and for stencil, not load. -/
theorem setup_render_pass_depth_load_op_dont_care :
    sample_window.get_clear_depth_active = false ∧
    sample_window.get_clear_stencil_active = false ∧
    ∃ info a,
      calls_since sample_window (setup_render_pass sample_device sample_window).2 =
        [.setup_render_pass, .vkCreateRenderPass info] ∧
      info.depthStencilAttachment = some (1, VK_IMAGE_LAYOUT_DEPTH_STENCIL_ATTACHMENT_OPTIMAL) ∧
      info.attachments[1]? = some a ∧
      a.loadOp = VK_ATTACHMENT_LOAD_OP_DONT_CARE ∧ a.loadOp ≠ VK_ATTACHMENT_LOAD_OP_LOAD ∧
      a.stencilLoadOp = VK_ATTACHMENT_LOAD_OP_DONT_CARE ∧
      a.stencilLoadOp ≠ VK_ATTACHMENT_LOAD_OP_LOAD :=
  ⟨by decide, by decide, render_pass_info sample_window, depth_stencil_attachment sample_window,
    by decide, by decide, by decide, by decide, by decide, by decide, by decide⟩

/-- C12 as amended: for every window with a GSG bound, whatever its clear
flags, the description `setup_render_pass` hands to the device has as
attachment 1 the depth-stencil attachment, whose depth load-op is clear when
clear-depth is active and DONT_CARE otherwise, and whose stencil load-op is
clear when clear-stencil is active and DONT_CARE otherwise: each is a
function of its own flag alone. -/
theorem setup_render_pass_depth_stencil_attachment (dev : Device) (w : Window)
    (hg : w.gsg ≠ none) :
    ∃ info a,
      calls_since w (setup_render_pass dev w).2 =
        [.setup_render_pass, .vkCreateRenderPass info] ∧
      info.attachments[1]? = some a ∧
      (∀ d, info.depthStencilAttachment = some d → d.1 = 1) ∧
      a.loadOp = (if w.get_clear_depth_active then VK_ATTACHMENT_LOAD_OP_CLEAR
        else VK_ATTACHMENT_LOAD_OP_DONT_CARE) ∧
      a.stencilLoadOp = (if w.get_clear_stencil_active then VK_ATTACHMENT_LOAD_OP_CLEAR
        else VK_ATTACHMENT_LOAD_OP_DONT_CARE) := by
  refine ⟨render_pass_info w, depth_stencil_attachment w, setup_render_pass_calls dev w hg,
    rfl, ?_, ?_⟩
  · intro d hd
    unfold render_pass_info at hd
    simp only [] at hd
    split_ifs at hd
    · injection hd with hd; rw [← hd]
  · unfold depth_stencil_attachment
    cases w.get_clear_depth_active <;> cases w.get_clear_stencil_active <;> simp

/-- C12 as amended, at a window that clears depth but not stencil. -/
theorem setup_render_pass_depth_stencil_attachment_witness :
    depth_clear_window.gsg ≠ none ∧
    depth_clear_window.get_clear_depth_active = true ∧
    depth_clear_window.get_clear_stencil_active = false ∧
    ∃ info a,
      calls_since depth_clear_window (setup_render_pass sample_device depth_clear_window).2 =
        [.setup_render_pass, .vkCreateRenderPass info] ∧
      info.attachments[1]? = some a ∧
      (∀ d, info.depthStencilAttachment = some d → d.1 = 1) ∧
      a.loadOp = (if depth_clear_window.get_clear_depth_active then VK_ATTACHMENT_LOAD_OP_CLEAR
        else VK_ATTACHMENT_LOAD_OP_DONT_CARE) ∧
      a.stencilLoadOp = (if depth_clear_window.get_clear_stencil_active then
        VK_ATTACHMENT_LOAD_OP_CLEAR else VK_ATTACHMENT_LOAD_OP_DONT_CARE) :=
  ⟨by decide, by decide, by decide,
    setup_render_pass_depth_stencil_attachment sample_device depth_clear_window (by decide)⟩

/-! ## C13 -/

/-- C13: for every render-mode `begin_frame` that returns true, with `tc`
the tracked state of the acquired colour image when the render pass part is
entered (that of the window before the call when the swapchain was not made
again): the calls are some calls `pre` followed by the one
`vkCmdBeginRenderPass`; a clear of the acquired colour image is among `pre`
if and only if clear-colour is inactive and the layout of `tc` is undefined,
and no other image is cleared; and on return the tracked layout of the
acquired image is colour-attachment-optimal, with colour-attachment-write
access at the colour-attachment-output stage. -/
theorem begin_frame_color_image (dev : Device) (w r : Window)
    (h : begin_frame dev .FM_render w = .done true r) :
    ∃ v buffer tc pre framebuffer count,
      begin_render_pass v = .done true r ∧ v.image_index = r.image_index ∧
      v.swap_buffers[r.image_index]? = some buffer ∧ buffer.tc = some tc ∧
      (w.swapchain_size = w.size → v.swap_buffers = w.swap_buffers) ∧
      calls_since w r = pre ++ [.vkCmdBeginRenderPass r.render_pass framebuffer count] ∧
      (∀ p f n, Call.vkCmdBeginRenderPass p f n ∉ pre) ∧
      (Call.clear_color_image (.color r.image_index) ∈ pre ↔
        (w.get_clear_color_active = false ∧ tc.layout = VK_IMAGE_LAYOUT_UNDEFINED)) ∧
      (∀ t, Call.clear_color_image t ∈ pre → t = .color r.image_index) ∧
      ∃ buffer2 tc2, r.swap_buffers[r.image_index]? = some buffer2 ∧ buffer2.tc = some tc2 ∧
        tc2.layout = VK_IMAGE_LAYOUT_COLOR_ATTACHMENT_OPTIMAL ∧
        tc2.access_mask = VK_ACCESS_COLOR_ATTACHMENT_WRITE_BIT ∧
        tc2.stage_mask = VK_PIPELINE_STAGE_COLOR_ATTACHMENT_OUTPUT_BIT := by
  obtain ⟨v, pre, buffer, tc, hv, hb, htc, hidx, hcfg, _, hrp, hsb, hpre, hcalls, hsw, _⟩ :=
    begin_frame_render_calls dev w r h
  have hflag : v.get_clear_color_active = w.get_clear_color_active :=
    (config_flags (config_clear_mask hcfg)).1
  have hclear : ∀ t, Call.clear_color_image t ∈
      pre ++ ((begin_color v tc).1 ++ depth_stencil_calls v) →
      t = .color v.image_index ∧ v.get_clear_color_active = false ∧
        tc.layout = VK_IMAGE_LAYOUT_UNDEFINED := by
    intro t hm
    rcases List.mem_append.mp hm with hm | hm
    · exact absurd rfl ((not_draw_call (hpre _ hm)).1 t)
    · rcases List.mem_append.mp hm with hm | hm
      · exact (begin_color_clear v tc t).mp hm
      · obtain ⟨s, a, e⟩ := depth_stencil_calls_only v _ hm
        cases e
  refine ⟨v, buffer, tc, pre ++ ((begin_color v tc).1 ++ depth_stencil_calls v),
    buffer.framebuffer, (if v.depth_stencil_tc.isSome then 2 else 1), hv, hidx.symm, by rw [hidx]; exact hb, htc, hsb, ?_, ?_, ?_, ?_, ?_⟩
  · rw [hcalls, hrp]; simp only [List.append_assoc]
  · intro p f n hm
    rcases List.mem_append.mp hm with hm | hm
    · exact absurd rfl ((not_draw_call (hpre _ hm)).2.2 p f n)
    · rcases List.mem_append.mp hm with hm | hm
      · have := begin_color_scope v tc _ hm
        rw [begin_color_calls] at hm
        split_ifs at hm
        · cases hm
        · simp at hm
        · simp at hm
      · obtain ⟨s, a, e⟩ := depth_stencil_calls_only v _ hm
        cases e
  · rw [hidx, ← hflag]
    constructor
    · intro hm
      exact (hclear _ hm).2
    · intro hc
      exact List.mem_append_right _ (List.mem_append_left _
        ((begin_color_clear v tc _).mpr ⟨rfl, hc⟩))
  · intro t hm
    rw [hidx]
    exact (hclear t hm).1
  · have hlt : v.image_index < v.swap_buffers.length := (List.getElem?_eq_some.mp hb).1
    refine ⟨{ buffer with tc := some (begin_color v tc).2 }, (begin_color v tc).2, ?_, rfl,
      begin_color_state v tc⟩
    rw [hsw, hidx]
    exact List.getElem?_set_self hlt

/-- C13 at the sample window with no clear flag set: the swapchain is made
anew, so the acquired image has layout undefined and is cleared. -/
theorem begin_frame_color_image_witness :
    Call.clear_color_image (.color 1) ∈
      calls_since no_clear_window (begin_frame sample_device .FM_render no_clear_window).state ∧
    ∃ v buffer tc pre framebuffer count,
      begin_render_pass v =
        .done true (begin_frame sample_device .FM_render no_clear_window).state ∧
      v.image_index = (begin_frame sample_device .FM_render no_clear_window).state.image_index ∧
      v.swap_buffers[(begin_frame sample_device .FM_render
        no_clear_window).state.image_index]? = some buffer ∧
      buffer.tc = some tc ∧
      (no_clear_window.swapchain_size = no_clear_window.size →
        v.swap_buffers = no_clear_window.swap_buffers) ∧
      calls_since no_clear_window (begin_frame sample_device .FM_render no_clear_window).state =
        pre ++ [.vkCmdBeginRenderPass
          (begin_frame sample_device .FM_render no_clear_window).state.render_pass
          framebuffer count] ∧
      (∀ p f n, Call.vkCmdBeginRenderPass p f n ∉ pre) ∧
      (Call.clear_color_image (.color (begin_frame sample_device .FM_render
          no_clear_window).state.image_index) ∈ pre ↔
        (no_clear_window.get_clear_color_active = false ∧
          tc.layout = VK_IMAGE_LAYOUT_UNDEFINED)) ∧
      (∀ t, Call.clear_color_image t ∈ pre →
        t = .color (begin_frame sample_device .FM_render no_clear_window).state.image_index) ∧
      ∃ buffer2 tc2,
        (begin_frame sample_device .FM_render no_clear_window).state.swap_buffers[
          (begin_frame sample_device .FM_render no_clear_window).state.image_index]? =
            some buffer2 ∧
        buffer2.tc = some tc2 ∧
        tc2.layout = VK_IMAGE_LAYOUT_COLOR_ATTACHMENT_OPTIMAL ∧
        tc2.access_mask = VK_ACCESS_COLOR_ATTACHMENT_WRITE_BIT ∧
        tc2.stage_mask = VK_PIPELINE_STAGE_COLOR_ATTACHMENT_OUTPUT_BIT :=
  ⟨by decide, begin_frame_color_image sample_device no_clear_window
    (begin_frame sample_device .FM_render no_clear_window).state rfl⟩

/-! ## C14 -/

/-- C14: for every render-mode `begin_frame` that returned true and left the
GSG with a command buffer that is not null, the render-mode `end_frame` that
follows returns, and in the state `s` it leaves the tracked layout of the swap
buffer at the acquired image index is present-source; so for every answer of
the device `end_flip` gets past its layout assertion to the present request,
which is issued for the swapchain and that index.  The copy to textures and
the submission of the commands touch no tracked layout. -/
theorem end_frame_present_source (dev : Device) (w r : Window)
    (h : begin_frame dev .FM_render w = .done true r)
    (hcmd : r.gsg.map (fun g => g.cmd) ≠ some VK_NULL_HANDLE) :
    ∃ s buffer tc, end_frame .FM_render r = .done () s ∧
      s.image_index = r.image_index ∧ s.swapchain = r.swapchain ∧
      s.swap_buffers[r.image_index]? = some buffer ∧ buffer.tc = some tc ∧
      tc.layout = VK_IMAGE_LAYOUT_PRESENT_SRC_KHR ∧
      ∀ dev2, end_flip dev2 s = present_image dev2 s ∧
        ∃ rest, calls_since s (end_flip dev2 s).state =
          .vkQueuePresentKHR r.swapchain r.image_index :: rest := by
  obtain ⟨v, pre, buffer, tc, _, hb, _, hidx, hvc, hrc, _, _, _, _, hsw, _⟩ :=
    begin_frame_render_calls dev w r h
  obtain ⟨v2, _, _, _, _, _, hcfg2, _, _, _, hg2⟩ := begin_frame_done dev w r h
  have hrg : r.gsg ≠ none := config_gsg hrc (config_gsg hcfg2.symm hg2)
  have hlt : v.image_index < v.swap_buffers.length := (List.getElem?_eq_some.mp hb).1
  have hrb : r.swap_buffers[r.image_index]? =
      some { buffer with tc := some (begin_color v tc).2 } := by
    rw [hsw, hidx]
    exact List.getElem?_set_self hlt
  cases hg : r.gsg with
  | none => exact absurd hg hrg
  | some g =>
    have hc : g.cmd ≠ VK_NULL_HANDLE := by
      intro e
      apply hcmd
      rw [hg, Option.map_some', e]
    obtain ⟨s, hs, hi, hsc, hsg, _, _, hsb⟩ := end_frame_done r g _ _ hg hc hrb rfl
    have hlt2 : r.image_index < r.swap_buffers.length := (List.getElem?_eq_some.mp hrb).1
    have hsbuf : s.swap_buffers[s.image_index]? = some
        { tc := some { (begin_color v tc).2 with layout := VK_IMAGE_LAYOUT_PRESENT_SRC_KHR },
          framebuffer := buffer.framebuffer } := by
      rw [hsb, hi]
      exact List.getElem?_set_self hlt2
    refine ⟨s,
      { tc := some { (begin_color v tc).2 with layout := VK_IMAGE_LAYOUT_PRESENT_SRC_KHR },
        framebuffer := buffer.framebuffer },
      { (begin_color v tc).2 with layout := VK_IMAGE_LAYOUT_PRESENT_SRC_KHR },
      hs, hi, hsc, by rw [← hi]; exact hsbuf, rfl, rfl, ?_⟩
    intro dev2
    have hp := end_flip_present dev2 s _ _ hsg hsbuf rfl rfl
    have hcs := (present_image_calls dev2 s).1
    rw [hsc, hi] at hcs
    refine ⟨hp, ?_⟩
    rw [hp]
    exact ⟨_, hcs⟩

/-- C14 at the sample window and device. -/
theorem end_frame_present_source_witness :
    (begin_frame sample_device .FM_render sample_window).state.gsg.map (fun g => g.cmd) ≠
      some VK_NULL_HANDLE ∧
    ∃ s buffer tc,
      end_frame .FM_render (begin_frame sample_device .FM_render sample_window).state =
        .done () s ∧
      s.image_index = (begin_frame sample_device .FM_render sample_window).state.image_index ∧
      s.swapchain = (begin_frame sample_device .FM_render sample_window).state.swapchain ∧
      s.swap_buffers[(begin_frame sample_device .FM_render
        sample_window).state.image_index]? = some buffer ∧
      buffer.tc = some tc ∧ tc.layout = VK_IMAGE_LAYOUT_PRESENT_SRC_KHR ∧
      ∀ dev2, end_flip dev2 s = present_image dev2 s ∧
        ∃ rest, calls_since s (end_flip dev2 s).state =
          .vkQueuePresentKHR (begin_frame sample_device .FM_render sample_window).state.swapchain
            (begin_frame sample_device .FM_render sample_window).state.image_index :: rest :=
  ⟨by decide, end_frame_present_source sample_device sample_window
    (begin_frame sample_device .FM_render sample_window).state rfl (by decide)⟩

/-! ## C15 -/

/-- C15, counterexample: the present request succeeds and the wait for the
queue returns `VK_ERROR_DEVICE_LOST`.  `end_flip` stops at the `assert` of
line 333, after the present request and the wait: the semaphore is not
destroyed and its handle is not null. -/
theorem end_flip_failed_wait_keeps_semaphore :
    lost_device.queue_present = VK_SUCCESS ∧
    lost_device.queue_wait_idle ≠ VK_SUCCESS ∧
    presentable_window.present_complete = 60 ∧
    (end_flip lost_device presentable_window).value = none ∧
    calls_since presentable_window (end_flip lost_device presentable_window).state =
      [.vkQueuePresentKHR 9 0, .vkQueueWaitIdle] ∧
    Call.vkDestroySemaphore 60 ∉
      calls_since presentable_window (end_flip lost_device presentable_window).state ∧
    (end_flip lost_device presentable_window).state.present_complete ≠ VK_NULL_HANDLE :=
  ⟨by decide, by decide, by decide, by decide, by decide, by decide, by decide⟩

/-- C15 as amended: when `end_flip` gets to the present request (a GSG is bound and the
tracked layout at the image index is present-source), for every result of
the request: when it is success, out-of-date or suboptimal and the wait for
the queue succeeds, as line 333 asserts, `end_flip` returns after exactly the
present request, the wait and the destruction of the semaphore, and the
semaphore handle is null; for any other result it returns after the present
request alone, with no wait.  In every case the swapchain, the swap buffers
and the image index are as before. -/
theorem end_flip_present_result (dev : Device) (w : Window) (buffer : SwapBuffer)
    (tc : VulkanTextureContext) (hg : w.gsg ≠ none)
    (hb : w.swap_buffers[w.image_index]? = some buffer) (htc : buffer.tc = some tc)
    (hl : tc.layout = VK_IMAGE_LAYOUT_PRESENT_SRC_KHR) :
    ((dev.queue_present = VK_SUCCESS ∨ dev.queue_present = VK_ERROR_OUT_OF_DATE_KHR ∨
        dev.queue_present = VK_SUBOPTIMAL_KHR) →
      dev.queue_wait_idle = VK_SUCCESS →
      ∃ r, end_flip dev w = .done () r ∧
        calls_since w r = [.vkQueuePresentKHR w.swapchain w.image_index, .vkQueueWaitIdle,
          .vkDestroySemaphore w.present_complete] ∧
        r.present_complete = VK_NULL_HANDLE) ∧
    (¬ (dev.queue_present = VK_SUCCESS ∨ dev.queue_present = VK_ERROR_OUT_OF_DATE_KHR ∨
        dev.queue_present = VK_SUBOPTIMAL_KHR) →
      ∃ r, end_flip dev w = .done () r ∧
        calls_since w r = [.vkQueuePresentKHR w.swapchain w.image_index] ∧
        r.present_complete = w.present_complete) ∧
    (end_flip dev w).state.swapchain = w.swapchain ∧
    (end_flip dev w).state.swap_buffers = w.swap_buffers ∧
    (end_flip dev w).state.image_index = w.image_index := by
  rw [end_flip_present dev w buffer tc hg hb htc hl]
  have hf : present_failed dev.queue_present = true ↔
      ¬ (dev.queue_present = VK_SUCCESS ∨ dev.queue_present = VK_ERROR_OUT_OF_DATE_KHR ∨
        dev.queue_present = VK_SUBOPTIMAL_KHR) := by
    unfold present_failed
    by_cases h1 : dev.queue_present = VK_ERROR_OUT_OF_DATE_KHR
    · simp [h1]
    · by_cases h2 : dev.queue_present = VK_SUBOPTIMAL_KHR
      · simp [h1, h2]
      · by_cases h3 : dev.queue_present = VK_SUCCESS
        · simp [h1, h2, h3]
        · simp [h1, h2, h3]
  obtain ⟨hcalls, h1, h2, h3⟩ := present_image_calls dev w
  refine ⟨?_, ?_, h1, h2, h3⟩
  · intro hs hw
    have hnf : ¬ present_failed dev.queue_present = true := fun hp => hf.mp hp hs
    rw [if_neg hnf, if_neg (by simpa using hw)] at hcalls
    obtain ⟨hd, hpc⟩ := present_image_done dev w (Or.inr hw)
    rw [if_neg hnf] at hpc
    exact ⟨_, hd, hcalls, hpc⟩
  · intro hs
    have hp : present_failed dev.queue_present = true := hf.mpr hs
    rw [if_pos hp] at hcalls
    obtain ⟨hd, hpc⟩ := present_image_done dev w (Or.inl hp)
    rw [if_pos hp] at hpc
    exact ⟨_, hd, hcalls, hpc⟩

/-- C15 as amended, at a window whose frame has ended, with a present
request that succeeds. -/
theorem end_flip_present_result_witness :
    sample_device.queue_present = VK_SUCCESS ∧
    ∃ r, end_flip sample_device presentable_window = .done () r ∧
      calls_since presentable_window r =
        [.vkQueuePresentKHR presentable_window.swapchain presentable_window.image_index,
          .vkQueueWaitIdle, .vkDestroySemaphore presentable_window.present_complete] ∧
      r.present_complete = VK_NULL_HANDLE :=
  ⟨by decide, (end_flip_present_result sample_device presentable_window
    { tc := some drawn_tc, framebuffer := 40 } drawn_tc (by decide) rfl rfl rfl).1
    (Or.inl (by decide)) (by decide)⟩

/-! ## C16 -/

/-- C16: for every window, every frame mode and every answer of the device,
in the calls of `begin_frame` and in the calls of `close_window` each
destructive step (the call of `destroy_swapchain`, the rebuild of the render
pass, the destruction of the swapchain or of the render pass) comes after a
`vkQueueWaitIdle`, and no submission of commands, acquisition of an image or
present request lies between that wait and the step.  This holds of the
calls made up to a fault as well. -/
theorem destructive_steps_after_wait (dev : Device) (mode : FrameMode) (w : Window) :
    guarded (calls_since w (begin_frame dev mode w).state) ∧
    guarded (calls_since w (close_window w).state) :=
  ⟨begin_frame_guarded dev mode w, close_window_guarded w⟩

/-! ## C17 -/

/-- C17, failing input: the sample window, whose recorded clear mask is not
its current one, with a device that rejects the render pass description.
`setup_render_pass` returns false, yet `begin_frame` goes on, returns true
and begins a render pass with the render pass handle the window had, here
the null handle; the recorded clear mask still differs from the current
one. -/
theorem begin_frame_rejected_render_pass :
    sample_window.current_clear_mask ≠ sample_window.clear_mask ∧
    rejecting_device.create_render_pass.1 ≠ VK_SUCCESS ∧
    (setup_render_pass rejecting_device (sample_window.log .vkQueueWaitIdle)).1 = false ∧
    (begin_frame rejecting_device .FM_render sample_window).value = some true ∧
    Call.vkCmdBeginRenderPass VK_NULL_HANDLE 41 2 ∈
      calls_since sample_window
        (begin_frame rejecting_device .FM_render sample_window).state ∧
    (begin_frame rejecting_device .FM_render sample_window).state.current_clear_mask ≠
      (begin_frame rejecting_device .FM_render sample_window).state.clear_mask :=
  ⟨by decide, by decide, by decide, by decide, by decide, by decide⟩

/-! ## C18 -/

/-- C18: for every render-mode `begin_frame` that returns true, whatever the
three clear flags, and every window `p` with the same clear flags, from which
`setup_render_pass` builds the attachments `color_attachment p` and
`depth_stencil_attachment p`: a transition of the acquired colour image is
recorded exactly when the pass declares colour-attachment-optimal as the
initial layout of the colour attachment, and none exactly when it declares
undefined; when there is a depth-stencil image, a transition of it is
recorded exactly when the pass declares depth-stencil-attachment-optimal as
the initial layout of the depth-stencil attachment, and none exactly when it
declares undefined; every transition recorded is to the attachment-optimal
layout of its image; when the pass declares undefined for the colour
attachment no clear of the image is recorded either; and on return the
tracked layout, access and stage of the acquired colour image and of the
depth-stencil image are those of the attachment-optimal layout, so where no
transition is recorded the tracked state is updated all the same. -/
theorem begin_frame_layouts_agree (dev : Device) (w r p : Window)
    (h : begin_frame dev .FM_render w = .done true r) (hp : p.clear_mask = w.clear_mask) :
    ((∃ l s a, Call.transition (.color r.image_index) l s a ∈ calls_since w r) ↔
      (color_attachment p).initialLayout = VK_IMAGE_LAYOUT_COLOR_ATTACHMENT_OPTIMAL) ∧
    ((¬ ∃ l s a, Call.transition (.color r.image_index) l s a ∈ calls_since w r) ↔
      (color_attachment p).initialLayout = VK_IMAGE_LAYOUT_UNDEFINED) ∧
    (r.depth_stencil_tc ≠ none →
      ((∃ l s a, Call.transition .depth_stencil l s a ∈ calls_since w r) ↔
        (depth_stencil_attachment p).initialLayout =
          VK_IMAGE_LAYOUT_DEPTH_STENCIL_ATTACHMENT_OPTIMAL) ∧
      ((¬ ∃ l s a, Call.transition .depth_stencil l s a ∈ calls_since w r) ↔
        (depth_stencil_attachment p).initialLayout = VK_IMAGE_LAYOUT_UNDEFINED)) ∧
    (∀ t l s a, Call.transition t l s a ∈ calls_since w r →
      (t = .color r.image_index ∧ l = VK_IMAGE_LAYOUT_COLOR_ATTACHMENT_OPTIMAL) ∨
      (t = .depth_stencil ∧ l = VK_IMAGE_LAYOUT_DEPTH_STENCIL_ATTACHMENT_OPTIMAL)) ∧
    ((color_attachment p).initialLayout = VK_IMAGE_LAYOUT_UNDEFINED →
      ∀ t, Call.clear_color_image t ∉ calls_since w r) ∧
    (∃ buffer tc, r.swap_buffers[r.image_index]? = some buffer ∧ buffer.tc = some tc ∧
      tc.layout = VK_IMAGE_LAYOUT_COLOR_ATTACHMENT_OPTIMAL ∧
      tc.access_mask = VK_ACCESS_COLOR_ATTACHMENT_WRITE_BIT ∧
      tc.stage_mask = VK_PIPELINE_STAGE_COLOR_ATTACHMENT_OUTPUT_BIT) ∧
    (∀ d, r.depth_stencil_tc = some d →
      d.layout = VK_IMAGE_LAYOUT_DEPTH_STENCIL_ATTACHMENT_OPTIMAL ∧
      d.access_mask = VK_ACCESS_DEPTH_STENCIL_ATTACHMENT_WRITE_BIT ∧
      d.stage_mask = (VK_PIPELINE_STAGE_EARLY_FRAGMENT_TESTS_BIT |||
        VK_PIPELINE_STAGE_LATE_FRAGMENT_TESTS_BIT)) := by
  obtain ⟨hf1, hf2, hf3⟩ := config_flags hp
  have hcolor : (∃ l s a, Call.transition (.color r.image_index) l s a ∈ calls_since w r) ↔
      p.get_clear_color_active = false := by
    rw [hf1]
    constructor
    · rintro ⟨l, s, a, hm⟩
      rcases (begin_frame_transition_mem dev w r h _ l s a).mp hm with hc | hd
      · exact hc.1
      · exact absurd hd.2.2.1 (by intro e; cases e)
    · intro hc
      exact ⟨_, _, _, (begin_frame_transition_mem dev w r h _ _ _ _).mpr
        (Or.inl ⟨hc, rfl, rfl, rfl, rfl⟩)⟩
  have hdepth : r.depth_stencil_tc ≠ none →
      ((∃ l s a, Call.transition .depth_stencil l s a ∈ calls_since w r) ↔
        ¬ (p.get_clear_depth_active = true ∧ p.get_clear_stencil_active = true)) := by
    intro hr
    rw [hf2, hf3]
    constructor
    · rintro ⟨l, s, a, hm⟩
      rcases (begin_frame_transition_mem dev w r h _ l s a).mp hm with hc | hd
      · exact absurd hc.2.1 (by intro e; cases e)
      · exact hd.2.1
    · intro hc
      exact ⟨_, _, _, (begin_frame_transition_mem dev w r h _ _ _ _).mpr
        (Or.inr ⟨hr, hc, rfl, rfl, rfl, rfl⟩)⟩
  refine ⟨?_, ?_, ?_, ?_, ?_, begin_frame_color_state dev w r h,
    fun d hd => begin_frame_depth_state dev w r h d hd⟩
  · rw [hcolor, color_attachment_initial]
    cases p.get_clear_color_active <;> decide
  · rw [hcolor, color_attachment_initial]
    cases p.get_clear_color_active <;> decide
  · intro hr
    rw [hdepth hr, depth_stencil_attachment_initial]
    cases p.get_clear_depth_active <;> cases p.get_clear_stencil_active <;> decide
  · intro t l s a hm
    rcases (begin_frame_transition_mem dev w r h t l s a).mp hm with hc | hd
    · exact Or.inl ⟨hc.2.1, hc.2.2.1⟩
    · exact Or.inr ⟨hd.2.2.1, hd.2.2.2.1⟩
  · intro hu t hm
    have hf := begin_frame_clear_mem dev w r h t hm
    rw [color_attachment_initial, hf1, hf] at hu
    exact absurd hu (by decide)

/-- C18 at the sample window, which clears colour only: no transition of the
colour image, one of the depth-stencil image. -/
theorem begin_frame_layouts_agree_witness :
    (color_attachment sample_window).initialLayout = VK_IMAGE_LAYOUT_UNDEFINED ∧
    (depth_stencil_attachment sample_window).initialLayout =
      VK_IMAGE_LAYOUT_DEPTH_STENCIL_ATTACHMENT_OPTIMAL ∧
    (begin_frame sample_device .FM_render sample_window).state.depth_stencil_tc ≠ none ∧
    ((¬ ∃ l s a, Call.transition
        (.color (begin_frame sample_device .FM_render sample_window).state.image_index) l s a ∈
        calls_since sample_window
          (begin_frame sample_device .FM_render sample_window).state) ↔
      (color_attachment sample_window).initialLayout = VK_IMAGE_LAYOUT_UNDEFINED) ∧
    (∀ t l s a, Call.transition t l s a ∈ calls_since sample_window
        (begin_frame sample_device .FM_render sample_window).state →
      (t = .color (begin_frame sample_device .FM_render sample_window).state.image_index ∧
        l = VK_IMAGE_LAYOUT_COLOR_ATTACHMENT_OPTIMAL) ∨
      (t = .depth_stencil ∧ l = VK_IMAGE_LAYOUT_DEPTH_STENCIL_ATTACHMENT_OPTIMAL)) :=
  ⟨by decide, by decide, by decide,
    (begin_frame_layouts_agree sample_device sample_window
      (begin_frame sample_device .FM_render sample_window).state sample_window rfl rfl).2.1,
    (begin_frame_layouts_agree sample_device sample_window
      (begin_frame sample_device .FM_render sample_window).state sample_window rfl rfl).2.2.2.1⟩

end VulkanDisplay
